import Mathlib

/-!
Shallow embedding of the decode engine of cpuid (src/cpuid.c), for checking
the natural-language specification against the code.

Machine integers are modelled as `Nat`; every register word fed into these
functions is a 32-bit value (< 2^32), and wherever C overflow/wraparound is
possible the wrap is written out explicitly (`% 4294967296`).  C strings are
Lean `String`s, `NULL` string pointers are `Option.none`, booleans are `Bool`.
The mutable `code_stash_t` accumulator is threaded functionally: a C function
mutating the stash becomes a Lean function `CodeStash → CodeStash`.
-/

set_option maxRecDepth 8000

namespace Cpuid

/-- `BIT_EXTRACT_LE(value, start, after)` of cpuid.c:
`(value & RIGHTMASK(after)) >> start`, for 32-bit `value`.
(`RIGHTMASK(w)` is all-ones for `w ≥ 32`, which on a 32-bit value is the
same as `value % 2^32`, so `value % 2^after` is exact for every use.) -/
def bitExtractLE (value start after : Nat) : Nat :=
  (value % 2 ^ after) / 2 ^ start

/-- `vendor_t` of cpuid.c. -/
inductive Vendor where
  | unknown
  | intel
  | amd
  | cyrix
  | via
  | transmeta
  | umc
  | nexgen
  | rise
  | sis
  | nsc
  | vortex
  | rdc
  | hygon
  | zhaoxin
deriving DecidableEq, BEq

/-- `struct mp` of `code_stash_t`: the multi-processing synthesis result.
`cores` and `hyperthreads` are C `unsigned int`s initialised to `-1`
(i.e. 4294967295) by `NIL_STASH`. -/
structure MpData where
  method : Option String
  cores : Nat
  hyperthreads : Nat
deriving DecidableEq

/-- `struct br` of `code_stash_t`: brand-string-derived facts
(set by `decode_brand_string`). -/
structure BrandData where
  mobile : Bool
  -- Intel
  celeron : Bool
  core : Bool
  pentium : Bool
  xeon_mp : Bool
  xeon : Bool
  pentium_m : Bool
  pentium_d : Bool
  extreme : Bool
  generic : Bool
  scalable : Bool
  u_line : Bool
  y_line : Bool
  i_10000 : Bool
  -- AMD
  athlon_lv : Bool
  athlon_xp : Bool
  duron : Bool
  athlon : Bool
  sempron : Bool
  phenom : Bool
  series : Bool
  a_series : Bool
  c_series : Bool
  e_series : Bool
  g_series : Bool
  r_series : Bool
  z_series : Bool
  geode : Bool
  turion : Bool
  neo : Bool
  athlon_fx : Bool
  athlon_mp : Bool
  duron_mp : Bool
  opteron : Bool
  fx : Bool
  firepro : Bool
  ultra : Bool
  t_suffix : Bool
  ryzen : Bool
  epyc : Bool
  embedded : Bool
  cores : Nat
  -- Cyrix
  mediagx : Bool
deriving DecidableEq

/-- `struct bri` of `code_stash_t`: brand-id-derived facts. -/
structure BrandIdData where
  desktop_pentium : Bool
  desktop_celeron : Bool
  mobile_pentium : Bool
  mobile_pentium_m : Bool
  mobile_celeron : Bool
  xeon_mp : Bool
  xeon : Bool
deriving DecidableEq

/-- `code_stash_t` of cpuid.c, restricted to the fields read or written by
the functions embedded in this file (the raw-value fields the decode engine
never touches, such as `val_0_eax`, the Transmeta fields, `soc_brand` and the
hypervisor id, are omitted).  The `val_b_ebx` array of length 2 and the
`val_1f_ebx`/`val_1f_ecx` arrays of length 6 are flattened into numbered
fields. -/
structure CodeStash where
  vendor : Vendor
  saw_4 : Bool
  saw_b : Bool
  saw_1f : Bool
  val_1_eax : Nat
  val_1_ebx : Nat
  val_1_ecx : Nat
  val_1_edx : Nat
  val_4_eax : Nat
  val_b_ebx_0 : Nat
  val_b_ebx_1 : Nat
  val_1f_ebx_0 : Nat
  val_1f_ebx_1 : Nat
  val_1f_ebx_2 : Nat
  val_1f_ebx_3 : Nat
  val_1f_ebx_4 : Nat
  val_1f_ebx_5 : Nat
  val_1f_ecx_0 : Nat
  val_1f_ecx_1 : Nat
  val_1f_ecx_2 : Nat
  val_1f_ecx_3 : Nat
  val_1f_ecx_4 : Nat
  val_1f_ecx_5 : Nat
  val_80000001_eax : Nat
  val_80000001_ebx : Nat
  val_80000001_ecx : Nat
  val_80000008_ecx : Nat
  brand : String
  override_brand : String
  mp : MpData
  br : BrandData
  bri : BrandIdData
  L2_4w_1Mor2M : Bool
  L2_4w_512K : Bool
  L2_4w_256K : Bool
  L2_8w_1Mor2M : Bool
  L2_8w_512K : Bool
  L2_8w_256K : Bool
  L2_2M : Bool
  L2_6M : Bool
  L3 : Bool
  L2_256K : Bool
  L2_512K : Bool
deriving DecidableEq

/-- `NIL_STASH` of cpuid.c: everything zero / FALSE / empty; the `mp`
counts are `unsigned int` fields initialised to `-1`, i.e. 4294967295. -/
def nilStash : CodeStash where
  vendor := .unknown
  saw_4 := false
  saw_b := false
  saw_1f := false
  val_1_eax := 0
  val_1_ebx := 0
  val_1_ecx := 0
  val_1_edx := 0
  val_4_eax := 0
  val_b_ebx_0 := 0
  val_b_ebx_1 := 0
  val_1f_ebx_0 := 0
  val_1f_ebx_1 := 0
  val_1f_ebx_2 := 0
  val_1f_ebx_3 := 0
  val_1f_ebx_4 := 0
  val_1f_ebx_5 := 0
  val_1f_ecx_0 := 0
  val_1f_ecx_1 := 0
  val_1f_ecx_2 := 0
  val_1f_ecx_3 := 0
  val_1f_ecx_4 := 0
  val_1f_ecx_5 := 0
  val_80000001_eax := 0
  val_80000001_ebx := 0
  val_80000001_ecx := 0
  val_80000008_ecx := 0
  brand := ""
  override_brand := ""
  mp := { method := none, cores := 4294967295, hyperthreads := 4294967295 }
  br := {
    mobile := false, celeron := false, core := false, pentium := false,
    xeon_mp := false, xeon := false, pentium_m := false, pentium_d := false,
    extreme := false, generic := false, scalable := false, u_line := false,
    y_line := false, i_10000 := false, athlon_lv := false, athlon_xp := false,
    duron := false, athlon := false, sempron := false, phenom := false,
    series := false, a_series := false, c_series := false, e_series := false,
    g_series := false, r_series := false, z_series := false, geode := false,
    turion := false, neo := false, athlon_fx := false, athlon_mp := false,
    duron_mp := false, opteron := false, fx := false, firepro := false,
    ultra := false, t_suffix := false, ryzen := false, epyc := false,
    embedded := false, cores := 0, mediagx := false }
  bri := {
    desktop_pentium := false, desktop_celeron := false, mobile_pentium := false,
    mobile_pentium_m := false, mobile_celeron := false, xeon_mp := false,
    xeon := false }
  L2_4w_1Mor2M := false
  L2_4w_512K := false
  L2_4w_256K := false
  L2_8w_1Mor2M := false
  L2_8w_512K := false
  L2_8w_256K := false
  L2_2M := false
  L2_6M := false
  L3 := false
  L2_256K := false
  L2_512K := false

/-! ### String search (C `strstr`) -/

/-- Does `needle` occur at the front of `hay`? -/
def listStartsWith : List Char → List Char → Bool
  | _, [] => true
  | [], _ :: _ => false
  | h :: t, n :: ns => h == n && listStartsWith t ns

/-- Does `needle` occur anywhere inside `hay`?  (`strstr(hay, needle) != NULL`.) -/
def listContainsSub (hay needle : List Char) : Bool :=
  match hay with
  | [] => needle.isEmpty
  | _ :: t => listStartsWith hay needle || listContainsSub t needle

/-- `strstr(hay, needle) != NULL` on Lean strings. -/
def strstrC (hay needle : String) : Bool :=
  listContainsSub hay.toList needle.toList

/-! ### Fixed-pattern POSIX regex matching (C `strregexp`)

`strregexp` of cpuid.c hands a fixed pattern to the C library's `regcomp` /
`regexec` (an external collaborator, not code of this repository) and asks
whether it matches anywhere in the haystack.  The six patterns the decode
engine uses need only: literal characters, character classes, `?` on a
character, and `*` on a class or on `.`.  They are modelled by a small
backtracking matcher over that token language; `rmatchAux` carries explicit
fuel so that it is structurally recursive (each step consumes fuel; fuel
`(toks.length + 1) * (hay.length + 1)` strictly exceeds every backtracking
path, since every recursive call shortens the token list or the string). -/

/-- One token of the regex sub-language used by cpuid.c's fixed patterns. -/
inductive RTok where
  | lit (c : Char)
  | cls (cs : List Char)
  | opt (c : Char)
  | star (cs : Option (List Char))
deriving DecidableEq

/-- Does the token list match a prefix of `s`?  Fueled backtracking. -/
def rmatchAux : Nat → List RTok → List Char → Bool
  | 0, _, _ => false
  | _ + 1, [], _ => true
  | fuel + 1, .lit c :: rest, s =>
    match s with
    | [] => false
    | x :: xs => x == c && rmatchAux fuel rest xs
  | fuel + 1, .cls cs :: rest, s =>
    match s with
    | [] => false
    | x :: xs => cs.contains x && rmatchAux fuel rest xs
  | fuel + 1, .opt c :: rest, s =>
    rmatchAux fuel rest s ||
      (match s with
       | [] => false
       | x :: xs => x == c && rmatchAux fuel rest xs)
  | fuel + 1, .star cs :: rest, s =>
    rmatchAux fuel rest s ||
      (match s with
       | [] => false
       | x :: xs =>
         (match cs with
          | none => true
          | some l => l.contains x) && rmatchAux fuel (.star cs :: rest) xs)

/-- Does the token list match starting at some position of `s`? -/
def rsearchAux (fuel : Nat) (toks : List RTok) : List Char → Bool
  | [] => rmatchAux fuel toks []
  | s@(_ :: xs) => rmatchAux fuel toks s || rsearchAux fuel toks xs

/-- `strregexp(hay, pattern) != 0`, for a pattern already tokenised. -/
def strregexp (hay : String) (toks : List RTok) : Bool :=
  rsearchAux ((toks.length + 1) * (hay.toList.length + 1)) toks hay.toList

def rdigits : List Char := ['0', '1', '2', '3', '4', '5', '6', '7', '8', '9']

/-- Pattern `" ?X[0-9][0-9][0-9][0-9]"`. -/
def patExtreme : List RTok :=
  [.opt ' ', .lit 'X', .cls rdigits, .cls rdigits, .cls rdigits, .cls rdigits]

/-- Pattern `"Core.* [im][3579]-[0-9]*U"`. -/
def patULineCore : List RTok :=
  [.lit 'C', .lit 'o', .lit 'r', .lit 'e', .star none, .lit ' ',
   .cls ['i', 'm'], .cls ['3', '5', '7', '9'], .lit '-', .star (some rdigits),
   .lit 'U']

/-- Pattern `"Pentium.* [0-9]*U"`. -/
def patULinePentium : List RTok :=
  [.lit 'P', .lit 'e', .lit 'n', .lit 't', .lit 'i', .lit 'u', .lit 'm',
   .star none, .lit ' ', .star (some rdigits), .lit 'U']

/-- Pattern `"Core.* [im][3579]-[0-9]*Y"`. -/
def patYLine : List RTok :=
  [.lit 'C', .lit 'o', .lit 'r', .lit 'e', .star none, .lit ' ',
   .cls ['i', 'm'], .cls ['3', '5', '7', '9'], .lit '-', .star (some rdigits),
   .lit 'Y']

/-- Pattern `"Core.* i[3579]-10[0-9][0-9][0-9]"`. -/
def patI10000 : List RTok :=
  [.lit 'C', .lit 'o', .lit 'r', .lit 'e', .star none, .lit ' ', .lit 'i',
   .cls ['3', '5', '7', '9'], .lit '-', .lit '1', .lit '0',
   .cls rdigits, .cls rdigits, .cls rdigits]

/-- Pattern `"[0-9][0-9][0-9][0-9]T"`. -/
def patTSuffix : List RTok :=
  [.cls rdigits, .cls rdigits, .cls rdigits, .cls rdigits, .lit 'T']

/-! ### `decode_brand_string` and `decode_brand_stash` -/

/-- `decode_brand_string(brand, stash)` of cpuid.c: recompute every
brand-derived fact of `stash->br` from the given string. -/
def decode_brand_string (brand : String) (stash : CodeStash) : CodeStash :=
  { stash with br := {
      mobile := strstrC brand "Mobile" || strstrC brand "mobile"
      celeron := strstrC brand "Celeron"
      core := strstrC brand "Core(TM)"
      pentium := strstrC brand "Pentium"
      xeon_mp := strstrC brand "Xeon MP" || strstrC brand "Xeon(TM) MP" ||
        strstrC brand "Xeon(R)"
      xeon := strstrC brand "Xeon"
      pentium_m := strstrC brand "Pentium(R) M"
      pentium_d := strstrC brand "Pentium(R) D"
      extreme := strregexp brand patExtreme
      generic := strstrC brand "Genuine Intel(R) CPU"
      scalable := strstrC brand "Bronze" || strstrC brand "Silver" ||
        strstrC brand "Gold" || strstrC brand "Platinum"
      u_line := strregexp brand patULineCore || strregexp brand patULinePentium
      y_line := strregexp brand patYLine
      i_10000 := strregexp brand patI10000
      athlon_lv := strstrC brand "Athlon(tm) XP-M (LV)"
      athlon_xp := strstrC brand "Athlon(tm) XP" || strstrC brand "Athlon(TM) XP"
      duron := strstrC brand "Duron"
      athlon := strstrC brand "Athlon"
      sempron := strstrC brand "Sempron"
      phenom := strstrC brand "Phenom"
      series := strstrC brand "Series"
      a_series := strstrC brand "AMD A"
      c_series := strstrC brand "AMD C"
      e_series := strstrC brand "AMD E"
      g_series := strstrC brand "AMD G"
      r_series := strstrC brand "AMD R"
      z_series := strstrC brand "AMD Z"
      geode := strstrC brand "Geode"
      turion := strstrC brand "Turion"
      neo := strstrC brand "Neo"
      athlon_fx := strstrC brand "Athlon(tm) 64 FX"
      athlon_mp := strstrC brand "Athlon(tm) MP"
      duron_mp := strstrC brand "Duron(tm) MP"
      opteron := strstrC brand "Opteron"
      fx := strstrC brand "AMD FX"
      firepro := strstrC brand "Firepro"
      ultra := strstrC brand "Ultra"
      t_suffix := strregexp brand patTSuffix
      ryzen := strstrC brand "Ryzen"
      epyc := strstrC brand "EPYC"
      embedded := strstrC brand "Embedded"
      cores :=
        if strstrC brand "Dual Core" || strstrC brand " X2 " then 2
        else if strstrC brand "Triple-Core" || strstrC brand " X3 " then 3
        else if strstrC brand "Quad-Core" || strstrC brand " X4 " then 4
        else if strstrC brand "Six-Core" || strstrC brand " X6 " then 6
        else 0
      mediagx := strstrC brand "MediaGXtm" } }

/-- `decode_brand_stash(stash)` of cpuid.c: the brand facts come from the
override brand whenever one was synthesized, else from the real brand. -/
def decode_brand_stash (stash : CodeStash) : CodeStash :=
  if stash.override_brand ≠ "" then
    decode_brand_string stash.override_brand stash
  else
    decode_brand_string stash.brand stash

/-! ### The query (disambiguation predicate) macros

Each `#define` query of cpuid.c becomes a `CodeStash → Bool` under its
source name.  The `(stash) && (q)` null-pointer guard of the `FQ`/`FMQ`/
`FMSQ` table macros is handled at the rule-match level (`keyMatches`). -/

def is_intel (s : CodeStash) : Bool := s.vendor == .intel
def is_amd (s : CodeStash) : Bool := s.vendor == .amd
def is_cyrix (s : CodeStash) : Bool := s.vendor == .cyrix
def is_transmeta (s : CodeStash) : Bool := s.vendor == .transmeta
def is_mobile (s : CodeStash) : Bool := s.br.mobile

-- Intel major queries
def dP (s : CodeStash) : Bool := (is_intel s && s.br.pentium) || s.bri.desktop_pentium
def dC (s : CodeStash) : Bool :=
  (is_intel s && !is_mobile s && s.br.celeron) || s.bri.desktop_celeron
def dd (s : CodeStash) : Bool := is_intel s && s.br.pentium_d
def dc (s : CodeStash) : Bool :=
  is_intel s && !is_mobile s && (s.br.core || s.br.generic)
def sX (s : CodeStash) : Bool := (is_intel s && s.br.xeon) || s.bri.xeon
def sM (s : CodeStash) : Bool := (is_intel s && s.br.xeon_mp) || s.bri.xeon_mp
def sS (s : CodeStash) : Bool := is_intel s && s.br.xeon && s.br.scalable
def MP (s : CodeStash) : Bool :=
  (is_intel s && is_mobile s && s.br.pentium) || s.bri.mobile_pentium
def MC (s : CodeStash) : Bool :=
  (is_intel s && is_mobile s && s.br.celeron) || s.bri.mobile_celeron
def MM (s : CodeStash) : Bool :=
  (is_intel s && s.br.pentium_m) || s.bri.mobile_pentium_m
def Mc (s : CodeStash) : Bool := is_intel s && is_mobile s && s.br.core
def Xc (s : CodeStash) : Bool := is_intel s && s.br.extreme
def LU (s : CodeStash) : Bool := is_intel s && s.br.u_line
def LY (s : CodeStash) : Bool := is_intel s && s.br.y_line

-- Intel special cases
def xD (s : CodeStash) : Bool := s.L2_4w_1Mor2M
def mD (s : CodeStash) : Bool := s.L2_4w_256K
def cD (s : CodeStash) : Bool := !s.L2_4w_1Mor2M && !s.L2_4w_512K && !s.L2_4w_256K
def xK (s : CodeStash) : Bool := s.L2_4w_1Mor2M || s.L2_8w_1Mor2M
def pK (s : CodeStash) : Bool :=
  (s.L2_4w_512K || s.L2_8w_256K || s.L2_8w_512K) &&
    !s.L2_4w_1Mor2M && !s.L2_8w_1Mor2M
def sI (s : CodeStash) : Bool := sX s && s.L2_2M
def sP (s : CodeStash) : Bool := sM s && s.L3
def da (s : CodeStash) : Bool := dc s && s.L2_2M
def QW (s : CodeStash) : Bool :=
  dc s && s.br.generic &&
    (s.mp.cores == 4 || (s.mp.cores == 2 && s.mp.hyperthreads == 2))
def Dc (s : CodeStash) : Bool := dc s && s.mp.cores == 2
def Qc (s : CodeStash) : Bool := dc s && s.mp.cores == 4
def XE (s : CodeStash) : Bool := dc s && strstrC s.brand " E6800"
def sQ (s : CodeStash) : Bool := sX s && s.mp.cores == 4
def s7 (s : CodeStash) : Bool := sX s && bitExtractLE s.val_1_ecx 5 6 != 0
def de (s : CodeStash) : Bool := dc s && s.L2_6M
def Me (s : CodeStash) : Bool := Mc s && s.L2_6M
def Qe (s : CodeStash) : Bool := Qc s && s.L2_6M
def se (s : CodeStash) : Bool := sQ s && s.L2_6M
def UC (s : CodeStash) : Bool := LU s && s.br.i_10000

-- AMD major queries
def dA (s : CodeStash) : Bool := is_amd s && !is_mobile s && s.br.athlon
def dX (s : CodeStash) : Bool := is_amd s && !is_mobile s && s.br.athlon_xp
def dF (s : CodeStash) : Bool := is_amd s && !is_mobile s && s.br.athlon_fx
def df (s : CodeStash) : Bool := is_amd s && !is_mobile s && s.br.fx
def dD (s : CodeStash) : Bool := is_amd s && !is_mobile s && s.br.duron
def dS (s : CodeStash) : Bool := is_amd s && !is_mobile s && s.br.sempron
def dp (s : CodeStash) : Bool := is_amd s && !is_mobile s && s.br.phenom
def dI (s : CodeStash) : Bool := is_amd s && !is_mobile s && s.br.firepro
def dR (s : CodeStash) : Bool := is_amd s && !is_mobile s && s.br.ryzen
def sO (s : CodeStash) : Bool := is_amd s && !is_mobile s && s.br.opteron
def sA (s : CodeStash) : Bool := is_amd s && !is_mobile s && s.br.athlon_mp
def sD (s : CodeStash) : Bool := is_amd s && !is_mobile s && s.br.duron_mp
def sE (s : CodeStash) : Bool := is_amd s && !is_mobile s && s.br.epyc
def MA (s : CodeStash) : Bool := is_amd s && is_mobile s && s.br.athlon
def MX (s : CodeStash) : Bool := is_amd s && is_mobile s && s.br.athlon_xp
def ML (s : CodeStash) : Bool := is_amd s && is_mobile s && s.br.athlon_lv
def MD (s : CodeStash) : Bool := is_amd s && is_mobile s && s.br.duron
def MS (s : CodeStash) : Bool := is_amd s && is_mobile s && s.br.sempron
def Mp (s : CodeStash) : Bool := is_amd s && is_mobile s && s.br.phenom
def Ms (s : CodeStash) : Bool := is_amd s && is_mobile s && s.br.series
def Mr (s : CodeStash) : Bool := is_amd s && is_mobile s && s.br.r_series
def MG (s : CodeStash) : Bool := is_amd s && s.br.geode
def MT (s : CodeStash) : Bool := is_amd s && s.br.turion
def MU (s : CodeStash) : Bool := is_amd s && s.br.ultra
def Mn (s : CodeStash) : Bool := is_amd s && s.br.turion && s.br.neo
def MN (s : CodeStash) : Bool := is_amd s && s.br.neo
def Sa (s : CodeStash) : Bool := is_amd s && !is_mobile s && s.br.a_series
def Sc (s : CodeStash) : Bool := is_amd s && !is_mobile s && s.br.c_series
def Se (s : CodeStash) : Bool := is_amd s && !is_mobile s && s.br.e_series
def Sg (s : CodeStash) : Bool := is_amd s && !is_mobile s && s.br.g_series
def Sr (s : CodeStash) : Bool := is_amd s && !is_mobile s && s.br.r_series
def Sz (s : CodeStash) : Bool := is_amd s && !is_mobile s && s.br.z_series
def Ta (s : CodeStash) : Bool := is_amd s && s.br.t_suffix && s.br.a_series
def Te (s : CodeStash) : Bool := is_amd s && s.br.t_suffix && s.br.e_series

/-- `is_amd_egypt_athens_8xx(stash)` of cpuid.c: whether an Opteron at
family 0Fh models 2,1 / 2,5 carries an 8xx brand table index. -/
def is_amd_egypt_athens_8xx (s : CodeStash) : Bool :=
  if s.vendor == .amd && s.br.opteron then
    if s.val_1_eax &&& 0x0fff0ff0 == 0x00000f20 ||
       s.val_1_eax &&& 0x0fff0ff0 == 0x00000f50 then
      let bti : Option Nat :=
        if s.val_1_ebx &&& 0x000000ff != 0 then
          some (bitExtractLE (s.val_1_ebx &&& 0x000000ff) 5 8 <<< 2)
        else if bitExtractLE s.val_80000001_ebx 0 12 != 0 then
          some (bitExtractLE s.val_80000001_ebx 6 12)
        else
          none
      match bti with
      | none => false
      | some b =>
        if b == 0x10 || b == 0x11 || b == 0x12 || b == 0x13 || b == 0x2a ||
           b == 0x30 || b == 0x31 || b == 0x39 || b == 0x3c || b == 0x32 ||
           b == 0x33 then
          false
        else if b == 0x14 || b == 0x15 || b == 0x16 || b == 0x17 ||
                b == 0x2b || b == 0x34 || b == 0x35 || b == 0x3a ||
                b == 0x3d || b == 0x36 || b == 0x37 then
          true
        else
          false
    else false
  else false

-- AMD special cases
def EO (s : CodeStash) : Bool := sO s && s.br.embedded
def DO (s : CodeStash) : Bool := sO s && s.br.cores == 2
def SO (s : CodeStash) : Bool := sO s && s.br.cores == 6
def DA (s : CodeStash) : Bool := dA s && s.br.cores == 2
def TA (s : CodeStash) : Bool := dA s && s.br.cores == 3
def QA (s : CodeStash) : Bool := dA s && s.br.cores == 4
def Dp (s : CodeStash) : Bool := dp s && s.br.cores == 2
def Tp (s : CodeStash) : Bool := dp s && s.br.cores == 3
def Qp (s : CodeStash) : Bool := dp s && s.br.cores == 4
def Sp (s : CodeStash) : Bool := dp s && s.br.cores == 6
def DS (s : CodeStash) : Bool := dS s && s.br.cores == 2
def s8 (s : CodeStash) : Bool := sO s && is_amd_egypt_athens_8xx s
def dt (s : CodeStash) : Bool := dX s && s.L2_256K
def dm (s : CodeStash) : Bool := dA s && s.L2_512K
def dr (s : CodeStash) : Bool := dA s && s.L2_512K
def Mt (s : CodeStash) : Bool := MT s && s.L2_512K

/-! ### The first-match-wins synth rule engine

A synth table (`decode_synth_intel`, `decode_synth_amd`, ...) in cpuid.c is
a chain `START; RULE(...); RULE(...); ...` of `else if` branches generated by
the `F`/`FM`/`FMS`/`TF`/`TFM`/`TFMS`/`FQ`/`FMQ`/`FMSQ`/`DEFAULT` macros: each
branch compares `val` under a fixed mask against a fixed key (and for the
`*Q` forms also requires `stash != NULL` and the named query to hold), and
the first branch that fires assigns `result` and ends the chain.  That is
exactly `List.find?` over the ordered rule list. -/

/-- The match key of one synth rule: one constructor per table macro of
cpuid.c, carrying the macro's literal arguments. -/
inductive SynthCode where
  | F (xf f : Nat)
  | FM (xf f xm m : Nat)
  | FMS (xf f xm m s : Nat)
  | TF (t xf f : Nat)
  | TFM (t xf f xm m : Nat)
  | TFMS (t xf f xm m s : Nat)
  | FQ (xf f : Nat) (q : CodeStash → Bool)
  | FMQ (xf f xm m : Nat) (q : CodeStash → Bool)
  | FMSQ (xf f xm m s : Nat) (q : CodeStash → Bool)
  | DEFAULT

/-- One rule: a match key and the marketing string its branch assigns. -/
structure SynthRule where
  code : SynthCode
  str : String

/-- The null-guarded query evaluation `(stash) && (q)` of the `*Q` macros. -/
def queryHolds (st : Option CodeStash) (q : CodeStash → Bool) : Bool :=
  match st with
  | some s => q s
  | none => false

/-- Does one rule's branch condition hold on `val` (leaf-1 EAX) and `stash`?
Masks and keys exactly as expanded from the `__F`/`__FM`/... and
`_T`/`_XF`/`_F`/`_XM`/`_M`/`_S` macros of cpuid.c. -/
def keyMatches (val : Nat) (st : Option CodeStash) : SynthCode → Bool
  | .F xf f => val &&& 0x0ff00f00 == (xf <<< 20) + (f <<< 8)
  | .FM xf f xm m =>
    val &&& 0x0fff0ff0 == (xf <<< 20) + (xm <<< 16) + (f <<< 8) + (m <<< 4)
  | .FMS xf f xm m s =>
    val &&& 0x0fff0fff == (xf <<< 20) + (xm <<< 16) + (f <<< 8) + (m <<< 4) + s
  | .TF t xf f => val &&& 0x0ff03f00 == (t <<< 12) + (xf <<< 20) + (f <<< 8)
  | .TFM t xf f xm m =>
    val &&& 0x0fff3ff0 ==
      (t <<< 12) + (xf <<< 20) + (xm <<< 16) + (f <<< 8) + (m <<< 4)
  | .TFMS t xf f xm m s =>
    val &&& 0x0fff3fff ==
      (t <<< 12) + (xf <<< 20) + (xm <<< 16) + (f <<< 8) + (m <<< 4) + s
  | .FQ xf f q =>
    (val &&& 0x0ff00f00 == (xf <<< 20) + (f <<< 8)) && queryHolds st q
  | .FMQ xf f xm m q =>
    (val &&& 0x0fff0ff0 ==
      (xf <<< 20) + (xm <<< 16) + (f <<< 8) + (m <<< 4)) && queryHolds st q
  | .FMSQ xf f xm m s q =>
    (val &&& 0x0fff0fff ==
      (xf <<< 20) + (xm <<< 16) + (f <<< 8) + (m <<< 4) + s) && queryHolds st q
  | .DEFAULT => true

/-- Evaluate an ordered rule table top-to-bottom, returning the string of the
first rule whose branch condition holds (`result` stays `NULL` when none
does). -/
def synthFind (table : List SynthRule) (val : Nat) (st : Option CodeStash) :
    Option String :=
  (table.find? fun r => keyMatches val st r.code).map SynthRule.str

/-- Rules of the `decode_synth_intel` chain of cpuid.c that come before the model 0x3A (Ivy Bridge) stepping-9 block, in authored order. -/
def intelRulesPreIvy : List SynthRule := [
  SynthRule.mk (SynthCode.FM 0 4 0 0) "Intel i80486DX-25/33",
  SynthRule.mk (SynthCode.FM 0 4 0 1) "Intel i80486DX-50",
  SynthRule.mk (SynthCode.FM 0 4 0 2) "Intel i80486SX",
  SynthRule.mk (SynthCode.FM 0 4 0 3) "Intel i80486DX/2",
  SynthRule.mk (SynthCode.FM 0 4 0 4) "Intel i80486SL, .8um",
  SynthRule.mk (SynthCode.FM 0 4 0 5) "Intel i80486SX/2, .8um",
  SynthRule.mk (SynthCode.FM 0 4 0 7) "Intel i80486DX/2-WB, .8um",
  SynthRule.mk (SynthCode.FM 0 4 0 8) "Intel i80486DX/4, .6um",
  SynthRule.mk (SynthCode.FM 0 4 0 9) "Intel i80486DX/4-WB, .6um",
  SynthRule.mk (SynthCode.F 0 4) "Intel i80486 (unknown model)",
  SynthRule.mk (SynthCode.FM 0 5 0 0) "Intel Pentium 60/66 A-step",
  SynthRule.mk (SynthCode.TFM 1 0 5 0 1) "Intel Pentium 60/66 OverDrive for P5",
  SynthRule.mk (SynthCode.FMS 0 5 0 1 3) "Intel Pentium 60/66 (B1)",
  SynthRule.mk (SynthCode.FMS 0 5 0 1 5) "Intel Pentium 60/66 (C1)",
  SynthRule.mk (SynthCode.FMS 0 5 0 1 7) "Intel Pentium 60/66 (D1)",
  SynthRule.mk (SynthCode.FM 0 5 0 1) "Intel Pentium 60/66",
  SynthRule.mk (SynthCode.TFM 1 0 5 0 2) "Intel Pentium 75 - 200 OverDrive for P54C",
  SynthRule.mk (SynthCode.FMS 0 5 0 2 1) "Intel Pentium P54C 75 - 200 (B1)",
  SynthRule.mk (SynthCode.FMS 0 5 0 2 2) "Intel Pentium P54C 75 - 200 (B3)",
  SynthRule.mk (SynthCode.FMS 0 5 0 2 4) "Intel Pentium P54C 75 - 200 (B5)",
  SynthRule.mk (SynthCode.FMS 0 5 0 2 5) "Intel Pentium P54C 75 - 200 (C2/mA1)",
  SynthRule.mk (SynthCode.FMS 0 5 0 2 6) "Intel Pentium P54C 75 - 200 (E0)",
  SynthRule.mk (SynthCode.FMS 0 5 0 2 11) "Intel Pentium P54C 75 - 200 (cB1)",
  SynthRule.mk (SynthCode.FMS 0 5 0 2 12) "Intel Pentium P54C 75 - 200 (cC0)",
  SynthRule.mk (SynthCode.FM 0 5 0 2) "Intel Pentium P54C 75 - 200",
  SynthRule.mk (SynthCode.TFM 1 0 5 0 3) "Intel Pentium OverDrive for i486 (P24T)",
  SynthRule.mk (SynthCode.TFM 1 0 5 0 4) "Intel Pentium OverDrive for P54C",
  SynthRule.mk (SynthCode.FMS 0 5 0 4 3) "Intel Pentium MMX P55C (B1)",
  SynthRule.mk (SynthCode.FMS 0 5 0 4 4) "Intel Pentium MMX P55C (A3)",
  SynthRule.mk (SynthCode.FM 0 5 0 4) "Intel Pentium MMX P55C",
  SynthRule.mk (SynthCode.FMS 0 5 0 7 0) "Intel Pentium MMX P54C 75 - 200 (A4)",
  SynthRule.mk (SynthCode.FM 0 5 0 7) "Intel Pentium MMX P54C 75 - 200",
  SynthRule.mk (SynthCode.FMS 0 5 0 8 1) "Intel Pentium MMX P55C (Tillamook A0)",
  SynthRule.mk (SynthCode.FMS 0 5 0 8 2) "Intel Pentium MMX P55C (Tillamook B2)",
  SynthRule.mk (SynthCode.FM 0 5 0 8) "Intel Pentium MMX P55C (Tillamook)",
  SynthRule.mk (SynthCode.FM 0 5 0 9) "Intel Quark X1000 / D1000 / D2000 / C1000 (Lakemont)",
  SynthRule.mk (SynthCode.F 0 5) "Intel Pentium (unknown model)",
  SynthRule.mk (SynthCode.FM 0 6 0 0) "Intel Pentium Pro A-step",
  SynthRule.mk (SynthCode.FMS 0 6 0 1 1) "Intel Pentium Pro (B0)",
  SynthRule.mk (SynthCode.FMS 0 6 0 1 2) "Intel Pentium Pro (C0)",
  SynthRule.mk (SynthCode.FMS 0 6 0 1 6) "Intel Pentium Pro (sA0)",
  SynthRule.mk (SynthCode.FMS 0 6 0 1 7) "Intel Pentium Pro (sA1), .35um",
  SynthRule.mk (SynthCode.FMS 0 6 0 1 9) "Intel Pentium Pro (sB1), .35um",
  SynthRule.mk (SynthCode.FM 0 6 0 1) "Intel Pentium Pro",
  SynthRule.mk (SynthCode.TFM 1 0 6 0 3) "Intel Pentium II OverDrive",
  SynthRule.mk (SynthCode.FMS 0 6 0 3 3) "Intel Pentium II (Klamath C0)",
  SynthRule.mk (SynthCode.FMS 0 6 0 3 4) "Intel Pentium II (Klamath C1)",
  SynthRule.mk (SynthCode.FM 0 6 0 3) "Intel Pentium II (Klamath)",
  SynthRule.mk (SynthCode.FM 0 6 0 4) "Intel Pentium P55CT OverDrive (Deschutes)",
  SynthRule.mk (SynthCode.FMSQ 0 6 0 5 0 xD) "Intel Pentium II Xeon (Deschutes A0)",
  SynthRule.mk (SynthCode.FMSQ 0 6 0 5 0 mD) "Intel Mobile Pentium II (Deschutes A0)",
  SynthRule.mk (SynthCode.FMSQ 0 6 0 5 0 cD) "Intel Celeron (Deschutes A0)",
  SynthRule.mk (SynthCode.FMS 0 6 0 5 0) "Intel Pentium II (unknown type) (Deschutes A0)",
  SynthRule.mk (SynthCode.FMSQ 0 6 0 5 1 xD) "Intel Pentium II Xeon (Deschutes A1)",
  SynthRule.mk (SynthCode.FMSQ 0 6 0 5 1 cD) "Intel Celeron (Deschutes A1)",
  SynthRule.mk (SynthCode.FMS 0 6 0 5 1) "Intel Pentium II (unknown type) (Deschutes A1)",
  SynthRule.mk (SynthCode.FMSQ 0 6 0 5 2 xD) "Intel Pentium II Xeon (Deschutes B0)",
  SynthRule.mk (SynthCode.FMSQ 0 6 0 5 2 mD) "Intel Mobile Pentium II (Deschutes B0)",
  SynthRule.mk (SynthCode.FMSQ 0 6 0 5 2 cD) "Intel Celeron (Deschutes B0)",
  SynthRule.mk (SynthCode.FMS 0 6 0 5 2) "Intel Pentium II (unknown type) (Deschutes B0)",
  SynthRule.mk (SynthCode.FMSQ 0 6 0 5 3 xD) "Intel Pentium II Xeon (Deschutes B1)",
  SynthRule.mk (SynthCode.FMSQ 0 6 0 5 3 cD) "Intel Celeron (Deschutes B1)",
  SynthRule.mk (SynthCode.FMS 0 6 0 5 3) "Intel Pentium II (unknown type) (Deschutes B1)",
  SynthRule.mk (SynthCode.FMQ 0 6 0 5 xD) "Intel Pentium II Xeon (Deschutes)",
  SynthRule.mk (SynthCode.FMQ 0 6 0 5 mD) "Intel Mobile Pentium II (Deschutes)",
  SynthRule.mk (SynthCode.FMQ 0 6 0 5 cD) "Intel Celeron (Deschutes)",
  SynthRule.mk (SynthCode.FM 0 6 0 5) "Intel Pentium II (unknown type) (Deschutes)",
  SynthRule.mk (SynthCode.FMSQ 0 6 0 6 0 dP) "Intel Pentium II (Mendocino A0)",
  SynthRule.mk (SynthCode.FMSQ 0 6 0 6 0 dC) "Intel Celeron (Mendocino A0)",
  SynthRule.mk (SynthCode.FMS 0 6 0 6 0) "Intel Pentium II (unknown type) (Mendocino A0)",
  SynthRule.mk (SynthCode.FMSQ 0 6 0 6 5 dC) "Intel Celeron (Mendocino B0)",
  SynthRule.mk (SynthCode.FMSQ 0 6 0 6 5 dP) "Intel Pentium II (Mendocino B0)",
  SynthRule.mk (SynthCode.FMS 0 6 0 6 5) "Intel Pentium II (unknown type) (Mendocino B0)",
  SynthRule.mk (SynthCode.FMS 0 6 0 6 10) "Intel Mobile Pentium II (Mendocino A0)",
  SynthRule.mk (SynthCode.FM 0 6 0 6) "Intel Pentium II (Mendocino)",
  SynthRule.mk (SynthCode.FMSQ 0 6 0 7 2 pK) "Intel Pentium III (Katmai B0)",
  SynthRule.mk (SynthCode.FMSQ 0 6 0 7 2 xK) "Intel Pentium III Xeon (Katmai B0)",
  SynthRule.mk (SynthCode.FMS 0 6 0 7 2) "Intel Pentium III (unknown type) (Katmai B0)",
  SynthRule.mk (SynthCode.FMSQ 0 6 0 7 3 pK) "Intel Pentium III (Katmai C0)",
  SynthRule.mk (SynthCode.FMSQ 0 6 0 7 3 xK) "Intel Pentium III Xeon (Katmai C0)",
  SynthRule.mk (SynthCode.FMS 0 6 0 7 3) "Intel Pentium III (unknown type) (Katmai C0)",
  SynthRule.mk (SynthCode.FMQ 0 6 0 7 pK) "Intel Pentium III (Katmai)",
  SynthRule.mk (SynthCode.FMQ 0 6 0 7 xK) "Intel Pentium III Xeon (Katmai)",
  SynthRule.mk (SynthCode.FM 0 6 0 7) "Intel Pentium III (unknown type) (Katmai)",
  SynthRule.mk (SynthCode.FMSQ 0 6 0 8 1 sX) "Intel Pentium III Xeon (Coppermine A2)",
  SynthRule.mk (SynthCode.FMSQ 0 6 0 8 1 MC) "Intel Mobile Celeron (Coppermine A2)",
  SynthRule.mk (SynthCode.FMSQ 0 6 0 8 1 dC) "Intel Celeron (Coppermine A2)",
  SynthRule.mk (SynthCode.FMSQ 0 6 0 8 1 MP) "Intel Mobile Pentium III (Coppermine A2)",
  SynthRule.mk (SynthCode.FMSQ 0 6 0 8 1 dP) "Intel Pentium III (Coppermine A2)",
  SynthRule.mk (SynthCode.FMS 0 6 0 8 1) "Intel Pentium III (unknown type) (Coppermine A2)",
  SynthRule.mk (SynthCode.FMSQ 0 6 0 8 3 sX) "Intel Pentium III Xeon (Coppermine B0)",
  SynthRule.mk (SynthCode.FMSQ 0 6 0 8 3 MC) "Intel Mobile Celeron (Coppermine B0)",
  SynthRule.mk (SynthCode.FMSQ 0 6 0 8 3 dC) "Intel Celeron (Coppermine B0)",
  SynthRule.mk (SynthCode.FMSQ 0 6 0 8 3 MP) "Intel Mobile Pentium III (Coppermine B0)",
  SynthRule.mk (SynthCode.FMSQ 0 6 0 8 3 dP) "Intel Pentium III (Coppermine B0)",
  SynthRule.mk (SynthCode.FMS 0 6 0 8 3) "Intel Pentium III (unknown type) (Coppermine B0)",
  SynthRule.mk (SynthCode.FMSQ 0 6 0 8 6 sX) "Intel Pentium III Xeon (Coppermine C0)",
  SynthRule.mk (SynthCode.FMSQ 0 6 0 8 6 MC) "Intel Mobile Celeron (Coppermine C0)",
  SynthRule.mk (SynthCode.FMSQ 0 6 0 8 6 dC) "Intel Celeron (Coppermine C0)",
  SynthRule.mk (SynthCode.FMSQ 0 6 0 8 6 MP) "Intel Mobile Pentium III (Coppermine C0)",
  SynthRule.mk (SynthCode.FMSQ 0 6 0 8 6 dP) "Intel Pentium III (Coppermine C0)",
  SynthRule.mk (SynthCode.FMS 0 6 0 8 6) "Intel Pentium III (unknown type) (Coppermine C0)",
  SynthRule.mk (SynthCode.FMSQ 0 6 0 8 10 sX) "Intel Pentium III Xeon (Coppermine D0)",
  SynthRule.mk (SynthCode.FMSQ 0 6 0 8 10 MC) "Intel Mobile Celeron (Coppermine D0)",
  SynthRule.mk (SynthCode.FMSQ 0 6 0 8 10 dC) "Intel Celeron (Coppermine D0)",
  SynthRule.mk (SynthCode.FMSQ 0 6 0 8 10 MP) "Intel Mobile Pentium III (Coppermine D0)",
  SynthRule.mk (SynthCode.FMSQ 0 6 0 8 10 dP) "Intel Pentium III (Coppermine D0)",
  SynthRule.mk (SynthCode.FMS 0 6 0 8 10) "Intel Pentium III (unknown type) (Coppermine D0)",
  SynthRule.mk (SynthCode.FMQ 0 6 0 8 sX) "Intel Pentium III Xeon (Coppermine)",
  SynthRule.mk (SynthCode.FMQ 0 6 0 8 MC) "Intel Mobile Celeron (Coppermine)",
  SynthRule.mk (SynthCode.FMQ 0 6 0 8 dC) "Intel Celeron (Coppermine)",
  SynthRule.mk (SynthCode.FMQ 0 6 0 8 MP) "Intel Mobile Pentium III (Coppermine)",
  SynthRule.mk (SynthCode.FMQ 0 6 0 8 dP) "Intel Pentium III (Coppermine)",
  SynthRule.mk (SynthCode.FM 0 6 0 8) "Intel Pentium III (unknown type) (Coppermine)",
  SynthRule.mk (SynthCode.FMSQ 0 6 0 9 5 dC) "Intel Celeron M (Banias B1)",
  SynthRule.mk (SynthCode.FMSQ 0 6 0 9 5 dP) "Intel Pentium M (Banias B1)",
  SynthRule.mk (SynthCode.FMS 0 6 0 9 5) "Intel Pentium M (unknown type) (Banias B1)",
  SynthRule.mk (SynthCode.FMQ 0 6 0 9 dC) "Intel Celeron M (Banias)",
  SynthRule.mk (SynthCode.FMQ 0 6 0 9 dP) "Intel Pentium M (Banias)",
  SynthRule.mk (SynthCode.FM 0 6 0 9) "Intel Pentium M (unknown type) (Banias)",
  SynthRule.mk (SynthCode.FMS 0 6 0 10 0) "Intel Pentium III Xeon (Cascades A0)",
  SynthRule.mk (SynthCode.FMS 0 6 0 10 1) "Intel Pentium III Xeon (Cascades A1)",
  SynthRule.mk (SynthCode.FMS 0 6 0 10 4) "Intel Pentium III Xeon (Cascades B0)",
  SynthRule.mk (SynthCode.FM 0 6 0 10) "Intel Pentium III Xeon (Cascades)",
  SynthRule.mk (SynthCode.FMSQ 0 6 0 11 1 dC) "Intel Celeron (Tualatin A1)",
  SynthRule.mk (SynthCode.FMSQ 0 6 0 11 1 MC) "Intel Mobile Celeron (Tualatin A1)",
  SynthRule.mk (SynthCode.FMSQ 0 6 0 11 1 dP) "Intel Pentium III (Tualatin A1)",
  SynthRule.mk (SynthCode.FMS 0 6 0 11 1) "Intel Pentium III (unknown type) (Tualatin A1)",
  SynthRule.mk (SynthCode.FMSQ 0 6 0 11 4 dC) "Intel Celeron (Tualatin B1)",
  SynthRule.mk (SynthCode.FMSQ 0 6 0 11 4 MC) "Intel Mobile Celeron (Tualatin B1)",
  SynthRule.mk (SynthCode.FMSQ 0 6 0 11 4 dP) "Intel Pentium III (Tualatin B1)",
  SynthRule.mk (SynthCode.FMS 0 6 0 11 4) "Intel Pentium III (unknown type) (Tualatin B1)",
  SynthRule.mk (SynthCode.FMQ 0 6 0 11 dC) "Intel Celeron (Tualatin)",
  SynthRule.mk (SynthCode.FMQ 0 6 0 11 MC) "Intel Mobile Celeron (Tualatin)",
  SynthRule.mk (SynthCode.FMQ 0 6 0 11 dP) "Intel Pentium III (Tualatin)",
  SynthRule.mk (SynthCode.FM 0 6 0 11) "Intel Pentium III (unknown type) (Tualatin)",
  SynthRule.mk (SynthCode.FMSQ 0 6 0 13 6 dC) "Intel Celeron M (Dothan B1), 90nm",
  SynthRule.mk (SynthCode.FMSQ 0 6 0 13 6 dP) "Intel Pentium M (Dothan B1), 90nm",
  SynthRule.mk (SynthCode.FMS 0 6 0 13 6) "Intel Pentium M (unknown type) (Dothan B1), 90nm",
  SynthRule.mk (SynthCode.FMSQ 0 6 0 13 8 dC) "Intel Celeron M (Dothan C0), 90nm/65nm",
  SynthRule.mk (SynthCode.FMSQ 0 6 0 13 8 MP) "Intel Processor A100/A110 (Stealey C0) / Pentium M (Crofton C0), 90nm",
  SynthRule.mk (SynthCode.FMSQ 0 6 0 13 8 dP) "Intel Pentium M (Dothan C0), 90nm",
  SynthRule.mk (SynthCode.FMS 0 6 0 13 8) "Intel Pentium M (unknown type) (Dothan/Stealey/Crofton C0), 90nm/65nm",
  SynthRule.mk (SynthCode.FMQ 0 6 0 13 dC) "Intel Celeron M (Dothan)",
  SynthRule.mk (SynthCode.FMQ 0 6 0 13 MP) "Intel Processor A100/A110 (Stealey)",
  SynthRule.mk (SynthCode.FMQ 0 6 0 13 dP) "Intel Pentium M (Dothan)",
  SynthRule.mk (SynthCode.FM 0 6 0 13) "Intel Pentium M (unknown type) (Dothan/Crofton)",
  SynthRule.mk (SynthCode.FMSQ 0 6 0 14 8 sX) "Intel Xeon Processor LV (Sossaman C0)",
  SynthRule.mk (SynthCode.FMSQ 0 6 0 14 8 dC) "Intel Celeron (Yonah C0)",
  SynthRule.mk (SynthCode.FMSQ 0 6 0 14 8 Dc) "Intel Core Duo (Yonah C0)",
  SynthRule.mk (SynthCode.FMSQ 0 6 0 14 8 dc) "Intel Core Solo (Yonah C0)",
  SynthRule.mk (SynthCode.FMS 0 6 0 14 8) "Intel Core (unknown type) (Yonah/Sossaman C0)",
  SynthRule.mk (SynthCode.FMSQ 0 6 0 14 12 sX) "Intel Xeon Processor LV (Sossaman D0)",
  SynthRule.mk (SynthCode.FMSQ 0 6 0 14 12 dC) "Intel Celeron M (Yonah D0)",
  SynthRule.mk (SynthCode.FMSQ 0 6 0 14 12 MP) "Intel Pentium Dual-Core Mobile T2000 (Yonah D0)",
  SynthRule.mk (SynthCode.FMSQ 0 6 0 14 12 Dc) "Intel Core Duo (Yonah D0)",
  SynthRule.mk (SynthCode.FMSQ 0 6 0 14 12 dc) "Intel Core Solo (Yonah D0)",
  SynthRule.mk (SynthCode.FMS 0 6 0 14 12) "Intel Core (unknown type) (Yonah/Sossaman D0)",
  SynthRule.mk (SynthCode.FMS 0 6 0 14 13) "Intel Pentium Dual-Core Mobile T2000 (Yonah M0)",
  SynthRule.mk (SynthCode.FMQ 0 6 0 14 sX) "Intel Xeon Processor LV (Sossaman)",
  SynthRule.mk (SynthCode.FMQ 0 6 0 14 dC) "Intel Celeron (Yonah)",
  SynthRule.mk (SynthCode.FMQ 0 6 0 14 MP) "Intel Pentium Dual-Core Mobile (Yonah)",
  SynthRule.mk (SynthCode.FMQ 0 6 0 14 Dc) "Intel Core Duo (Yonah)",
  SynthRule.mk (SynthCode.FMQ 0 6 0 14 dc) "Intel Core Solo (Yonah)",
  SynthRule.mk (SynthCode.FM 0 6 0 14) "Intel Core (unknown type) (Yonah/Sossaman)",
  SynthRule.mk (SynthCode.FMSQ 0 6 0 15 2 sX) "Intel Dual-Core Xeon Processor 3000 (Conroe L2)",
  SynthRule.mk (SynthCode.FMSQ 0 6 0 15 2 Mc) "Intel Core Duo Mobile (Merom L2)",
  SynthRule.mk (SynthCode.FMSQ 0 6 0 15 2 dc) "Intel Core Duo (Conroe L2)",
  SynthRule.mk (SynthCode.FMSQ 0 6 0 15 2 dP) "Intel Pentium Dual-Core Desktop Processor E2000 (Allendale L2)",
  SynthRule.mk (SynthCode.FMS 0 6 0 15 2) "Intel Core (unknown type) (Conroe/Merom/Allendale L2)",
  SynthRule.mk (SynthCode.FMS 0 6 0 15 4) "Intel Core 2 Duo (Conroe B0) / Xeon Processor 5100 (Woodcrest B0) (pre-production)",
  SynthRule.mk (SynthCode.FMSQ 0 6 0 15 5 QW) "Intel Dual-Core Xeon Processor 5100 (Woodcrest B1) (pre-production)",
  SynthRule.mk (SynthCode.FMSQ 0 6 0 15 5 XE) "Intel Core 2 Extreme Processor (Conroe B1)",
  SynthRule.mk (SynthCode.FMSQ 0 6 0 15 5 da) "Intel Core 2 Duo (Allendale B1)",
  SynthRule.mk (SynthCode.FMSQ 0 6 0 15 5 dc) "Intel Core 2 Duo (Conroe B1)",
  SynthRule.mk (SynthCode.FMS 0 6 0 15 5) "Intel Core 2 (unknown type) (Conroe/Allendale B1)",
  SynthRule.mk (SynthCode.FMSQ 0 6 0 15 6 Xc) "Intel Core 2 Extreme Processor (Conroe B2)",
  SynthRule.mk (SynthCode.FMSQ 0 6 0 15 6 Mc) "Intel Core 2 Duo Mobile (Merom B2)",
  SynthRule.mk (SynthCode.FMSQ 0 6 0 15 6 da) "Intel Core 2 Duo (Allendale B2)",
  SynthRule.mk (SynthCode.FMSQ 0 6 0 15 6 dc) "Intel Core 2 Duo (Conroe B2)",
  SynthRule.mk (SynthCode.FMSQ 0 6 0 15 6 dC) "Intel Celeron M (Conroe B2)",
  SynthRule.mk (SynthCode.FMSQ 0 6 0 15 6 sX) "Intel Dual-Core Xeon Processor 3000 (Conroe B2) / Dual-Core Xeon Processor 5100 (Woodcrest B2)",
  SynthRule.mk (SynthCode.FMS 0 6 0 15 6) "Intel Core 2 (unknown type) (Conroe/Allendale/Woodcrest B2)",
  SynthRule.mk (SynthCode.FMSQ 0 6 0 15 7 sX) "Intel Quad-Core Xeon Processor 3200 (Kentsfield B3) / Quad-Core Xeon Processor 5300 (Clovertown B3)",
  SynthRule.mk (SynthCode.FMSQ 0 6 0 15 7 Xc) "Intel Core 2 Extreme Quad-Core Processor QX6xx0 (Kentsfield B3)",
  SynthRule.mk (SynthCode.FMS 0 6 0 15 7) "Intel Core 2 (unknown type) (Kentsfield/Clovertown B3)",
  SynthRule.mk (SynthCode.FMSQ 0 6 0 15 10 Mc) "Intel Core 2 Duo Mobile (Merom E1)",
  SynthRule.mk (SynthCode.FMSQ 0 6 0 15 10 dC) "Intel Celeron Processor 500 (Merom E1)",
  SynthRule.mk (SynthCode.FMS 0 6 0 15 10) "Intel Core 2 (unknown type) (Merom E1)",
  SynthRule.mk (SynthCode.FMSQ 0 6 0 15 11 sQ) "Intel Quad-Core Xeon Processor 5300 (Clovertown G0)",
  SynthRule.mk (SynthCode.FMSQ 0 6 0 15 11 sX) "Intel Xeon Processor 3000 (Conroe G0) / Xeon Processor 3200 (Kentsfield G0) / Xeon Processor 7200/7300 (Tigerton G0)",
  SynthRule.mk (SynthCode.FMSQ 0 6 0 15 11 Xc) "Intel Core 2 Extreme Quad-Core Processor QX6xx0 (Kentsfield G0)",
  SynthRule.mk (SynthCode.FMSQ 0 6 0 15 11 Mc) "Intel Core 2 Duo Mobile (Merom G2)",
  SynthRule.mk (SynthCode.FMSQ 0 6 0 15 11 Qc) "Intel Core 2 Quad (Conroe G0)",
  SynthRule.mk (SynthCode.FMSQ 0 6 0 15 11 dc) "Intel Core 2 Duo (Conroe G0)",
  SynthRule.mk (SynthCode.FMS 0 6 0 15 11) "Intel Core 2 (unknown type) (Merom/Conroe/Kentsfield/Clovertown/Tigerton G0)",
  SynthRule.mk (SynthCode.FMSQ 0 6 0 15 13 Mc) "Intel Core 2 Duo Mobile (Merom M1) / Celeron Processor 500 (Merom E1)",
  SynthRule.mk (SynthCode.FMSQ 0 6 0 15 13 Qc) "Intel Core 2 Quad (Conroe M0)",
  SynthRule.mk (SynthCode.FMSQ 0 6 0 15 13 dc) "Intel Core 2 Duo (Conroe M0)",
  SynthRule.mk (SynthCode.FMSQ 0 6 0 15 13 dP) "Intel Pentium Dual-Core Desktop Processor E2000 (Allendale M0)",
  SynthRule.mk (SynthCode.FMSQ 0 6 0 15 13 dC) "Intel Celeron Dual-Core E1000 (Allendale M0) / Celeron Dual-Core T1000 (Merom M0)",
  SynthRule.mk (SynthCode.FMS 0 6 0 15 13) "Intel Core 2 (unknown type) (Merom/Conroe/Allendale M0 / Merom E1)",
  SynthRule.mk (SynthCode.FMQ 0 6 0 15 sQ) "Intel Quad-Core Xeon (Woodcrest)",
  SynthRule.mk (SynthCode.FMQ 0 6 0 15 sX) "Intel Dual-Core Xeon (Conroe / Woodcrest) / Quad-Core Xeon (Kentsfield / Clovertown) / Xeon (Tigerton G0)",
  SynthRule.mk (SynthCode.FMQ 0 6 0 15 Xc) "Intel Core 2 Extreme Processor (Conroe) / Core 2 Extreme Quad-Core (Kentsfield)",
  SynthRule.mk (SynthCode.FMQ 0 6 0 15 Mc) "Intel Core Duo Mobile / Core 2 Duo Mobile (Merom) / Celeron (Merom)",
  SynthRule.mk (SynthCode.FMQ 0 6 0 15 Qc) "Intel Core 2 Quad (Conroe)",
  SynthRule.mk (SynthCode.FMQ 0 6 0 15 dc) "Intel Core Duo / Core 2 Duo (Conroe)",
  SynthRule.mk (SynthCode.FMQ 0 6 0 15 dP) "Intel Pentium Dual-Core (Allendale)",
  SynthRule.mk (SynthCode.FMQ 0 6 0 15 dC) "Intel Celeron M (Conroe) / Celeron (Merom) / Celeron Dual-Core (Allendale)",
  SynthRule.mk (SynthCode.FM 0 6 0 15) "Intel Core 2 (unknown type) (Merom/Conroe/Allendale/Kentsfield/Allendale/Clovertown/Woodcrest/Tigerton)",
  SynthRule.mk (SynthCode.FMS 0 6 1 5 0) "Intel EP80579 (Tolapai B0)",
  SynthRule.mk (SynthCode.FMSQ 0 6 1 6 1 MC) "Intel Celeron Processor 200/400/500 (Conroe-L/Merom-L A1)",
  SynthRule.mk (SynthCode.FMSQ 0 6 1 6 1 dC) "Intel Celeron M (Merom-L A1)",
  SynthRule.mk (SynthCode.FMSQ 0 6 1 6 1 Mc) "Intel Core 2 Duo Mobile (Merom A1)",
  SynthRule.mk (SynthCode.FMS 0 6 1 6 1) "Intel Core 2 (unknown type) (Merom/Conroe A1)",
  SynthRule.mk (SynthCode.FMQ 0 6 1 6 MC) "Intel Celeron Processor 200/400/500 (Conroe-L/Merom-L)",
  SynthRule.mk (SynthCode.FMQ 0 6 1 6 dC) "Intel Celeron M (Merom-L)",
  SynthRule.mk (SynthCode.FMQ 0 6 1 6 Mc) "Intel Core 2 Duo Mobile (Merom)",
  SynthRule.mk (SynthCode.FM 0 6 1 6) "Intel Core 2 (unknown type) (Merom/Conroe)",
  SynthRule.mk (SynthCode.FMSQ 0 6 1 7 6 sQ) "Intel Xeon Processor 3300 (Yorkfield C0) / Xeon Processor 5200 (Wolfdale C0) / Xeon Processor 5400 (Harpertown C0)",
  SynthRule.mk (SynthCode.FMSQ 0 6 1 7 6 sX) "Intel Xeon Processor 3100 (Wolfdale C0) / Xeon Processor 5200 (Wolfdale C0) / Xeon Processor 5400 (Harpertown C0)",
  SynthRule.mk (SynthCode.FMSQ 0 6 1 7 6 Xc) "Intel Core 2 Extreme QX9000 (Yorkfield C0)",
  SynthRule.mk (SynthCode.FMSQ 0 6 1 7 6 Me) "Intel Mobile Core 2 Duo (Penryn C0)",
  SynthRule.mk (SynthCode.FMSQ 0 6 1 7 6 Mc) "Intel Mobile Core 2 Duo (Penryn M0)",
  SynthRule.mk (SynthCode.FMSQ 0 6 1 7 6 de) "Intel Core 2 Duo (Wolfdale C0)",
  SynthRule.mk (SynthCode.FMSQ 0 6 1 7 6 dc) "Intel Core 2 Duo (Wolfdale M0)",
  SynthRule.mk (SynthCode.FMSQ 0 6 1 7 6 dP) "Intel Pentium Dual-Core Processor E5000 (Wolfdale M0)",
  SynthRule.mk (SynthCode.FMS 0 6 1 7 6) "Intel Core 2 (unknown type) (Penryn/Wolfdale/Yorkfield/Harpertown C0/M0)",
  SynthRule.mk (SynthCode.FMSQ 0 6 1 7 7 sQ) "Intel Xeon Processor 3300 (Yorkfield C1)",
  SynthRule.mk (SynthCode.FMSQ 0 6 1 7 7 Xc) "Intel Core 2 Extreme QX9000 (Yorkfield C1)",
  SynthRule.mk (SynthCode.FMSQ 0 6 1 7 7 Qe) "Intel Core 2 Quad-Core Q9000 (Yorkfield C1)",
  SynthRule.mk (SynthCode.FMSQ 0 6 1 7 7 Qc) "Intel Core 2 Quad-Core Q9000 (Yorkfield M1)",
  SynthRule.mk (SynthCode.FMS 0 6 1 7 7) "Intel Core 2 (unknown type) (Penryn/Wolfdale/Yorkfield/Harpertown C1/M1)",
  SynthRule.mk (SynthCode.FMSQ 0 6 1 7 10 Me) "Intel Mobile Core 2 (Penryn E0)",
  SynthRule.mk (SynthCode.FMSQ 0 6 1 7 10 Mc) "Intel Mobile Core 2 (Penryn R0)",
  SynthRule.mk (SynthCode.FMSQ 0 6 1 7 10 Qe) "Intel Core 2 Quad-Core Q9000 (Yorkfield E0)",
  SynthRule.mk (SynthCode.FMSQ 0 6 1 7 10 Qc) "Intel Core 2 Quad-Core Q9000 (Yorkfield R0)",
  SynthRule.mk (SynthCode.FMSQ 0 6 1 7 10 de) "Intel Core 2 Duo (Wolfdale E0)",
  SynthRule.mk (SynthCode.FMSQ 0 6 1 7 10 dc) "Intel Core 2 Duo (Wolfdale R0)",
  SynthRule.mk (SynthCode.FMSQ 0 6 1 7 10 dP) "Intel Pentium Dual-Core Processor E5000/E6000 (Wolfdale R0)",
  SynthRule.mk (SynthCode.FMSQ 0 6 1 7 10 dC) "Intel Celeron E3000 (Wolfdale R0)",
  SynthRule.mk (SynthCode.FMSQ 0 6 1 7 10 se) "Intel Xeon Processor 3300 (Yorkfield E0)",
  SynthRule.mk (SynthCode.FMSQ 0 6 1 7 10 sQ) "Intel Xeon Processor 3300 (Yorkfield R0)",
  SynthRule.mk (SynthCode.FMSQ 0 6 1 7 10 sX) "Intel Xeon Processor 3100 (Wolfdale E0) / Xeon Processor 3300 (Yorkfield R0) / Xeon Processor 5200 (Wolfdale E0) / Xeon Processor 5400 (Harpertown E0)",
  SynthRule.mk (SynthCode.FMS 0 6 1 7 10) "Intel Core 2 (unknown type) (Penryn/Wolfdale/Yorkfield/Harpertown E0/R0)",
  SynthRule.mk (SynthCode.FMQ 0 6 1 7 se) "Intel Xeon (Wolfdale / Yorkfield / Harpertown)",
  SynthRule.mk (SynthCode.FMQ 0 6 1 7 sQ) "Intel Xeon (Wolfdale / Yorkfield / Harpertown)",
  SynthRule.mk (SynthCode.FMQ 0 6 1 7 sX) "Intel Xeon (Wolfdale / Yorkfield / Harpertown)",
  SynthRule.mk (SynthCode.FMQ 0 6 1 7 Mc) "Intel Mobile Core 2 (Penryn)",
  SynthRule.mk (SynthCode.FMQ 0 6 1 7 Xc) "Intel Core 2 Extreme (Yorkfield)",
  SynthRule.mk (SynthCode.FMQ 0 6 1 7 Qc) "Intel Core 2 Quad-Core (Yorkfield)",
  SynthRule.mk (SynthCode.FMQ 0 6 1 7 dc) "Intel Core 2 Duo (Wolfdale)",
  SynthRule.mk (SynthCode.FMQ 0 6 1 7 dC) "Intel Celeron (Wolfdale)",
  SynthRule.mk (SynthCode.FMQ 0 6 1 7 dP) "Intel Pentium Dual-Core (Wolfdale)",
  SynthRule.mk (SynthCode.FM 0 6 1 7) "Intel Core 2 (unknown type) (Penryn/Wolfdale/Yorkfield/Harpertown)",
  SynthRule.mk (SynthCode.FMS 0 6 1 10 4) "Intel Core i7-900 (Bloomfield C0)",
  SynthRule.mk (SynthCode.FMSQ 0 6 1 10 5 dc) "Intel Core i7-900 (Bloomfield D0)",
  SynthRule.mk (SynthCode.FMSQ 0 6 1 10 5 sX) "Intel Xeon Processor 3500 (Bloomfield D0) / Xeon Processor 5500 (Gainestown D0)",
  SynthRule.mk (SynthCode.FMS 0 6 1 10 5) "Intel Core (unknown type) (Bloomfield/Gainestown D0)",
  SynthRule.mk (SynthCode.FMQ 0 6 1 10 dc) "Intel Core (Bloomfield)",
  SynthRule.mk (SynthCode.FMQ 0 6 1 10 sX) "Intel Xeon (Bloomfield / Gainestown)",
  SynthRule.mk (SynthCode.FM 0 6 1 10) "Intel Core (unknown type) (Bloomfield / Gainestown)",
  SynthRule.mk (SynthCode.FMS 0 6 1 12 1) "Intel Atom N270 (Diamondville B0)",
  SynthRule.mk (SynthCode.FMS 0 6 1 12 2) "Intel Atom 200/N200/300 (Diamondville C0) / Atom Z500 (Silverthorne C0)",
  SynthRule.mk (SynthCode.FMS 0 6 1 12 10) "Intel Atom D400/N400 (Pineview A0) / Atom D500/N500 (Pineview B0)",
  SynthRule.mk (SynthCode.FM 0 6 1 12) "Intel Atom (Diamondville / Silverthorne / Pineview)",
  SynthRule.mk (SynthCode.FMS 0 6 1 13 1) "Intel Xeon Processor 7400 (Dunnington A1)",
  SynthRule.mk (SynthCode.FM 0 6 1 13) "Intel Xeon (unknown type) (Dunnington)",
  SynthRule.mk (SynthCode.FMSQ 0 6 1 14 4 sX) "Intel Xeon Processor C3500/C5500 (Jasper Forest B0)",
  SynthRule.mk (SynthCode.FMSQ 0 6 1 14 4 dC) "Intel Celeron P1053 (Jasper Forest B0)",
  SynthRule.mk (SynthCode.FMS 0 6 1 14 4) "Intel Xeon (unknown type) (Jasper Forest B0)",
  SynthRule.mk (SynthCode.FMSQ 0 6 1 14 5 sX) "Intel Xeon Processor 3400 (Lynnfield B1)",
  SynthRule.mk (SynthCode.FMSQ 0 6 1 14 5 Mc) "Intel Core i7-700/800/900 Mobile (Clarksfield B1)",
  SynthRule.mk (SynthCode.FMSQ 0 6 1 14 5 dc) "Intel Core i5-700 / i7-800 (Lynnfield B1)",
  SynthRule.mk (SynthCode.FMS 0 6 1 14 5) "Intel Core (unknown type) (Lynnfield/Clarksfield B1)",
  SynthRule.mk (SynthCode.FMQ 0 6 1 14 sX) "Intel Xeon (Lynnfield) / Xeon (Jasper Forest)",
  SynthRule.mk (SynthCode.FMQ 0 6 1 14 dC) "Intel Celeron (Jasper Forest)",
  SynthRule.mk (SynthCode.FMQ 0 6 1 14 Mc) "Intel Core Mobile (Clarksfield)",
  SynthRule.mk (SynthCode.FMQ 0 6 1 14 dc) "Intel Core (Lynnfield)",
  SynthRule.mk (SynthCode.FM 0 6 1 14) "Intel Core (unknown type) (Lynnfield/Clarksfield)",
  SynthRule.mk (SynthCode.FM 0 6 1 15) "Intel (unknown model) (Havendale/Auburndale)",
  SynthRule.mk (SynthCode.FMSQ 0 6 2 5 2 sX) "Intel Xeon Processor L3406 (Clarkdale C2)",
  SynthRule.mk (SynthCode.FMSQ 0 6 2 5 2 MC) "Intel Celeron Mobile P4500 (Arrandale C2)",
  SynthRule.mk (SynthCode.FMSQ 0 6 2 5 2 MP) "Intel Pentium P6000 Mobile (Arrandale C2)",
  SynthRule.mk (SynthCode.FMSQ 0 6 2 5 2 dP) "Intel Pentium G6900 / P4505 (Clarkdale C2)",
  SynthRule.mk (SynthCode.FMSQ 0 6 2 5 2 Mc) "Intel Core i3-300 Mobile / Core i5-400 Mobile / Core i5-500 Mobile / Core i7-600 Mobile (Arrandale C2)",
  SynthRule.mk (SynthCode.FMSQ 0 6 2 5 2 dc) "Intel Core i3-300 / i3-500 / i5-500 / i5-600 / i7-600 (Clarkdale C2)",
  SynthRule.mk (SynthCode.FMS 0 6 2 5 2) "Intel Core (unknown type) (Clarkdale/Arrandale C2)",
  SynthRule.mk (SynthCode.FMSQ 0 6 2 5 5 MC) "Intel Celeron Mobile U3400 (Arrandale K0) / Celeron Mobile P4600 (Arrandale K0)",
  SynthRule.mk (SynthCode.FMSQ 0 6 2 5 5 MP) "Intel Pentium U5000 Mobile (Arrandale K0)",
  SynthRule.mk (SynthCode.FMSQ 0 6 2 5 5 dP) "Intel Pentium P4505 / U3405 (Clarkdale K0)",
  SynthRule.mk (SynthCode.FMSQ 0 6 2 5 5 dc) "Intel Core i3-300 / i3-500 / i5-400 / i5-500 / i5-600 / i7-600 (Clarkdale K0)",
  SynthRule.mk (SynthCode.FMS 0 6 2 5 5) "Intel Core (unknown type) (Clarkdale/Arrandale K0)",
  SynthRule.mk (SynthCode.FMQ 0 6 2 5 sX) "Intel Xeon Processor L3406 (Clarkdale)",
  SynthRule.mk (SynthCode.FMQ 0 6 2 5 MC) "Intel Celeron Mobile (Arrandale)",
  SynthRule.mk (SynthCode.FMQ 0 6 2 5 MP) "Intel Pentium Mobile (Arrandale)",
  SynthRule.mk (SynthCode.FMQ 0 6 2 5 dP) "Intel Pentium (Clarkdale)",
  SynthRule.mk (SynthCode.FMQ 0 6 2 5 Mc) "Intel Core Mobile (Arrandale)",
  SynthRule.mk (SynthCode.FMQ 0 6 2 5 dc) "Intel Core (Clarkdale)",
  SynthRule.mk (SynthCode.FM 0 6 2 5) "Intel Core (unknown type) (Clarkdale/Arrandale)",
  SynthRule.mk (SynthCode.FMS 0 6 2 6 1) "Intel Atom Z600 (Lincroft C0) / Atom E600 (Tunnel Creek B0/B1)",
  SynthRule.mk (SynthCode.FM 0 6 2 6) "Intel Atom Z600 (Lincroft) / Atom E600 (Tunnel Creek B0/B1)",
  SynthRule.mk (SynthCode.FM 0 6 2 7) "Intel Atom Z2000 (Medfield)",
  SynthRule.mk (SynthCode.FMSQ 0 6 2 10 7 Xc) "Intel Mobile Core i7 Extreme (Sandy Bridge D2/J1/Q0)",
  SynthRule.mk (SynthCode.FMSQ 0 6 2 10 7 Mc) "Intel Mobile Core i*-2000 (Sandy Bridge D2/J1/Q0)",
  SynthRule.mk (SynthCode.FMSQ 0 6 2 10 7 dc) "Intel Core i*-2000 (Sandy Bridge D2/J1/Q0)",
  SynthRule.mk (SynthCode.FMSQ 0 6 2 10 7 MC) "Intel Celeron G400/G500/700/800/B800 (Sandy Bridge J1/Q0)",
  SynthRule.mk (SynthCode.FMSQ 0 6 2 10 7 sX) "Intel Xeon E3-1100 / E3-1200 v1 (Sandy Bridge D2/J1/Q0)",
  SynthRule.mk (SynthCode.FMSQ 0 6 2 10 7 dP) "Intel Pentium G500/G600/G800 / Pentium B915C (Sandy Bridge Q0)",
  SynthRule.mk (SynthCode.FMS 0 6 2 10 7) "Intel Core (unknown type) (Sandy Bridge D2/J1/Q0)",
  SynthRule.mk (SynthCode.FMQ 0 6 2 10 Xc) "Intel Mobile Core i7 Extreme (Sandy Bridge)",
  SynthRule.mk (SynthCode.FMQ 0 6 2 10 Mc) "Intel Mobile Core i*-2000 (Sandy Bridge)",
  SynthRule.mk (SynthCode.FMQ 0 6 2 10 dc) "Intel Core i5-2000 / Core i7-2000 (Sandy Bridge)",
  SynthRule.mk (SynthCode.FMQ 0 6 2 10 MC) "Intel Celeron G400/G500/700/800/B800 (Sandy Bridge)",
  SynthRule.mk (SynthCode.FMQ 0 6 2 10 sX) "Intel Xeon E3-1100 / E3-1200 v1 (Sandy Bridge)",
  SynthRule.mk (SynthCode.FMQ 0 6 2 10 dP) "Intel Pentium G500/G600/G800 / Pentium B915C (Sandy Bridge)",
  SynthRule.mk (SynthCode.FM 0 6 2 10) "Intel Core (unknown type) (Sandy Bridge)",
  SynthRule.mk (SynthCode.FMSQ 0 6 2 12 2 dc) "Intel Core i7-900 / Core i7-980X (Gulftown B1)",
  SynthRule.mk (SynthCode.FMSQ 0 6 2 12 2 sX) "Intel Xeon Processor 3600 (Westmere-EP B1) / Xeon Processor 5600 (Westmere-EP B1)",
  SynthRule.mk (SynthCode.FMS 0 6 2 12 2) "Intel Core (unknown type) (Gulftown/Westmere-EP B1)",
  SynthRule.mk (SynthCode.FM 0 6 2 12) "Intel Core (unknown type) (Gulftown) / Xeon (Westmere-EP)",
  SynthRule.mk (SynthCode.FMSQ 0 6 2 13 6 sX) "Intel Xeon E5-1600/2600 (Sandy Bridge-E C1)",
  SynthRule.mk (SynthCode.FMSQ 0 6 2 13 6 dP) "Intel Core i7-3800/3900 (Sandy Bridge-E C1)",
  SynthRule.mk (SynthCode.FMS 0 6 2 13 6) "Intel Core (unknown type) (Sandy Bridge-E C1)",
  SynthRule.mk (SynthCode.FMSQ 0 6 2 13 7 sX) "Intel Xeon E5-1600/2600/4600 (Sandy Bridge-E C2/M1)",
  SynthRule.mk (SynthCode.FMSQ 0 6 2 13 7 dP) "Intel Core i7-3800/3900 (Sandy Bridge-E C2)",
  SynthRule.mk (SynthCode.FMS 0 6 2 13 7) "Intel Core (unknown type) (Sandy Bridge-E C2/M1)",
  SynthRule.mk (SynthCode.FMQ 0 6 2 13 sX) "Intel Xeon E5-1600/2600 (Sandy Bridge-E)",
  SynthRule.mk (SynthCode.FMQ 0 6 2 13 dP) "Intel Core i7-3800/3900 (Sandy Bridge-E)",
  SynthRule.mk (SynthCode.FM 0 6 2 13) "Intel Core (unknown type) (Sandy Bridge-E)",
  SynthRule.mk (SynthCode.FMS 0 6 2 14 6) "Intel Xeon Processor 7500 (Beckton D0)",
  SynthRule.mk (SynthCode.FM 0 6 2 14) "Intel Xeon Processor 7500 (Beckton)",
  SynthRule.mk (SynthCode.FMS 0 6 2 15 2) "Intel Xeon E7-8800 / Xeon E7-4800 / Xeon E7-2800 (Westmere-EX A2)",
  SynthRule.mk (SynthCode.FM 0 6 2 15) "Intel Xeon (unknown type) (Westmere-EX)",
  SynthRule.mk (SynthCode.FMS 0 6 3 5 1) "Intel Atom Z2760 (Clover Trail C0) / Z8000 (Cherry Trail C0)",
  SynthRule.mk (SynthCode.FM 0 6 3 5) "Intel Atom Z2760 (Clover Trail) / Z8000 (Cherry Trail)",
  SynthRule.mk (SynthCode.FMS 0 6 3 6 1) "Intel Atom D2000/N2000 (Cedar Trail B1/B2/B3) / S1200 (Centerton B1)",
  SynthRule.mk (SynthCode.FM 0 6 3 6) "Intel Atom D2000/N2000 (Cedar Trail) / S1200 (Centerton B1)",
  SynthRule.mk (SynthCode.FMS 0 6 3 7 1) "Intel Atom Z3000 (Bay Trail-T A0)",
  SynthRule.mk (SynthCode.FMS 0 6 3 7 2) "Intel Pentium / Celeron (Bay Trail-M B0/B1)",
  SynthRule.mk (SynthCode.FMS 0 6 3 7 3) "Intel Pentium N3500 / J2850 / Celeron N1700 / N1800 / N2800 / N2900 (Bay Trail-M B2/B3) / Atom E3800 (Bay Trail-I B3)",
  SynthRule.mk (SynthCode.FMSQ 0 6 3 7 4 dC) "Intel Celeron N2800 / N2900 (Bay Trail-M C0)",
  SynthRule.mk (SynthCode.FMSQ 0 6 3 7 4 dP) "Intel Pentium N3500 (Bay Trail-M C0)",
  SynthRule.mk (SynthCode.FMS 0 6 3 7 4) "Intel (unknown type) (Bay Trail-M C0 / Bay Trail-T B2/B3)",
  SynthRule.mk (SynthCode.FMS 0 6 3 7 9) "Intel Atom E3800 (Bay Trail-I D0)",
  SynthRule.mk (SynthCode.FM 0 6 3 7) "Intel (unknown type) (Bay Trail-M / Bay Trail-T / Bay Trail-I)"
]

/-- The five stepping-9 rules of the model 0x3A (Ivy Bridge) block of `decode_synth_intel`. -/
def intelRulesIvy9 : List SynthRule := [
  SynthRule.mk (SynthCode.FMSQ 0 6 3 10 9 Mc) "Intel Mobile Core i*-3000 (Ivy Bridge E1/L1) / Pentium 900/1000/2000/2100 (P0)",
  SynthRule.mk (SynthCode.FMSQ 0 6 3 10 9 dc) "Intel Core i*-3000 (Ivy Bridge E1/N0/L1)",
  SynthRule.mk (SynthCode.FMSQ 0 6 3 10 9 sX) "Intel Xeon E3-1100 v2 / E3-1200 v2 (Ivy Bridge E1/N0/L1)",
  SynthRule.mk (SynthCode.FMSQ 0 6 3 10 9 dP) "Intel Pentium G1600/G2000/G2100 / Pentium B925C (Ivy Bridge P0)",
  SynthRule.mk (SynthCode.FMS 0 6 3 10 9) "Intel Core (unknown type) (Ivy Bridge E1/N0/L1/P0)"
]

/-- The remaining rules of the `decode_synth_intel` chain (from the model 0x3A family-model rules to the final `DEFAULT`), in authored order. -/
def intelRulesRest : List SynthRule := [
  SynthRule.mk (SynthCode.FMQ 0 6 3 10 Mc) "Intel Mobile Core i*-3000 (Ivy Bridge) / Pentium 900/1000/2000/2100",
  SynthRule.mk (SynthCode.FMQ 0 6 3 10 dc) "Intel Core i*-3000 (Ivy Bridge)",
  SynthRule.mk (SynthCode.FMQ 0 6 3 10 sX) "Intel Xeon E3-1100 v2 / E3-1200 v2 (Ivy Bridge)",
  SynthRule.mk (SynthCode.FMQ 0 6 3 10 dP) "Intel Pentium G1600/G2000/G2100 / Pentium B925C (Ivy Bridge)",
  SynthRule.mk (SynthCode.FM 0 6 3 10) "Intel Core (unknown type) (Ivy Bridge)",
  SynthRule.mk (SynthCode.FMQ 0 6 3 12 sX) "Intel Xeon E3-1200 v3 (Haswell)",
  SynthRule.mk (SynthCode.FMQ 0 6 3 12 Mc) "Intel Mobile Core i*-4000U (Mobile M) (Haswell)",
  SynthRule.mk (SynthCode.FMQ 0 6 3 12 dc) "Intel Core i*-4000 / / Mobile Core i*-4000 (Haswell)",
  SynthRule.mk (SynthCode.FMQ 0 6 3 12 MC) "Intel Mobile Celeron 2900U (Mobile M) (Haswell)",
  SynthRule.mk (SynthCode.FMQ 0 6 3 12 dC) "Intel Celeron G1800 (Haswell)",
  SynthRule.mk (SynthCode.FMQ 0 6 3 12 MP) "Intel Mobile Pentium 3500U / 3600U / 3500Y (Mobile M) (Haswell)",
  SynthRule.mk (SynthCode.FMQ 0 6 3 12 dP) "Intel Pentium G3000 (Haswell)",
  SynthRule.mk (SynthCode.FM 0 6 3 12) "Intel Core (unknown type) (Haswell)",
  SynthRule.mk (SynthCode.FMQ 0 6 3 13 dc) "Intel Core i*-5000 / Core M (Broadwell)",
  SynthRule.mk (SynthCode.FMQ 0 6 3 13 MC) "Intel Mobile Celeron 3000 (Broadwell)",
  SynthRule.mk (SynthCode.FMQ 0 6 3 13 dC) "Intel Celeron 3000 (Broadwell)",
  SynthRule.mk (SynthCode.FM 0 6 3 13) "Intel Core (unknown type) (Broadwell)",
  SynthRule.mk (SynthCode.FMSQ 0 6 3 14 4 sX) "Intel Xeon E5-1600/E5-2600 v2 (Ivy Bridge-EP C1/M1/S1)",
  SynthRule.mk (SynthCode.FMSQ 0 6 3 14 4 dc) "Intel Core i7-4000 / i9-4000 (Ivy Bridge-EP S1)",
  SynthRule.mk (SynthCode.FMS 0 6 3 14 4) "Intel Core (unknown type) (Ivy Bridge-EP C1/M1/S1)",
  SynthRule.mk (SynthCode.FMSQ 0 6 3 14 7 sX) "Intel Xeon E7 v2 (Ivy Bridge-EX D1)",
  SynthRule.mk (SynthCode.FMS 0 6 3 14 7) "Intel Xeon (unknown type) (Ivy Bridge-EX D1)",
  SynthRule.mk (SynthCode.FMQ 0 6 3 14 sX) "Intel Xeon E5-1600/E5-2600 v2 (Ivy Bridge-EP) / Xeon E7 (Ivy Bridge-EX)",
  SynthRule.mk (SynthCode.FMQ 0 6 3 14 dc) "Intel Core i9-4000 (Ivy Bridge-EP)",
  SynthRule.mk (SynthCode.FM 0 6 3 14) "Intel Core (unknown type) (Ivy Bridge-EP / Ivy Bridge-EX",
  SynthRule.mk (SynthCode.FMS 0 6 3 15 2) "Intel Core i7-5000 Extreme Edition (Haswell R2) / Xeon E5-x600 v3 (Haswell-EP C1/M1/R2)",
  SynthRule.mk (SynthCode.FMS 0 6 3 15 4) "Intel Xeon E7-4800 / E7-8800 v3 (Haswell-EP E0)",
  SynthRule.mk (SynthCode.FM 0 6 3 15) "Intel Core (unknown type) (Haswell R2 / Haswell-EP)",
  SynthRule.mk (SynthCode.FMQ 0 6 4 5 dc) "Intel Core i*-4000U (Haswell)",
  SynthRule.mk (SynthCode.FMQ 0 6 4 5 Mc) "Intel Mobile Core i*-4000Y (Mobile U/Y) (Haswell)",
  SynthRule.mk (SynthCode.FMQ 0 6 4 5 MP) "Intel Mobile Pentium 3500U / 3600U / 3500Y (Mobile U/Y) (Haswell)",
  SynthRule.mk (SynthCode.FMQ 0 6 4 5 MC) "Intel Mobile Celeron 2900U (Mobile U/Y) (Haswell)",
  SynthRule.mk (SynthCode.FM 0 6 4 5) "Intel Core (unknown type) (Haswell)",
  SynthRule.mk (SynthCode.FMQ 0 6 4 6 Mc) "Intel Mobile Core i*-4000Y (Mobile H) (Haswell)",
  SynthRule.mk (SynthCode.FMQ 0 6 4 6 dc) "Intel Core i* / Mobile Core i* (Desktop R) (Haswell)",
  SynthRule.mk (SynthCode.FMQ 0 6 4 6 MP) "Intel Mobile Pentium 3500U / 3600U / 3500Y (Mobile H) (Haswell)",
  SynthRule.mk (SynthCode.FMQ 0 6 4 6 dC) "Intel Celeron G1800 (Desktop R) (Haswell)",
  SynthRule.mk (SynthCode.FMQ 0 6 4 6 MC) "Intel Mobile Celeron 2900U (Mobile H) (Haswell)",
  SynthRule.mk (SynthCode.FMQ 0 6 4 6 dP) "Intel Pentium G3000 (Desktop R) (Haswell)",
  SynthRule.mk (SynthCode.FM 0 6 4 6) "Intel Core (unknown type) (Haswell)",
  SynthRule.mk (SynthCode.FMQ 0 6 4 7 dc) "Intel Core i7-5000 (Broadwell)",
  SynthRule.mk (SynthCode.FMQ 0 6 4 7 Mc) "Intel Mobile Core i7-5000 (Broadwell)",
  SynthRule.mk (SynthCode.FMQ 0 6 4 7 sX) "Intel Xeon E3-1200 v4 (Broadwell)",
  SynthRule.mk (SynthCode.FM 0 6 4 7) "Intel Core (unknown type) (Broadwell)",
  SynthRule.mk (SynthCode.FM 0 6 4 10) "Intel Atom Z3400 (Merrifield)",
  SynthRule.mk (SynthCode.FMS 0 6 4 12 0) "Intel Pentium N3000 / Celeron N3000 (Braswell C0)",
  SynthRule.mk (SynthCode.FM 0 6 4 12) "Intel Pentium N3000 / Celeron N3000 (Braswell)",
  SynthRule.mk (SynthCode.FMS 0 6 4 13 0) "Intel Atom C2000 (Avoton A0/A1)",
  SynthRule.mk (SynthCode.FMS 0 6 4 13 8) "Intel Atom C2000 (Avoton B0/C0)",
  SynthRule.mk (SynthCode.FM 0 6 4 13) "Intel Atom C2000 (Avoton)",
  SynthRule.mk (SynthCode.FMQ 0 6 4 14 dc) "Intel Core i*-6000U / m*-6Y00 (Skylake)",
  SynthRule.mk (SynthCode.FMQ 0 6 4 14 dP) "Intel Pentium 4405U / Pentium 4405Y (Skylake)",
  SynthRule.mk (SynthCode.FMQ 0 6 4 14 dC) "Intel Celeron 3800U / 39000U (Skylake)",
  SynthRule.mk (SynthCode.FMQ 0 6 4 14 sX) "Intel Xeon E3-1500m (Skylake)",
  SynthRule.mk (SynthCode.FM 0 6 4 14) "Intel Core (unknown type) (Skylake)",
  SynthRule.mk (SynthCode.FMQ 0 6 4 15 dc) "Intel Core i7-6800K / i7-6900K / i7-6900X (Broadwell-E)",
  SynthRule.mk (SynthCode.FMSQ 0 6 4 15 1 sX) "Intel Xeon E5-1600 / E5-2600 / E5-4600 v4 (Broadwell) / E7-4800 / E7-8800 v4 (Broadwell-EX B0)",
  SynthRule.mk (SynthCode.FMQ 0 6 4 15 sX) "Intel Xeon E5-1600 / E5-2600 / E5-4600 v4 (Broadwell) / E7-4800 / E7-8800 v4 (Broadwell-EX)",
  SynthRule.mk (SynthCode.FM 0 6 4 15) "Intel Core (unknown type) (Broadwell / Broadwell-E / Broadwell-EX)",
  SynthRule.mk (SynthCode.FMSQ 0 6 5 5 2 sS) "Intel Scalable Bronze/Silver/Gold/Platinum (Skylake B0/L0)",
  SynthRule.mk (SynthCode.FMSQ 0 6 5 5 2 sX) "Intel Xeon W 2000 / D-2100 (Skylake B0/L0)",
  SynthRule.mk (SynthCode.FMSQ 0 6 5 5 4 sS) "Intel Scalable Bronze/Silver/Gold/Platinum (Skylake H0/M0/U0)",
  SynthRule.mk (SynthCode.FMSQ 0 6 5 5 4 sX) "Intel Xeon W 2000 (Skylake H0/M0/U0)",
  SynthRule.mk (SynthCode.FMSQ 0 6 5 5 6 sS) "Intel Scalable (2nd Gen) Bronze/Silver/Gold/Platinum (Cascade Lake)",
  SynthRule.mk (SynthCode.FMSQ 0 6 5 5 6 sX) "Intel Xeon W 2000 (Cascade Lake)",
  SynthRule.mk (SynthCode.FMSQ 0 6 5 5 7 dc) "Intel Core i*-10000X (Cascade Lake-X B1/L1/R1)",
  SynthRule.mk (SynthCode.FMSQ 0 6 5 5 7 sS) "Intel Scalable (2nd Gen) Bronze/Silver/Gold/Platinum (Cascade Lake B1/L1/R1)",
  SynthRule.mk (SynthCode.FMSQ 0 6 5 5 7 sX) "Intel Xeon W 2000 (Cascade Lake B1/L1/R1)",
  SynthRule.mk (SynthCode.FMQ 0 6 5 5 dc) "Intel Core i*-6000X / i*-7000X (Skylake-X) / i*-10000X (Cascade Lake-X)",
  SynthRule.mk (SynthCode.FMQ 0 6 5 5 sS) "Intel Scalable Bronze/Silver/Gold/Platinum (Skylake / Cascade Lake)",
  SynthRule.mk (SynthCode.FMQ 0 6 5 5 sX) "Intel Xeon W 2000 / D-2100 (Skylake / Cascade Lake)",
  SynthRule.mk (SynthCode.FM 0 6 5 5) "Intel Core (unknown type) (Skylake / Skylake-X / Cascade Lake / Cascade Lake-X)",
  SynthRule.mk (SynthCode.FMS 0 6 5 6 1) "Intel Xeon D-1500 (Broadwell-DE U0)",
  SynthRule.mk (SynthCode.FMS 0 6 5 6 2) "Intel Xeon D-1500 (Broadwell-DE V1)",
  SynthRule.mk (SynthCode.FMS 0 6 5 6 3) "Intel Xeon D-1500 (Broadwell-DE V2)",
  SynthRule.mk (SynthCode.FMS 0 6 5 6 4) "Intel Xeon D-1500 (Broadwell-DE Y0)",
  SynthRule.mk (SynthCode.FMS 0 6 5 6 5) "Intel Xeon D-1500N (Broadwell-DE A1)",
  SynthRule.mk (SynthCode.FM 0 6 5 6) "Intel Xeon (unknown type) (Broadwell-DE)",
  SynthRule.mk (SynthCode.FMS 0 6 5 7 1) "Intel Xeon Phi x200 (Knights Landing B0)",
  SynthRule.mk (SynthCode.FM 0 6 5 7) "Intel Xeon Phi x200 (Knights Landing)",
  SynthRule.mk (SynthCode.FM 0 6 5 10) "Intel Atom Z3500 (Moorefield)",
  SynthRule.mk (SynthCode.FMSQ 0 6 5 12 9 dP) "Intel Pentium N4000 / J4000 (Apollo Lake)",
  SynthRule.mk (SynthCode.FMSQ 0 6 5 12 9 dC) "Intel Celeron N3000 / J3000 (Apollo Lake)",
  SynthRule.mk (SynthCode.FMS 0 6 5 12 9) "Intel Atom (unknown type) (Apollo Lake)",
  SynthRule.mk (SynthCode.FM 0 6 5 12) "Intel Atom (unknown type) (Apollo Lake)",
  SynthRule.mk (SynthCode.FM 0 6 5 13) "Intel Atom X3-C3000 (SoFIA)",
  SynthRule.mk (SynthCode.FMQ 0 6 5 14 dc) "Intel Core i*-6000 (Skylake)",
  SynthRule.mk (SynthCode.FMQ 0 6 5 14 dP) "Intel Pentium G4000 (Skylake)",
  SynthRule.mk (SynthCode.FMQ 0 6 5 14 dC) "Intel Celeron G3900 (Skylake)",
  SynthRule.mk (SynthCode.FMQ 0 6 5 14 sX) "Intel Xeon E3-1200 v5 (Skylake)",
  SynthRule.mk (SynthCode.FM 0 6 5 14) "Intel Core (unknown type) (Skylake)",
  SynthRule.mk (SynthCode.FMS 0 6 5 15 0) "Intel Atom C3000 (Denverton A0/A1)",
  SynthRule.mk (SynthCode.FMS 0 6 5 15 1) "Intel Atom C3000 (Denverton B0/B1)",
  SynthRule.mk (SynthCode.FM 0 6 5 15) "Intel Atom C3000 (Denverton)",
  SynthRule.mk (SynthCode.FM 0 6 6 6) "Intel Core (Cannon Lake)",
  SynthRule.mk (SynthCode.FM 0 6 6 10) "Intel Core (Ice Lake)",
  SynthRule.mk (SynthCode.FM 0 6 6 12) "Intel Core (Ice Lake)",
  SynthRule.mk (SynthCode.FMSQ 0 6 7 10 1 dP) "Intel Pentium Silver N5000 / J5000 (Gemini Lake B0/R0)",
  SynthRule.mk (SynthCode.FMSQ 0 6 7 10 1 dC) "Intel Celeron N4000 / J4000 (Gemini Lake B0/R0)",
  SynthRule.mk (SynthCode.FMS 0 6 7 10 1) "Intel (unknown type) (Gemini Lake B0/R0)",
  SynthRule.mk (SynthCode.FMQ 0 6 7 10 dP) "Intel Pentium Silver N5000 / J5000 (Gemini Lake)",
  SynthRule.mk (SynthCode.FMQ 0 6 7 10 dC) "Intel Celeron N4000 / J4000 (Gemini Lake)",
  SynthRule.mk (SynthCode.FM 0 6 7 10) "Intel (unknown type) (Gemini Lake)",
  SynthRule.mk (SynthCode.FM 0 6 7 13) "Intel Core i*-10000 (Ice Lake)",
  SynthRule.mk (SynthCode.FMS 0 6 7 14 4) "Intel Core i*-10000 (Ice Lake Y)",
  SynthRule.mk (SynthCode.FMS 0 6 7 14 5) "Intel Core i*-10000 (Ice Lake U)",
  SynthRule.mk (SynthCode.FM 0 6 7 14) "Intel Core i*-10000 (Ice Lake)",
  SynthRule.mk (SynthCode.FM 0 6 8 5) "Intel Xeon Phi (Knights Mill)",
  SynthRule.mk (SynthCode.FM 0 6 8 12) "Intel Core (Tiger Lake)",
  SynthRule.mk (SynthCode.FMSQ 0 6 8 14 9 LY) "Intel Core i*-8000Y (Amber Lake Y)",
  SynthRule.mk (SynthCode.FMSQ 0 6 8 14 9 dc) "Intel Core i*-8000U / i*-8000Y (Kaby Lake)",
  SynthRule.mk (SynthCode.FMSQ 0 6 8 14 10 dc) "Intel Core i*-8000U / i*-8000Y (Kaby Lake)",
  SynthRule.mk (SynthCode.FMSQ 0 6 8 14 11 LU) "Intel Core i*-8000U (Whiskey Lake W0)",
  SynthRule.mk (SynthCode.FMSQ 0 6 8 14 11 LY) "Intel Core i*-8000Y (Amber Lake W0)",
  SynthRule.mk (SynthCode.FMSQ 0 6 8 14 11 dc) "Intel Core (unknown type) (Whiskey Lake W0 / Amber Lake W0)",
  SynthRule.mk (SynthCode.FMSQ 0 6 8 14 12 UC) "Intel Core i*-10000U (Comet Lake V1)",
  SynthRule.mk (SynthCode.FMSQ 0 6 8 14 12 LU) "Intel Core i*-8000U (Whiskey Lake V0)",
  SynthRule.mk (SynthCode.FMSQ 0 6 8 14 12 LY) "Intel Core i*-8000Y (Amber Lake V0)",
  SynthRule.mk (SynthCode.FMSQ 0 6 8 14 12 dc) "Intel Core (unknown type) (Whiskey Lake V0 / Amber Lake V0 / Comet Lake V1)",
  SynthRule.mk (SynthCode.FMSQ 0 6 8 14 12 dP) "Intel Pentium 6000U (Comet Lake V1)",
  SynthRule.mk (SynthCode.FMSQ 0 6 8 14 12 dC) "Intel Celeron 5000U (Comet Lake V1)",
  SynthRule.mk (SynthCode.FMS 0 6 8 14 12) "Intel (unknown type) (Whiskey Lake V0 / Amber Lake V0 / Comet Lake V1)",
  SynthRule.mk (SynthCode.FMQ 0 6 8 14 dc) "Intel Core i*-8000U / i*-8000Y / Core i*-10000 / Pentium 6000U / Celeron 5000U (Kaby Lake / Coffee Lake / Whiskey Lake / Amber Lake)",
  SynthRule.mk (SynthCode.FMQ 0 6 8 14 dP) "Intel Pentium 4410Y / 4415U /6000U (Kaby Lake / Coffee Lake / Comet Lake",
  SynthRule.mk (SynthCode.FMQ 0 6 8 14 dC) "Intel Celeron 3965Y / 3865U / 3965U / 5000U (Kaby Lake / Coffee Lake / Comet Lake)",
  SynthRule.mk (SynthCode.FM 0 6 8 14) "Intel Core (unknown type) (Kaby Lake / Amber Lake / Whiskey Lake / Coffee Lake)",
  SynthRule.mk (SynthCode.FMSQ 0 6 9 14 9 dc) "Intel Core i*-7700 / i*-8700 (Kaby Lake)",
  SynthRule.mk (SynthCode.FMSQ 0 6 9 14 10 LU) "Intel Core i*-8000 / i*-9000 U Line (Coffee Lake D0)",
  SynthRule.mk (SynthCode.FMSQ 0 6 9 14 10 dc) "Intel Core i*-8000 / i*-9000 S/H Line (Coffee Lake U0)",
  SynthRule.mk (SynthCode.FMSQ 0 6 9 14 11 dc) "Intel Core i*-8000 / i*-9000 S Line (Coffee Lake B0)",
  SynthRule.mk (SynthCode.FMSQ 0 6 9 14 12 dc) "Intel Core i*-8000 / i*-9000 S Line (Coffee Lake P0)",
  SynthRule.mk (SynthCode.FMSQ 0 6 9 14 13 dc) "Intel Core i*-8000 / i*-9000 H Line (Coffee Lake R0)",
  SynthRule.mk (SynthCode.FMQ 0 6 9 14 dc) "Intel Core i*-8000 / i*-9000 (Kaby Lake / Coffee Lake)",
  SynthRule.mk (SynthCode.FMQ 0 6 9 14 dC) "Intel Celeron G3930 (Kaby Lake / Coffee Lake)",
  SynthRule.mk (SynthCode.FMQ 0 6 9 14 sX) "Intel Xeon E3-1200v6 / E3-1285v5 / E3-15x5Mv6 / E-2100 / E-2200 (Kaby Lake / Coffee Lake)",
  SynthRule.mk (SynthCode.FM 0 6 9 14) "Intel Core (unknown type) (Kaby Lake / Coffee Lake)",
  SynthRule.mk (SynthCode.FM 0 6 10 6) "Intel Core i*-10000 (Comet Lake)",
  SynthRule.mk (SynthCode.FQ 0 6 sX) "Intel Xeon (unknown model)",
  SynthRule.mk (SynthCode.FQ 0 6 se) "Intel Xeon (unknown model)",
  SynthRule.mk (SynthCode.FQ 0 6 MC) "Intel Mobile Celeron (unknown model)",
  SynthRule.mk (SynthCode.FQ 0 6 dC) "Intel Celeron (unknown model)",
  SynthRule.mk (SynthCode.FQ 0 6 Xc) "Intel Core Extreme (unknown model)",
  SynthRule.mk (SynthCode.FQ 0 6 Mc) "Intel Mobile Core (unknown model)",
  SynthRule.mk (SynthCode.FQ 0 6 dc) "Intel Core (unknown model)",
  SynthRule.mk (SynthCode.FQ 0 6 MP) "Intel Mobile Pentium (unknown model)",
  SynthRule.mk (SynthCode.FQ 0 6 dP) "Intel Pentium (unknown model)",
  SynthRule.mk (SynthCode.F 0 6) "Intel (unknown model)",
  SynthRule.mk (SynthCode.FMS 0 7 0 6 4) "Intel Itanium (Merced C0)",
  SynthRule.mk (SynthCode.FMS 0 7 0 7 4) "Intel Itanium (Merced C1)",
  SynthRule.mk (SynthCode.FMS 0 7 0 8 4) "Intel Itanium (Merced C2)",
  SynthRule.mk (SynthCode.F 0 7) "Intel Itanium (unknown model)",
  SynthRule.mk (SynthCode.FM 0 11 0 0) "Intel Xeon Phi x100 Coprocessor (Knights Ferry)",
  SynthRule.mk (SynthCode.FMS 0 11 0 1 1) "Intel Xeon Phi x100 Coprocessor (Knights Corner B0)",
  SynthRule.mk (SynthCode.FMS 0 11 0 1 3) "Intel Xeon Phi x100 Coprocessor (Knights Corner B1)",
  SynthRule.mk (SynthCode.FMS 0 11 0 1 4) "Intel Xeon Phi x100 Coprocessor (Knights Corner C0)",
  SynthRule.mk (SynthCode.FM 0 11 0 1) "Intel Xeon Phi x100 Coprocessor (Knights Corner)",
  SynthRule.mk (SynthCode.FMS 0 15 0 0 7) "Intel Pentium 4 (Willamette B2)",
  SynthRule.mk (SynthCode.FMSQ 0 15 0 0 10 dP) "Intel Pentium 4 (Willamette C1)",
  SynthRule.mk (SynthCode.FMSQ 0 15 0 0 10 sX) "Intel Xeon (Foster C1)",
  SynthRule.mk (SynthCode.FMS 0 15 0 0 10) "Intel Pentium 4 (unknown type) 4 (Willamette/Foster C1)",
  SynthRule.mk (SynthCode.FMQ 0 15 0 0 dP) "Intel Pentium 4 (Willamette)",
  SynthRule.mk (SynthCode.FMQ 0 15 0 0 sX) "Intel Xeon (Foster)",
  SynthRule.mk (SynthCode.FM 0 15 0 0) "Intel Pentium 4 (unknown type) (Willamette/Foster)",
  SynthRule.mk (SynthCode.FMS 0 15 0 1 1) "Intel Xeon MP (Foster C0)",
  SynthRule.mk (SynthCode.FMSQ 0 15 0 1 2 dP) "Intel Pentium 4 (Willamette D0)",
  SynthRule.mk (SynthCode.FMSQ 0 15 0 1 2 sX) "Intel Xeon (Foster D0)",
  SynthRule.mk (SynthCode.FMS 0 15 0 1 2) "Intel Pentium 4 (unknown type) (Willamette/Foster D0)",
  SynthRule.mk (SynthCode.FMSQ 0 15 0 1 3 dP) "Intel Pentium 4(Willamette E0)",
  SynthRule.mk (SynthCode.FMSQ 0 15 0 1 3 dC) "Intel Celeron 478-pin (Willamette E0)",
  SynthRule.mk (SynthCode.FMS 0 15 0 1 3) "Intel Pentium 4 (unknown type) (Willamette/Foster E0)",
  SynthRule.mk (SynthCode.FMQ 0 15 0 1 dP) "Intel Pentium 4 (Willamette)",
  SynthRule.mk (SynthCode.FMQ 0 15 0 1 sX) "Intel Xeon (Foster)",
  SynthRule.mk (SynthCode.FM 0 15 0 1) "Intel Pentium 4 (unknown type) (Willamette/Foster)",
  SynthRule.mk (SynthCode.FMS 0 15 0 2 2) "Intel Xeon MP (Gallatin A0)",
  SynthRule.mk (SynthCode.FMSQ 0 15 0 2 4 sX) "Intel Xeon (Prestonia B0)",
  SynthRule.mk (SynthCode.FMSQ 0 15 0 2 4 MM) "Intel Mobile Pentium 4 Processor-M (Northwood B0)",
  SynthRule.mk (SynthCode.FMSQ 0 15 0 2 4 MC) "Intel Mobile Celeron (Northwood B0)",
  SynthRule.mk (SynthCode.FMSQ 0 15 0 2 4 dP) "Intel Pentium 4 (Northwood B0)",
  SynthRule.mk (SynthCode.FMS 0 15 0 2 4) "Intel Pentium 4 (unknown type) (Northwood/Prestonia B0)",
  SynthRule.mk (SynthCode.FMSQ 0 15 0 2 5 dP) "Intel Pentium 4 (Northwood B1/M0)",
  SynthRule.mk (SynthCode.FMSQ 0 15 0 2 5 sM) "Intel Xeon MP (Gallatin B1)",
  SynthRule.mk (SynthCode.FMSQ 0 15 0 2 5 sX) "Intel Xeon (Prestonia B1)",
  SynthRule.mk (SynthCode.FMS 0 15 0 2 5) "Intel Pentium 4 (unknown type) (Northwood/Prestonia/Gallatin B1/M0)",
  SynthRule.mk (SynthCode.FMS 0 15 0 2 6) "Intel Xeon MP (Gallatin C0)",
  SynthRule.mk (SynthCode.FMSQ 0 15 0 2 7 sX) "Intel Xeon (Prestonia C1)",
  SynthRule.mk (SynthCode.FMSQ 0 15 0 2 7 dC) "Intel Celeron 478-pin (Northwood C1)",
  SynthRule.mk (SynthCode.FMSQ 0 15 0 2 7 MC) "Intel Mobile Celeron (Northwood C1)",
  SynthRule.mk (SynthCode.FMSQ 0 15 0 2 7 MM) "Intel Mobile Pentium 4 Processor-M (Northwood C1)",
  SynthRule.mk (SynthCode.FMSQ 0 15 0 2 7 dP) "Intel Pentium 4 (Northwood C1)",
  SynthRule.mk (SynthCode.FMS 0 15 0 2 7) "Intel Pentium 4 (unknown type) (Northwood/Prestonia C1)",
  SynthRule.mk (SynthCode.FMSQ 0 15 0 2 9 sX) "Intel Xeon (Prestonia D1)",
  SynthRule.mk (SynthCode.FMSQ 0 15 0 2 9 dC) "Intel Celeron 478-pin (Northwood D1)",
  SynthRule.mk (SynthCode.FMSQ 0 15 0 2 9 MC) "Intel Mobile Celeron (Northwood D1)",
  SynthRule.mk (SynthCode.FMSQ 0 15 0 2 9 MM) "Intel Mobile Pentium 4 Processor-M (Northwood D1)",
  SynthRule.mk (SynthCode.FMSQ 0 15 0 2 9 MP) "Intel Mobile Pentium 4 (Northwood D1)",
  SynthRule.mk (SynthCode.FMSQ 0 15 0 2 9 dP) "Intel Pentium 4 (Northwood D1)",
  SynthRule.mk (SynthCode.FMS 0 15 0 2 9) "Intel Pentium 4 (unknown type) (Northwood/Prestonia D1)",
  SynthRule.mk (SynthCode.FMQ 0 15 0 2 dP) "Intel Pentium 4 (Northwood)",
  SynthRule.mk (SynthCode.FMQ 0 15 0 2 sM) "Intel Xeon MP (Gallatin)",
  SynthRule.mk (SynthCode.FMQ 0 15 0 2 sX) "Intel Xeon (Prestonia)",
  SynthRule.mk (SynthCode.FM 0 15 0 2) "Intel Pentium 4 (unknown type) (Northwood/Prestonia/Gallatin)",
  SynthRule.mk (SynthCode.FMSQ 0 15 0 3 3 dP) "Intel Pentium 4 (Prescott C0)",
  SynthRule.mk (SynthCode.FMSQ 0 15 0 3 3 dC) "Intel Celeron D (Prescott C0)",
  SynthRule.mk (SynthCode.FMS 0 15 0 3 3) "Intel Pentium 4 (unknown type) (Prescott C0)",
  SynthRule.mk (SynthCode.FMSQ 0 15 0 3 4 sX) "Intel Xeon (Nocona D0)",
  SynthRule.mk (SynthCode.FMSQ 0 15 0 3 4 dC) "Intel Celeron D (Prescott D0)",
  SynthRule.mk (SynthCode.FMSQ 0 15 0 3 4 MP) "Intel Mobile Pentium 4 (Prescott D0)",
  SynthRule.mk (SynthCode.FMSQ 0 15 0 3 4 dP) "Intel Pentium 4 (Prescott D0)",
  SynthRule.mk (SynthCode.FMS 0 15 0 3 4) "Intel Pentium 4 (unknown type) (Prescott/Nocona D0)",
  SynthRule.mk (SynthCode.FMQ 0 15 0 3 sX) "Intel Xeon (Nocona)",
  SynthRule.mk (SynthCode.FMQ 0 15 0 3 dC) "Intel Celeron D (Prescott)",
  SynthRule.mk (SynthCode.FMQ 0 15 0 3 MP) "Intel Mobile Pentium 4 (Prescott)",
  SynthRule.mk (SynthCode.FMQ 0 15 0 3 dP) "Intel Pentium 4 (Prescott)",
  SynthRule.mk (SynthCode.FM 0 15 0 3) "Intel Pentium 4 (unknown type) (Prescott/Nocona)",
  SynthRule.mk (SynthCode.FMSQ 0 15 0 4 1 sP) "Intel Xeon MP (Potomac C0)",
  SynthRule.mk (SynthCode.FMSQ 0 15 0 4 1 sM) "Intel Xeon MP (Cranford A0)",
  SynthRule.mk (SynthCode.FMSQ 0 15 0 4 1 sX) "Intel Xeon (Nocona E0)",
  SynthRule.mk (SynthCode.FMSQ 0 15 0 4 1 dC) "Intel Celeron D (Prescott E0)",
  SynthRule.mk (SynthCode.FMSQ 0 15 0 4 1 MP) "Intel Mobile Pentium 4 (Prescott E0)",
  SynthRule.mk (SynthCode.FMSQ 0 15 0 4 1 dP) "Intel Pentium 4 (Prescott E0)",
  SynthRule.mk (SynthCode.FMS 0 15 0 4 1) "Intel Pentium 4 (unknown type) (Prescott/Nocona/Cranford/Potomac E0)",
  SynthRule.mk (SynthCode.FMSQ 0 15 0 4 3 sI) "Intel Xeon (Irwindale N0)",
  SynthRule.mk (SynthCode.FMSQ 0 15 0 4 3 sX) "Intel Xeon (Nocona N0)",
  SynthRule.mk (SynthCode.FMSQ 0 15 0 4 3 dP) "Intel Pentium 4 (Prescott N0)",
  SynthRule.mk (SynthCode.FMS 0 15 0 4 3) "Intel Pentium 4 (unknown type) (Prescott/Nocona/Irwindale N0)",
  SynthRule.mk (SynthCode.FMSQ 0 15 0 4 4 dc) "Intel Pentium Extreme Edition Processor 840 (Smithfield A0)",
  SynthRule.mk (SynthCode.FMSQ 0 15 0 4 4 dd) "Intel Pentium D Processor 8x0 (Smithfield A0)",
  SynthRule.mk (SynthCode.FMS 0 15 0 4 4) "Intel Pentium D (unknown type) (Smithfield A0)",
  SynthRule.mk (SynthCode.FMSQ 0 15 0 4 7 dc) "Pentium Extreme Edition Processor 840 (Smithfield B0)",
  SynthRule.mk (SynthCode.FMSQ 0 15 0 4 7 dd) "Intel Pentium D Processor 8x0 (Smithfield B0)",
  SynthRule.mk (SynthCode.FMS 0 15 0 4 7) "Intel Pentium D (unknown type) (Smithfield B0)",
  SynthRule.mk (SynthCode.FMSQ 0 15 0 4 8 s7) "Intel Dual-Core Xeon Processor 7000 (Paxville A0)",
  SynthRule.mk (SynthCode.FMSQ 0 15 0 4 8 sX) "Intel Dual-Core Xeon (Paxville A0)",
  SynthRule.mk (SynthCode.FMS 0 15 0 4 8) "Intel Dual-Core Xeon (unknown type) (Paxville A0)",
  SynthRule.mk (SynthCode.FMSQ 0 15 0 4 9 sM) "Intel Xeon MP (Cranford B0)",
  SynthRule.mk (SynthCode.FMSQ 0 15 0 4 9 dC) "Intel Celeron D (Prescott G1)",
  SynthRule.mk (SynthCode.FMSQ 0 15 0 4 9 dP) "Intel Pentium 4 (Prescott G1)",
  SynthRule.mk (SynthCode.FMS 0 15 0 4 9) "Intel Pentium 4 (unknown type) (Prescott/Cranford G1)",
  SynthRule.mk (SynthCode.FMSQ 0 15 0 4 10 sI) "Intel Xeon (Irwindale R0)",
  SynthRule.mk (SynthCode.FMSQ 0 15 0 4 10 sX) "Intel Xeon (Nocona R0)",
  SynthRule.mk (SynthCode.FMSQ 0 15 0 4 10 dP) "Intel Pentium 4 (Prescott R0)",
  SynthRule.mk (SynthCode.FMS 0 15 0 4 10) "Intel Pentium 4 (unknown type) (Prescott/Nocona/Irwindale R0)",
  SynthRule.mk (SynthCode.FMQ 0 15 0 4 sM) "Intel Xeon MP (Nocona/Potomac)",
  SynthRule.mk (SynthCode.FMQ 0 15 0 4 sX) "Intel Xeon (Nocona/Irwindale)",
  SynthRule.mk (SynthCode.FMQ 0 15 0 4 dC) "Intel Celeron D (Prescott)",
  SynthRule.mk (SynthCode.FMQ 0 15 0 4 MP) "Intel Mobile Pentium 4 (Prescott)",
  SynthRule.mk (SynthCode.FMQ 0 15 0 4 dd) "Intel Pentium D (Smithfield A0)",
  SynthRule.mk (SynthCode.FMQ 0 15 0 4 dP) "Intel Pentium 4 (Prescott) / Pentium Extreme Edition (Smithfield A0)",
  SynthRule.mk (SynthCode.FM 0 15 0 4) "Intel Pentium 4 (unknown type) (Prescott/Nocona/Irwindale/Smithfield/Cranford/Potomac)",
  SynthRule.mk (SynthCode.FMSQ 0 15 0 6 2 dd) "Intel Pentium D Processor 9xx (Presler B1)",
  SynthRule.mk (SynthCode.FMSQ 0 15 0 6 2 dP) "Intel Pentium 4 Processor 6x1 (Cedar Mill B1) / Pentium Extreme Edition Processor 955 (Presler B1)",
  SynthRule.mk (SynthCode.FMS 0 15 0 6 2) "Intel Pentium 4 (unknown type) (Cedar Mill/Presler B1)",
  SynthRule.mk (SynthCode.FMSQ 0 15 0 6 4 dd) "Intel Pentium D Processor 9xx (Presler C1)",
  SynthRule.mk (SynthCode.FMSQ 0 15 0 6 4 dP) "Intel Pentium 4 Processor 6x1 (Cedar Mill C1) / Pentium Extreme Edition Processor 955 (Presler C1)",
  SynthRule.mk (SynthCode.FMSQ 0 15 0 6 4 dC) "Intel Celeron D Processor 34x/35x (Cedar Mill C1)",
  SynthRule.mk (SynthCode.FMSQ 0 15 0 6 4 sX) "Intel Xeon Processor 5000 (Dempsey C1)",
  SynthRule.mk (SynthCode.FMS 0 15 0 6 4) "Intel Pentium 4 (unknown type) (Cedar Mill/Presler/Dempsey C1)",
  SynthRule.mk (SynthCode.FMSQ 0 15 0 6 5 dC) "Intel Celeron D Processor 36x (Cedar Mill D0)",
  SynthRule.mk (SynthCode.FMSQ 0 15 0 6 5 dd) "Intel Pentium D Processor 9xx (Presler D0)",
  SynthRule.mk (SynthCode.FMSQ 0 15 0 6 5 dP) "Intel Pentium 4 Processor 6x1 (Cedar Mill D0) / Pentium Extreme Edition Processor 955 (Presler D0)",
  SynthRule.mk (SynthCode.FMS 0 15 0 6 5) "Intel Pentium 4 (unknown type) (Cedar Mill/Presler D0)",
  SynthRule.mk (SynthCode.FMS 0 15 0 6 8) "Intel Xeon Processor 71x0 (Tulsa B0)",
  SynthRule.mk (SynthCode.FMQ 0 15 0 6 dd) "Intel Pentium D (Presler)",
  SynthRule.mk (SynthCode.FMQ 0 15 0 6 dP) "Intel Pentium 4 (Cedar Mill) / Pentium Extreme Edition (Presler)",
  SynthRule.mk (SynthCode.FMQ 0 15 0 6 dC) "Intel Celeron D (Cedar Mill)",
  SynthRule.mk (SynthCode.FMQ 0 15 0 6 sX) "Intel Xeon (Dempsey / Tulsa)",
  SynthRule.mk (SynthCode.FM 0 15 0 6) "Intel Pentium 4 (unknown type) (Cedar Mill/Presler/Dempsey/Tulsa)",
  SynthRule.mk (SynthCode.FQ 0 15 sM) "Intel Xeon MP (unknown model)",
  SynthRule.mk (SynthCode.FQ 0 15 sX) "Intel Xeon (unknown model)",
  SynthRule.mk (SynthCode.FQ 0 15 MC) "Intel Mobile Celeron (unknown model)",
  SynthRule.mk (SynthCode.FQ 0 15 MC) "Intel Mobile Pentium 4 (unknown model)",
  SynthRule.mk (SynthCode.FQ 0 15 MM) "Intel Mobile Pentium 4 Processor-M (unknown model)",
  SynthRule.mk (SynthCode.FQ 0 15 dC) "Intel Celeron (unknown model)",
  SynthRule.mk (SynthCode.FQ 0 15 dd) "Intel Pentium D (unknown model)",
  SynthRule.mk (SynthCode.FQ 0 15 dP) "Intel Pentium 4 (unknown model)",
  SynthRule.mk (SynthCode.FQ 0 15 dc) "Intel Pentium (unknown model)",
  SynthRule.mk (SynthCode.F 0 15) "Intel Pentium 4 / Pentium D / Xeon / Xeon MP / Celeron / Celeron D (unknown model)",
  SynthRule.mk (SynthCode.FMS 1 15 0 0 7) "Intel Itanium2 (McKinley B3)",
  SynthRule.mk (SynthCode.FM 1 15 0 0) "Intel Itanium2 (McKinley)",
  SynthRule.mk (SynthCode.FMS 1 15 0 1 5) "Intel Itanium2 (Madison/Deerfield/Hondo B1)",
  SynthRule.mk (SynthCode.FM 1 15 0 1) "Intel Itanium2 (Madison/Deerfield/Hondo)",
  SynthRule.mk (SynthCode.FMS 1 15 0 2 1) "Intel Itanium2 (Madison 9M/Fanwood A1)",
  SynthRule.mk (SynthCode.FMS 1 15 0 2 2) "Intel Itanium2 (Madison 9M/Fanwood A2)",
  SynthRule.mk (SynthCode.FM 1 15 0 2) "Intel Itanium2 (Madison)",
  SynthRule.mk (SynthCode.F 1 15) "Intel Itanium2 (unknown model)",
  SynthRule.mk (SynthCode.FMS 2 0 0 0 5) "Intel Itanium2 Dual-Core Processor 9000 (Montecito/Millington C1), 90nm",
  SynthRule.mk (SynthCode.FMS 2 0 0 0 7) "Intel Itanium2 Dual-Core Processor 9000 (Montecito/Millington C2), 90nm",
  SynthRule.mk (SynthCode.FM 2 0 0 0) "Intel Itanium2 Dual-Core Processor 9000 (Montecito/Millington), 90nm",
  SynthRule.mk (SynthCode.FMS 2 0 0 1 1) "Intel Itanium2 Dual-Core Processor 9100 (Montvale A1), 90nm",
  SynthRule.mk (SynthCode.FM 2 0 0 1) "Intel Itanium2 Dual-Core Processor 9100 (Montvale), 90nm",
  SynthRule.mk (SynthCode.FMS 2 0 0 2 4) "Intel Itanium2 Processor 9300 (Tukwila E0), 65nm",
  SynthRule.mk (SynthCode.FM 2 0 0 2) "Intel Itanium2 Processor 9300 (Tukwila), 65nm",
  SynthRule.mk (SynthCode.F 2 0) "Intel Itanium2 (unknown model)",
  SynthRule.mk (SynthCode.FMS 2 1 0 0 4) "Intel Itanium2 Processor 9500 (Poulson D0), 32nm",
  SynthRule.mk (SynthCode.FMS 2 1 0 0 5) "Intel Itanium2 Processor 9700 (Kittson E0), 22nm",
  SynthRule.mk (SynthCode.FM 2 1 0 0) "Intel Itanium2 (unknown model) (Poulson/Kittson)",
  SynthRule.mk (SynthCode.F 2 1) "Intel Itanium2 (unknown model)",
  SynthRule.mk (SynthCode.DEFAULT) "unknown"
]

/-- The full rule chain of `decode_synth_amd` of cpuid.c, in authored order, ending with its `DEFAULT`. -/
def amdRules : List SynthRule := [
  SynthRule.mk (SynthCode.FM 0 4 0 3) "AMD 80486DX2",
  SynthRule.mk (SynthCode.FM 0 4 0 7) "AMD 80486DX2WB",
  SynthRule.mk (SynthCode.FM 0 4 0 8) "AMD 80486DX4",
  SynthRule.mk (SynthCode.FM 0 4 0 9) "AMD 80486DX4WB",
  SynthRule.mk (SynthCode.FM 0 4 0 14) "AMD 5x86",
  SynthRule.mk (SynthCode.FM 0 4 0 15) "AMD 5xWB",
  SynthRule.mk (SynthCode.F 0 4) "AMD 80486 / 5x (unknown model)",
  SynthRule.mk (SynthCode.FM 0 5 0 0) "AMD SSA5 (PR75, PR90, PR100)",
  SynthRule.mk (SynthCode.FM 0 5 0 1) "AMD 5k86 (PR120, PR133)",
  SynthRule.mk (SynthCode.FM 0 5 0 2) "AMD 5k86 (PR166)",
  SynthRule.mk (SynthCode.FM 0 5 0 3) "AMD 5k86 (PR200)",
  SynthRule.mk (SynthCode.FM 0 5 0 5) "AMD Geode GX",
  SynthRule.mk (SynthCode.FM 0 5 0 6) "AMD K6",
  SynthRule.mk (SynthCode.FM 0 5 0 7) "AMD K6 (Little Foot)",
  SynthRule.mk (SynthCode.FMS 0 5 0 8 0) "AMD K6-2 (Chomper A)",
  SynthRule.mk (SynthCode.FMS 0 5 0 8 12) "AMD K6-2 (Chomper A)",
  SynthRule.mk (SynthCode.FM 0 5 0 8) "AMD K6-2 (Chomper)",
  SynthRule.mk (SynthCode.FMS 0 5 0 9 1) "AMD K6-III (Sharptooth B)",
  SynthRule.mk (SynthCode.FM 0 5 0 9) "AMD K6-III (Sharptooth)",
  SynthRule.mk (SynthCode.FM 0 5 0 10) "AMD Geode LX",
  SynthRule.mk (SynthCode.FM 0 5 0 13) "AMD K6-2+, K6-III+",
  SynthRule.mk (SynthCode.F 0 5) "AMD 5k86 / K6 / Geode (unknown model)",
  SynthRule.mk (SynthCode.FM 0 6 0 1) "AMD Athlon (Argon)",
  SynthRule.mk (SynthCode.FM 0 6 0 2) "AMD Athlon (K75 / Pluto / Orion)",
  SynthRule.mk (SynthCode.FMS 0 6 0 3 0) "AMD Duron / mobile Duron (Spitfire A0)",
  SynthRule.mk (SynthCode.FMS 0 6 0 3 1) "AMD Duron / mobile Duron (Spitfire A2)",
  SynthRule.mk (SynthCode.FM 0 6 0 3) "AMD Duron / mobile Duron (Spitfire)",
  SynthRule.mk (SynthCode.FMS 0 6 0 4 2) "AMD Athlon (Thunderbird A4-A7)",
  SynthRule.mk (SynthCode.FMS 0 6 0 4 4) "AMD Athlon (Thunderbird A9)",
  SynthRule.mk (SynthCode.FM 0 6 0 4) "AMD Athlon (Thunderbird)",
  SynthRule.mk (SynthCode.FMSQ 0 6 0 6 0 sA) "AMD Athlon MP (Palomino A0)",
  SynthRule.mk (SynthCode.FMSQ 0 6 0 6 0 dA) "AMD Athlon (Palomino A0)",
  SynthRule.mk (SynthCode.FMSQ 0 6 0 6 0 MA) "AMD mobile Athlon 4 (Palomino A0)",
  SynthRule.mk (SynthCode.FMSQ 0 6 0 6 0 sD) "AMD Duron MP (Palomino A0)",
  SynthRule.mk (SynthCode.FMSQ 0 6 0 6 0 MD) "AMD mobile Duron (Palomino A0)",
  SynthRule.mk (SynthCode.FMS 0 6 0 6 0) "AMD Athlon (unknown type)  (Palomino A0)",
  SynthRule.mk (SynthCode.FMSQ 0 6 0 6 1 sA) "AMD Athlon MP (Palomino A2)",
  SynthRule.mk (SynthCode.FMSQ 0 6 0 6 1 dA) "AMD Athlon (Palomino A2)",
  SynthRule.mk (SynthCode.FMSQ 0 6 0 6 1 MA) "AMD mobile Athlon 4 (Palomino A2)",
  SynthRule.mk (SynthCode.FMSQ 0 6 0 6 1 sD) "AMD Duron MP (Palomino A2)",
  SynthRule.mk (SynthCode.FMSQ 0 6 0 6 1 MD) "AMD mobile Duron (Palomino A2)",
  SynthRule.mk (SynthCode.FMSQ 0 6 0 6 1 dD) "AMD Duron (Palomino A2)",
  SynthRule.mk (SynthCode.FMS 0 6 0 6 1) "AMD Athlon (unknown type) (Palomino A2)",
  SynthRule.mk (SynthCode.FMSQ 0 6 0 6 2 sA) "AMD Athlon MP (Palomino A5)",
  SynthRule.mk (SynthCode.FMSQ 0 6 0 6 2 dX) "AMD Athlon XP (Palomino A5)",
  SynthRule.mk (SynthCode.FMSQ 0 6 0 6 2 MA) "AMD mobile Athlon 4 (Palomino A5)",
  SynthRule.mk (SynthCode.FMSQ 0 6 0 6 2 sD) "AMD Duron MP (Palomino A5)",
  SynthRule.mk (SynthCode.FMSQ 0 6 0 6 2 MD) "AMD mobile Duron (Palomino A5)",
  SynthRule.mk (SynthCode.FMSQ 0 6 0 6 2 dD) "AMD Duron (Palomino A5)",
  SynthRule.mk (SynthCode.FMS 0 6 0 6 2) "AMD Athlon (unknown type) (Palomino A5)",
  SynthRule.mk (SynthCode.FMQ 0 6 0 6 MD) "AMD mobile Duron (Palomino)",
  SynthRule.mk (SynthCode.FMQ 0 6 0 6 dD) "AMD Duron (Palomino)",
  SynthRule.mk (SynthCode.FMQ 0 6 0 6 MA) "AMD mobile Athlon (Palomino)",
  SynthRule.mk (SynthCode.FMQ 0 6 0 6 dX) "AMD Athlon XP (Palomino)",
  SynthRule.mk (SynthCode.FMQ 0 6 0 6 dA) "AMD Athlon (Palomino)",
  SynthRule.mk (SynthCode.FM 0 6 0 6) "AMD Athlon (unknown type) (Palomino)",
  SynthRule.mk (SynthCode.FMSQ 0 6 0 7 0 sD) "AMD Duron MP (Morgan A0)",
  SynthRule.mk (SynthCode.FMSQ 0 6 0 7 0 MD) "AMD mobile Duron (Morgan A0)",
  SynthRule.mk (SynthCode.FMSQ 0 6 0 7 0 dD) "AMD Duron (Morgan A0)",
  SynthRule.mk (SynthCode.FMS 0 6 0 7 0) "AMD Duron (unknown type)  (Morgan A0)",
  SynthRule.mk (SynthCode.FMSQ 0 6 0 7 1 sD) "AMD Duron MP (Morgan A1)",
  SynthRule.mk (SynthCode.FMSQ 0 6 0 7 1 MD) "AMD mobile Duron (Morgan A1)",
  SynthRule.mk (SynthCode.FMSQ 0 6 0 7 1 dD) "AMD Duron (Morgan A1)",
  SynthRule.mk (SynthCode.FMS 0 6 0 7 1) "AMD Duron (unknown type)  (Morgan A1)",
  SynthRule.mk (SynthCode.FMQ 0 6 0 7 sD) "AMD Duron MP (Morgan)",
  SynthRule.mk (SynthCode.FMQ 0 6 0 7 MD) "AMD mobile Duron (Morgan)",
  SynthRule.mk (SynthCode.FMQ 0 6 0 7 dD) "AMD Duron (Morgan)",
  SynthRule.mk (SynthCode.FM 0 6 0 7) "AMD Duron (unknown type)  (Morgan)",
  SynthRule.mk (SynthCode.FMSQ 0 6 0 8 0 dS) "AMD Sempron (Thoroughbred A0)",
  SynthRule.mk (SynthCode.FMSQ 0 6 0 8 0 sD) "AMD Duron MP (Applebred A0)",
  SynthRule.mk (SynthCode.FMSQ 0 6 0 8 0 dD) "AMD Duron (Applebred A0)",
  SynthRule.mk (SynthCode.FMSQ 0 6 0 8 0 MX) "AMD mobile Athlon XP (Thoroughbred A0)",
  SynthRule.mk (SynthCode.FMSQ 0 6 0 8 0 sA) "AMD Athlon MP (Thoroughbred A0)",
  SynthRule.mk (SynthCode.FMSQ 0 6 0 8 0 dX) "AMD Athlon XP (Thoroughbred A0)",
  SynthRule.mk (SynthCode.FMSQ 0 6 0 8 0 dA) "AMD Athlon (Thoroughbred A0)",
  SynthRule.mk (SynthCode.FMS 0 6 0 8 0) "AMD Athlon (unknown type) (Thoroughbred A0)",
  SynthRule.mk (SynthCode.FMSQ 0 6 0 8 1 MG) "AMD Geode NX (Thoroughbred B0)",
  SynthRule.mk (SynthCode.FMSQ 0 6 0 8 1 dS) "AMD Sempron (Thoroughbred B0)",
  SynthRule.mk (SynthCode.FMSQ 0 6 0 8 1 sD) "AMD Duron MP (Applebred B0)",
  SynthRule.mk (SynthCode.FMSQ 0 6 0 8 1 dD) "AMD Duron (Applebred B0)",
  SynthRule.mk (SynthCode.FMSQ 0 6 0 8 1 sA) "AMD Athlon MP (Thoroughbred B0)",
  SynthRule.mk (SynthCode.FMSQ 0 6 0 8 1 dX) "AMD Athlon XP (Thoroughbred B0)",
  SynthRule.mk (SynthCode.FMSQ 0 6 0 8 1 dA) "AMD Athlon (Thoroughbred B0)",
  SynthRule.mk (SynthCode.FMS 0 6 0 8 1) "AMD Athlon (unknown type) (Thoroughbred B0)",
  SynthRule.mk (SynthCode.FMQ 0 6 0 8 MG) "AMD Geode NX (Thoroughbred)",
  SynthRule.mk (SynthCode.FMQ 0 6 0 8 dS) "AMD Sempron (Thoroughbred)",
  SynthRule.mk (SynthCode.FMQ 0 6 0 8 sD) "AMD Duron MP (Thoroughbred)",
  SynthRule.mk (SynthCode.FMQ 0 6 0 8 dD) "AMD Duron (Thoroughbred)",
  SynthRule.mk (SynthCode.FMQ 0 6 0 8 MX) "AMD mobile Athlon XP (Thoroughbred)",
  SynthRule.mk (SynthCode.FMQ 0 6 0 8 sA) "AMD Athlon MP (Thoroughbred)",
  SynthRule.mk (SynthCode.FMQ 0 6 0 8 dX) "AMD Athlon XP (Thoroughbred)",
  SynthRule.mk (SynthCode.FMQ 0 6 0 8 dA) "AMD Athlon XP (Thoroughbred)",
  SynthRule.mk (SynthCode.FM 0 6 0 8) "AMD Athlon (unknown type) (Thoroughbred)",
  SynthRule.mk (SynthCode.FMSQ 0 6 0 10 0 dS) "AMD Sempron (Barton A2)",
  SynthRule.mk (SynthCode.FMSQ 0 6 0 10 0 ML) "AMD mobile Athlon XP-M (LV) (Barton A2)",
  SynthRule.mk (SynthCode.FMSQ 0 6 0 10 0 MX) "AMD mobile Athlon XP-M (Barton A2)",
  SynthRule.mk (SynthCode.FMSQ 0 6 0 10 0 dt) "AMD Athlon XP (Thorton A2)",
  SynthRule.mk (SynthCode.FMSQ 0 6 0 10 0 sA) "AMD Athlon MP (Barton A2)",
  SynthRule.mk (SynthCode.FMSQ 0 6 0 10 0 dX) "AMD Athlon XP (Barton A2)",
  SynthRule.mk (SynthCode.FMS 0 6 0 10 0) "AMD Athlon (unknown type) (Barton A2)",
  SynthRule.mk (SynthCode.FMQ 0 6 0 10 dS) "AMD Sempron (Barton)",
  SynthRule.mk (SynthCode.FMQ 0 6 0 10 ML) "AMD mobile Athlon XP-M (LV) (Barton)",
  SynthRule.mk (SynthCode.FMQ 0 6 0 10 MX) "AMD mobile Athlon XP-M (Barton)",
  SynthRule.mk (SynthCode.FMQ 0 6 0 10 sA) "AMD Athlon MP (Barton)",
  SynthRule.mk (SynthCode.FMQ 0 6 0 10 dX) "AMD Athlon XP (Barton)",
  SynthRule.mk (SynthCode.FM 0 6 0 10) "AMD Athlon (unknown type) (Barton)",
  SynthRule.mk (SynthCode.F 0 6) "AMD Athlon (unknown model)",
  SynthRule.mk (SynthCode.F 0 7) "AMD Opteron (unknown model)",
  SynthRule.mk (SynthCode.FMS 0 15 0 4 0) "AMD Athlon 64 (SledgeHammer SH7-B0)",
  SynthRule.mk (SynthCode.FMSQ 0 15 0 4 8 MX) "AMD mobile Athlon XP-M (SledgeHammer SH7-C0)",
  SynthRule.mk (SynthCode.FMSQ 0 15 0 4 8 MA) "AMD mobile Athlon 64 (SledgeHammer SH7-C0)",
  SynthRule.mk (SynthCode.FMSQ 0 15 0 4 8 dA) "AMD Athlon 64 (SledgeHammer SH7-C0)",
  SynthRule.mk (SynthCode.FMS 0 15 0 4 8) "AMD Athlon 64 (unknown type) (SledgeHammer SH7-C0)",
  SynthRule.mk (SynthCode.FMSQ 0 15 0 4 10 MX) "AMD mobile Athlon XP-M (SledgeHammer SH7-CG)",
  SynthRule.mk (SynthCode.FMSQ 0 15 0 4 10 MA) "AMD mobile Athlon 64 (SledgeHammer SH7-CG)",
  SynthRule.mk (SynthCode.FMSQ 0 15 0 4 10 dA) "AMD Athlon 64 (SledgeHammer SH7-CG)",
  SynthRule.mk (SynthCode.FMS 0 15 0 4 10) "AMD Athlon 64 (unknown type) (SledgeHammer SH7-CG)",
  SynthRule.mk (SynthCode.FMQ 0 15 0 4 MX) "AMD mobile Athlon XP-M (SledgeHammer SH7)",
  SynthRule.mk (SynthCode.FMQ 0 15 0 4 MA) "AMD mobile Athlon 64 (SledgeHammer SH7)",
  SynthRule.mk (SynthCode.FMQ 0 15 0 4 dA) "AMD Athlon 64 (SledgeHammer SH7)",
  SynthRule.mk (SynthCode.FM 0 15 0 4) "AMD Athlon 64 (unknown type) (SledgeHammer SH7)",
  SynthRule.mk (SynthCode.FMS 0 15 0 5 0) "AMD Opteron (DP SledgeHammer SH7-B0)",
  SynthRule.mk (SynthCode.FMS 0 15 0 5 1) "AMD Opteron (DP SledgeHammer SH7-B3)",
  SynthRule.mk (SynthCode.FMSQ 0 15 0 5 8 sO) "AMD Opteron (DP SledgeHammer SH7-C0)",
  SynthRule.mk (SynthCode.FMSQ 0 15 0 5 8 dF) "AMD Athlon 64 FX (DP SledgeHammer SH7-C0)",
  SynthRule.mk (SynthCode.FMS 0 15 0 5 8) "AMD Athlon 64 (unknown type) (DP SledgeHammer SH7-C0)",
  SynthRule.mk (SynthCode.FMSQ 0 15 0 5 10 sO) "AMD Opteron (DP SledgeHammer SH7-CG)",
  SynthRule.mk (SynthCode.FMSQ 0 15 0 5 10 dF) "AMD Athlon 64 FX (DP SledgeHammer SH7-CG)",
  SynthRule.mk (SynthCode.FMS 0 15 0 5 10) "AMD Athlon 64 (unknown type) (DP SledgeHammer SH7-CG)",
  SynthRule.mk (SynthCode.FMQ 0 15 0 5 sO) "AMD Opteron (SledgeHammer SH7)",
  SynthRule.mk (SynthCode.FMQ 0 15 0 5 dF) "AMD Athlon 64 FX (SledgeHammer SH7)",
  SynthRule.mk (SynthCode.FM 0 15 0 5) "AMD Athlon 64 (unknown type) (SledgeHammer SH7) FX",
  SynthRule.mk (SynthCode.FMSQ 0 15 0 7 10 dF) "AMD Athlon 64 FX (DP SledgeHammer SH7-CG)",
  SynthRule.mk (SynthCode.FMSQ 0 15 0 7 10 dA) "AMD Athlon 64 (DP SledgeHammer SH7-CG)",
  SynthRule.mk (SynthCode.FMS 0 15 0 7 10) "AMD Athlon 64 (unknown type) (DP SledgeHammer SH7-CG)",
  SynthRule.mk (SynthCode.FMQ 0 15 0 7 dF) "AMD Athlon 64 FX (DP SledgeHammer SH7)",
  SynthRule.mk (SynthCode.FMQ 0 15 0 7 dA) "AMD Athlon 64 (DP SledgeHammer SH7)",
  SynthRule.mk (SynthCode.FM 0 15 0 7) "AMD Athlon 64 (unknown type) (DP SledgeHammer SH7)",
  SynthRule.mk (SynthCode.FMSQ 0 15 0 8 2 MS) "AMD mobile Sempron (ClawHammer CH7-CG)",
  SynthRule.mk (SynthCode.FMSQ 0 15 0 8 2 MX) "AMD mobile Athlon XP-M (ClawHammer CH7-CG)",
  SynthRule.mk (SynthCode.FMSQ 0 15 0 8 2 MA) "AMD mobile Athlon 64 (Odessa CH7-CG)",
  SynthRule.mk (SynthCode.FMSQ 0 15 0 8 2 dA) "AMD Athlon 64 (ClawHammer CH7-CG)",
  SynthRule.mk (SynthCode.FMS 0 15 0 8 2) "AMD Athlon 64 (unknown type) (ClawHammer/Odessa CH7-CG)",
  SynthRule.mk (SynthCode.FMQ 0 15 0 8 MS) "AMD mobile Sempron (Odessa CH7)",
  SynthRule.mk (SynthCode.FMQ 0 15 0 8 MX) "AMD mobile Athlon XP-M (Odessa CH7)",
  SynthRule.mk (SynthCode.FMQ 0 15 0 8 MA) "AMD mobile Athlon 64 (Odessa CH7)",
  SynthRule.mk (SynthCode.FMQ 0 15 0 8 dA) "AMD Athlon 64 (ClawHammer CH7)",
  SynthRule.mk (SynthCode.FM 0 15 0 8) "AMD Athlon 64 (unknown type) (ClawHammer/Odessa CH7)",
  SynthRule.mk (SynthCode.FMS 0 15 0 11 2) "AMD Athlon 64 (ClawHammer CH7-CG)",
  SynthRule.mk (SynthCode.FM 0 15 0 11) "AMD Athlon 64 (ClawHammer CH7)",
  SynthRule.mk (SynthCode.FMSQ 0 15 0 12 0 MS) "AMD mobile Sempron (Dublin DH7-CG)",
  SynthRule.mk (SynthCode.FMSQ 0 15 0 12 0 dS) "AMD Sempron (Paris DH7-CG)",
  SynthRule.mk (SynthCode.FMSQ 0 15 0 12 0 MX) "AMD mobile Athlon XP-M (ClawHammer/Odessa DH7-CG)",
  SynthRule.mk (SynthCode.FMSQ 0 15 0 12 0 MA) "AMD mobile Athlon 64 (ClawHammer/Odessa DH7-CG)",
  SynthRule.mk (SynthCode.FMSQ 0 15 0 12 0 dA) "AMD Athlon 64 (NewCastle DH7-CG)",
  SynthRule.mk (SynthCode.FMS 0 15 0 12 0) "AMD Athlon 64 (unknown type) (ClawHammer/Odessa/NewCastle/Paris/Dublin DH7-CG)",
  SynthRule.mk (SynthCode.FMQ 0 15 0 12 MS) "AMD mobile Sempron (Dublin DH7)",
  SynthRule.mk (SynthCode.FMQ 0 15 0 12 dS) "AMD Sempron (Paris DH7)",
  SynthRule.mk (SynthCode.FMQ 0 15 0 12 MX) "AMD mobile Athlon XP-M (NewCastle DH7)",
  SynthRule.mk (SynthCode.FMQ 0 15 0 12 MA) "AMD mobile Athlon 64 (ClawHammer/Odessa DH7)",
  SynthRule.mk (SynthCode.FMQ 0 15 0 12 dA) "AMD Athlon 64 (NewCastle DH7)",
  SynthRule.mk (SynthCode.FM 0 15 0 12) "AMD Athlon 64 (unknown type) (ClawHammer/Odessa/NewCastle/Paris/Dublin DH7)",
  SynthRule.mk (SynthCode.FMSQ 0 15 0 14 0 MS) "AMD mobile Sempron (Dublin DH7-CG)",
  SynthRule.mk (SynthCode.FMSQ 0 15 0 14 0 dS) "AMD Sempron (Paris DH7-CG)",
  SynthRule.mk (SynthCode.FMSQ 0 15 0 14 0 MX) "AMD mobile Athlon XP-M (ClawHammer/Odessa DH7-CG)",
  SynthRule.mk (SynthCode.FMSQ 0 15 0 14 0 MA) "AMD mobile Athlon 64 (ClawHammer/Odessa DH7-CG)",
  SynthRule.mk (SynthCode.FMSQ 0 15 0 14 0 dA) "AMD Athlon 64 (NewCastle DH7-CG)",
  SynthRule.mk (SynthCode.FMS 0 15 0 14 0) "AMD Athlon 64 (unknown type) (ClawHammer/Odessa/NewCastle/Paris/Dublin DH7-CG)",
  SynthRule.mk (SynthCode.FMQ 0 15 0 14 dS) "AMD Sempron (Paris DH7)",
  SynthRule.mk (SynthCode.FMQ 0 15 0 14 MS) "AMD mobile Sempron (Dublin DH7)",
  SynthRule.mk (SynthCode.FMQ 0 15 0 14 MX) "AMD mobile Athlon XP-M (ClawHammer/Odessa DH7)",
  SynthRule.mk (SynthCode.FMQ 0 15 0 14 MA) "AMD mobile Athlon 64 (ClawHammer/Odessa DH7)",
  SynthRule.mk (SynthCode.FMQ 0 15 0 14 dA) "AMD Athlon 64 (NewCastle DH7)",
  SynthRule.mk (SynthCode.FM 0 15 0 14) "AMD Athlon 64 (unknown type) (ClawHammer/Odessa/NewCastle/Paris/Dublin DH7)",
  SynthRule.mk (SynthCode.FMSQ 0 15 0 15 0 dS) "AMD Sempron (Paris DH7-CG)",
  SynthRule.mk (SynthCode.FMSQ 0 15 0 15 0 MA) "AMD mobile Athlon 64 (ClawHammer/Odessa DH7-CG)",
  SynthRule.mk (SynthCode.FMSQ 0 15 0 15 0 dA) "AMD Athlon 64 (NewCastle DH7-CG)",
  SynthRule.mk (SynthCode.FMS 0 15 0 15 0) "AMD Athlon 64 (unknown type) (ClawHammer/Odessa/NewCastle/Paris DH7-CG)",
  SynthRule.mk (SynthCode.FMQ 0 15 0 15 dS) "AMD Sempron (Paris DH7)",
  SynthRule.mk (SynthCode.FMQ 0 15 0 15 MA) "AMD mobile Athlon 64 (ClawHammer/Odessa DH7)",
  SynthRule.mk (SynthCode.FMQ 0 15 0 15 dA) "AMD Athlon 64 (NewCastle DH7)",
  SynthRule.mk (SynthCode.FM 0 15 0 15) "AMD Athlon 64 (unknown type) (ClawHammer/Odessa/NewCastle/Paris DH7)",
  SynthRule.mk (SynthCode.FMSQ 0 15 1 4 0 MX) "AMD mobile Athlon XP-M (Oakville SH7-D0)",
  SynthRule.mk (SynthCode.FMSQ 0 15 1 4 0 MA) "AMD mobile Athlon 64 (Oakville SH7-D0)",
  SynthRule.mk (SynthCode.FMSQ 0 15 1 4 0 dA) "AMD Athlon 64 (Winchester SH7-D0)",
  SynthRule.mk (SynthCode.FMS 0 15 1 4 0) "AMD Athlon 64 (unknown type) (Winchester/Oakville SH7-D0)",
  SynthRule.mk (SynthCode.FMQ 0 15 1 4 MX) "AMD mobile Athlon XP-M (Oakville SH7)",
  SynthRule.mk (SynthCode.FMQ 0 15 1 4 MA) "AMD mobile Athlon 64 (Oakville SH7)",
  SynthRule.mk (SynthCode.FMQ 0 15 1 4 dA) "AMD Athlon 64 (Winchester SH7)",
  SynthRule.mk (SynthCode.FM 0 15 1 4) "AMD Athlon 64 (unknown type) (Winchester/Oakville SH7)",
  SynthRule.mk (SynthCode.FMSQ 0 15 1 5 0 sO) "AMD Opteron (Winchester SH7-D0)",
  SynthRule.mk (SynthCode.FMSQ 0 15 1 5 0 dF) "AMD Athlon 64 FX (Winchester SH7-D0)",
  SynthRule.mk (SynthCode.FMS 0 15 1 5 0) "AMD Athlon 64 (unknown type) (Winchester SH7-D0)",
  SynthRule.mk (SynthCode.FMQ 0 15 1 5 sO) "AMD Opteron (Winchester SH7)",
  SynthRule.mk (SynthCode.FMQ 0 15 1 5 dF) "AMD Athlon 64 FX (Winchester SH7)",
  SynthRule.mk (SynthCode.FM 0 15 1 5) "AMD Athlon 64 (unknown type) (Winchester SH7)",
  SynthRule.mk (SynthCode.FMSQ 0 15 1 7 0 dF) "AMD Athlon 64 FX (Winchester SH7-D0)",
  SynthRule.mk (SynthCode.FMSQ 0 15 1 7 0 dA) "AMD Athlon 64 (Winchester SH7-D0)",
  SynthRule.mk (SynthCode.FMS 0 15 1 7 0) "AMD Athlon 64 (unknown type) (Winchester SH7-D0)",
  SynthRule.mk (SynthCode.FMQ 0 15 1 7 dF) "AMD Athlon 64 FX (Winchester SH7)",
  SynthRule.mk (SynthCode.FMQ 0 15 1 7 dA) "AMD Athlon 64 (Winchester SH7)",
  SynthRule.mk (SynthCode.FM 0 15 1 7) "AMD Athlon 64 (unknown type) (Winchester SH7)",
  SynthRule.mk (SynthCode.FMSQ 0 15 1 8 0 MS) "AMD mobile Sempron (Georgetown/Sonora CH-D0)",
  SynthRule.mk (SynthCode.FMSQ 0 15 1 8 0 MX) "AMD mobile Athlon XP-M (Oakville CH-D0)",
  SynthRule.mk (SynthCode.FMSQ 0 15 1 8 0 MA) "AMD mobile Athlon 64 (Oakville CH-D0)",
  SynthRule.mk (SynthCode.FMSQ 0 15 1 8 0 dA) "AMD Athlon 64 (Winchester CH-D0)",
  SynthRule.mk (SynthCode.FMS 0 15 1 8 0) "AMD Athlon 64 (unknown type) (Winchester/Oakville/Georgetown/Sonora CH-D0)",
  SynthRule.mk (SynthCode.FMQ 0 15 1 8 MS) "AMD mobile Sempron (Georgetown/Sonora CH)",
  SynthRule.mk (SynthCode.FMQ 0 15 1 8 MX) "AMD mobile Athlon XP-M (Oakville CH)",
  SynthRule.mk (SynthCode.FMQ 0 15 1 8 MA) "AMD mobile Athlon 64 (Oakville CH)",
  SynthRule.mk (SynthCode.FMQ 0 15 1 8 dA) "AMD Athlon 64 (Winchester CH)",
  SynthRule.mk (SynthCode.FM 0 15 1 8) "AMD Athlon 64 (unknown type) (Winchester/Oakville/Georgetown/Sonora CH)",
  SynthRule.mk (SynthCode.FMS 0 15 1 11 0) "AMD Athlon 64 (Winchester CH-D0)",
  SynthRule.mk (SynthCode.FM 0 15 1 11) "AMD Athlon 64 (Winchester CH)",
  SynthRule.mk (SynthCode.FMSQ 0 15 1 12 0 MS) "AMD mobile Sempron (Georgetown/Sonora DH8-D0)",
  SynthRule.mk (SynthCode.FMSQ 0 15 1 12 0 dS) "AMD Sempron (Palermo DH8-D0)",
  SynthRule.mk (SynthCode.FMSQ 0 15 1 12 0 MX) "AMD Athlon XP-M (Winchester DH8-D0)",
  SynthRule.mk (SynthCode.FMSQ 0 15 1 12 0 MA) "AMD mobile Athlon 64 (Oakville DH8-D0)",
  SynthRule.mk (SynthCode.FMSQ 0 15 1 12 0 dA) "AMD Athlon 64 (Winchester DH8-D0)",
  SynthRule.mk (SynthCode.FMS 0 15 1 12 0) "AMD Athlon 64 (unknown type) (Winchester/Oakville/Georgetown/Sonora/Palermo DH8-D0)",
  SynthRule.mk (SynthCode.FMQ 0 15 1 12 MS) "AMD mobile Sempron (Georgetown/Sonora DH8)",
  SynthRule.mk (SynthCode.FMQ 0 15 1 12 dS) "AMD Sempron (Palermo DH8)",
  SynthRule.mk (SynthCode.FMQ 0 15 1 12 MX) "AMD Athlon XP-M (Winchester DH8)",
  SynthRule.mk (SynthCode.FMQ 0 15 1 12 MA) "AMD mobile Athlon 64 (Oakville DH8)",
  SynthRule.mk (SynthCode.FMQ 0 15 1 12 dA) "AMD Athlon 64 (Winchester DH8)",
  SynthRule.mk (SynthCode.FM 0 15 1 12) "AMD Athlon 64 (Winchester/Oakville/Georgetown/Sonora/Palermo DH8)",
  SynthRule.mk (SynthCode.FMSQ 0 15 1 15 0 dS) "AMD Sempron (Palermo DH8-D0)",
  SynthRule.mk (SynthCode.FMSQ 0 15 1 15 0 dA) "AMD Athlon 64 (Winchester DH8-D0)",
  SynthRule.mk (SynthCode.FMS 0 15 1 15 0) "AMD Athlon 64 (Winchester DH8-D0) / Sempron (Palermo DH8-D0)",
  SynthRule.mk (SynthCode.FMQ 0 15 1 15 dS) "AMD Sempron (Palermo DH8)",
  SynthRule.mk (SynthCode.FMQ 0 15 1 15 dA) "AMD Athlon 64 (Winchester DH8)",
  SynthRule.mk (SynthCode.FM 0 15 1 15) "AMD Athlon 64 (unknown type) (Winchester/Palermo DH8)",
  SynthRule.mk (SynthCode.FMSQ 0 15 2 1 0 s8) "AMD Dual Core Opteron (Egypt JH-E1)",
  SynthRule.mk (SynthCode.FMSQ 0 15 2 1 0 sO) "AMD Dual Core Opteron (Italy JH-E1)",
  SynthRule.mk (SynthCode.FMS 0 15 2 1 0) "AMD Dual Core Opteron (Italy/Egypt JH-E1)",
  SynthRule.mk (SynthCode.FMSQ 0 15 2 1 2 s8) "AMD Dual Core Opteron (Egypt JH-E6)",
  SynthRule.mk (SynthCode.FMSQ 0 15 2 1 2 sO) "AMD Dual Core Opteron (Italy JH-E6)",
  SynthRule.mk (SynthCode.FMS 0 15 2 1 2) "AMD Dual Core Opteron (Italy/Egypt JH-E6)",
  SynthRule.mk (SynthCode.FMQ 0 15 2 1 s8) "AMD Dual Core Opteron (Egypt JH)",
  SynthRule.mk (SynthCode.FMQ 0 15 2 1 sO) "AMD Dual Core Opteron (Italy JH)",
  SynthRule.mk (SynthCode.FM 0 15 2 1) "AMD Dual Core Opteron (Italy/Egypt JH)",
  SynthRule.mk (SynthCode.FMSQ 0 15 2 3 2 DO) "AMD Dual Core Opteron (Denmark JH-E6)",
  SynthRule.mk (SynthCode.FMSQ 0 15 2 3 2 dF) "AMD Athlon 64 FX (Toledo JH-E6)",
  SynthRule.mk (SynthCode.FMSQ 0 15 2 3 2 dm) "AMD Athlon 64 X2 (Manchester JH-E6)",
  SynthRule.mk (SynthCode.FMSQ 0 15 2 3 2 dA) "AMD Athlon 64 X2 (Toledo JH-E6)",
  SynthRule.mk (SynthCode.FMS 0 15 2 3 2) "AMD Athlon 64 (unknown type) (Toledo/Manchester/Denmark JH-E6)",
  SynthRule.mk (SynthCode.FMQ 0 15 2 3 sO) "AMD Dual Core Opteron (Denmark JH)",
  SynthRule.mk (SynthCode.FMQ 0 15 2 3 dF) "AMD Athlon 64 FX (Toledo JH)",
  SynthRule.mk (SynthCode.FMQ 0 15 2 3 dm) "AMD Athlon 64 X2 (Manchester JH)",
  SynthRule.mk (SynthCode.FMQ 0 15 2 3 dA) "AMD Athlon 64 X2 (Toledo JH)",
  SynthRule.mk (SynthCode.FM 0 15 2 3) "AMD Athlon 64 (unknown type) (Toledo/Manchester/Denmark JH)",
  SynthRule.mk (SynthCode.FMSQ 0 15 2 4 2 MA) "AMD mobile Athlon 64 (Newark SH-E5)",
  SynthRule.mk (SynthCode.FMSQ 0 15 2 4 2 MT) "AMD mobile Turion (Lancaster/Richmond SH-E5)",
  SynthRule.mk (SynthCode.FMS 0 15 2 4 2) "AMD mobile Athlon 64 (unknown type) (Newark/Lancaster/Richmond SH-E5)",
  SynthRule.mk (SynthCode.FMQ 0 15 2 4 MA) "AMD mobile Athlon 64 (Newark SH)",
  SynthRule.mk (SynthCode.FMQ 0 15 2 4 MT) "AMD mobile Turion (Lancaster/Richmond SH)",
  SynthRule.mk (SynthCode.FM 0 15 2 4) "AMD mobile Athlon 64 (unknown type) (Newark/Lancaster/Richmond SH)",
  SynthRule.mk (SynthCode.FMQ 0 15 2 5 s8) "AMD Opteron (Athens SH-E4)",
  SynthRule.mk (SynthCode.FMQ 0 15 2 5 sO) "AMD Opteron (Troy SH-E4)",
  SynthRule.mk (SynthCode.FM 0 15 2 5) "AMD Opteron (Troy/Athens SH-E4)",
  SynthRule.mk (SynthCode.FMSQ 0 15 2 7 1 sO) "AMD Opteron (Venus SH-E4)",
  SynthRule.mk (SynthCode.FMSQ 0 15 2 7 1 dF) "AMD Athlon 64 FX (San Diego SH-E4)",
  SynthRule.mk (SynthCode.FMSQ 0 15 2 7 1 dA) "AMD Athlon 64 (San Diego SH-E4)",
  SynthRule.mk (SynthCode.FMS 0 15 2 7 1) "AMD Athlon 64 (unknown type) (Venus/San Diego SH-E4)",
  SynthRule.mk (SynthCode.FMQ 0 15 2 7 sO) "AMD Opteron (San Diego SH)",
  SynthRule.mk (SynthCode.FMQ 0 15 2 7 dF) "AMD Athlon 64 FX (San Diego SH)",
  SynthRule.mk (SynthCode.FMQ 0 15 2 7 dA) "AMD Athlon 64 (San Diego SH)",
  SynthRule.mk (SynthCode.FM 0 15 2 7) "AMD Athlon 64 (unknown type) (San Diego SH)",
  SynthRule.mk (SynthCode.FM 0 15 2 11) "AMD Athlon 64 X2 (Manchester BH-E4)",
  SynthRule.mk (SynthCode.FMS 0 15 2 12 0) "AMD Sempron (Palermo DH-E3)",
  SynthRule.mk (SynthCode.FMSQ 0 15 2 12 2 MS) "AMD mobile Sempron (Albany/Roma DH-E6)",
  SynthRule.mk (SynthCode.FMSQ 0 15 2 12 2 dS) "AMD Sempron (Palermo DH-E6)",
  SynthRule.mk (SynthCode.FMSQ 0 15 2 12 2 dA) "AMD Athlon 64 (Venice DH-E6)",
  SynthRule.mk (SynthCode.FMS 0 15 2 12 2) "AMD Athlon 64 (Venice/Palermo/Albany/Roma DH-E6)",
  SynthRule.mk (SynthCode.FMQ 0 15 2 12 MS) "AMD mobile Sempron (Albany/Roma DH)",
  SynthRule.mk (SynthCode.FMQ 0 15 2 12 dS) "AMD Sempron (Palermo DH)",
  SynthRule.mk (SynthCode.FMQ 0 15 2 12 dA) "AMD Athlon 64 (Venice DH)",
  SynthRule.mk (SynthCode.FM 0 15 2 12) "AMD Athlon 64 (Venice/Palermo/Albany/Roma DH)",
  SynthRule.mk (SynthCode.FMSQ 0 15 2 15 0 dS) "AMD Sempron (Palermo DH-E3)",
  SynthRule.mk (SynthCode.FMSQ 0 15 2 15 0 dA) "AMD Athlon 64 (Venice DH-E3)",
  SynthRule.mk (SynthCode.FMS 0 15 2 15 0) "AMD Athlon 64 (Venice/Palermo DH-E3)",
  SynthRule.mk (SynthCode.FMSQ 0 15 2 15 2 dS) "AMD Sempron (Palermo DH-E6)",
  SynthRule.mk (SynthCode.FMSQ 0 15 2 15 2 dA) "AMD Athlon 64 (Venice DH-E6)",
  SynthRule.mk (SynthCode.FMS 0 15 2 15 2) "AMD Athlon 64 (Venice/Palermo DH-E6)",
  SynthRule.mk (SynthCode.FMQ 0 15 2 15 dS) "AMD Sempron (Palermo DH)",
  SynthRule.mk (SynthCode.FMQ 0 15 2 15 dA) "AMD Athlon 64 (Venice DH)",
  SynthRule.mk (SynthCode.FM 0 15 2 15) "AMD Athlon 64 (Venice/Palermo DH)",
  SynthRule.mk (SynthCode.FMS 0 15 4 1 2) "AMD Dual-Core Opteron (Santa Rosa JH-F2)",
  SynthRule.mk (SynthCode.FMS 0 15 4 1 3) "AMD Dual-Core Opteron (Santa Rosa JH-F3)",
  SynthRule.mk (SynthCode.FM 0 15 4 1) "AMD Dual-Core Opteron (Santa Rosa)",
  SynthRule.mk (SynthCode.FMSQ 0 15 4 3 2 DO) "AMD Dual-Core Opteron (Santa Rosa JH-F2)",
  SynthRule.mk (SynthCode.FMSQ 0 15 4 3 2 sO) "AMD Opteron (Santa Rosa JH-F2)",
  SynthRule.mk (SynthCode.FMSQ 0 15 4 3 2 dF) "AMD Athlon 64 FX Dual-Core (Windsor JH-F2)",
  SynthRule.mk (SynthCode.FMSQ 0 15 4 3 2 dA) "AMD Athlon 64 X2 Dual-Core (Windsor JH-F2)",
  SynthRule.mk (SynthCode.FMS 0 15 4 3 2) "AMD Athlon 64 (unknown type) (Windsor JH-F2)",
  SynthRule.mk (SynthCode.FMSQ 0 15 4 3 3 DO) "AMD Dual-Core Opteron (Santa Rosa JH-F3)",
  SynthRule.mk (SynthCode.FMSQ 0 15 4 3 3 sO) "AMD Opteron (Santa Rosa JH-F3)",
  SynthRule.mk (SynthCode.FMSQ 0 15 4 3 3 dF) "AMD Athlon 64 FX Dual-Core (Windsor JH-F3)",
  SynthRule.mk (SynthCode.FMSQ 0 15 4 3 3 dA) "AMD Athlon 64 X2 Dual-Core (Windsor JH-F3)",
  SynthRule.mk (SynthCode.FMS 0 15 4 3 3) "AMD Athlon 64 (unknown type) (Windsor/Santa Rosa JH-F3)",
  SynthRule.mk (SynthCode.FMQ 0 15 4 3 DO) "AMD Dual-Core Opteron (Santa Rosa)",
  SynthRule.mk (SynthCode.FMQ 0 15 4 3 sO) "AMD Opteron (Santa Rosa)",
  SynthRule.mk (SynthCode.FMQ 0 15 4 3 dF) "AMD Athlon 64 FX Dual-Core (Windsor)",
  SynthRule.mk (SynthCode.FMQ 0 15 4 3 dA) "AMD Athlon 64 X2 Dual-Core (Windsor)",
  SynthRule.mk (SynthCode.FM 0 15 4 3) "AMD Athlon 64 (unknown type) (Windsor/Santa Rosa)",
  SynthRule.mk (SynthCode.FMSQ 0 15 4 8 2 dA) "AMD Athlon 64 X2 Dual-Core (Windsor BH-F2)",
  SynthRule.mk (SynthCode.FMSQ 0 15 4 8 2 Mt) "AMD Turion 64 X2 (Trinidad BH-F2)",
  SynthRule.mk (SynthCode.FMSQ 0 15 4 8 2 MT) "AMD Turion 64 X2 (Taylor BH-F2)",
  SynthRule.mk (SynthCode.FMS 0 15 4 8 2) "AMD Athlon 64 (unknown type) (Windsor/Taylor/Trinidad BH-F2)",
  SynthRule.mk (SynthCode.FMQ 0 15 4 8 dA) "AMD Athlon 64 X2 Dual-Core (Windsor)",
  SynthRule.mk (SynthCode.FMQ 0 15 4 8 Mt) "AMD Turion 64 X2 (Trinidad)",
  SynthRule.mk (SynthCode.FMQ 0 15 4 8 MT) "AMD Turion 64 X2 (Taylor)",
  SynthRule.mk (SynthCode.FM 0 15 4 8) "AMD Athlon 64 (unknown type) (Windsor/Taylor/Trinidad)",
  SynthRule.mk (SynthCode.FMS 0 15 4 11 2) "AMD Athlon 64 X2 Dual-Core (Windsor BH-F2)",
  SynthRule.mk (SynthCode.FM 0 15 4 11) "AMD Athlon 64 X2 Dual-Core (Windsor)",
  SynthRule.mk (SynthCode.FMSQ 0 15 4 12 2 MS) "AMD mobile Sempron (Keene BH-F2)",
  SynthRule.mk (SynthCode.FMSQ 0 15 4 12 2 dS) "AMD Sempron (Manila BH-F2)",
  SynthRule.mk (SynthCode.FMSQ 0 15 4 12 2 Mt) "AMD Turion (Trinidad BH-F2)",
  SynthRule.mk (SynthCode.FMSQ 0 15 4 12 2 MT) "AMD Turion (Taylor BH-F2)",
  SynthRule.mk (SynthCode.FMSQ 0 15 4 12 2 dA) "AMD Athlon 64 (Orleans BH-F2)",
  SynthRule.mk (SynthCode.FMS 0 15 4 12 2) "AMD Athlon 64 (unknown type) (Orleans/Manila/Keene/Taylor/Trinidad BH-F2)",
  SynthRule.mk (SynthCode.FMQ 0 15 4 12 MS) "AMD mobile Sempron (Keene)",
  SynthRule.mk (SynthCode.FMQ 0 15 4 12 dS) "AMD Sempron (Manila)",
  SynthRule.mk (SynthCode.FMQ 0 15 4 12 Mt) "AMD Turion (Trinidad)",
  SynthRule.mk (SynthCode.FMQ 0 15 4 12 MT) "AMD Turion (Taylor)",
  SynthRule.mk (SynthCode.FMQ 0 15 4 12 dA) "AMD Athlon 64 (Orleans)",
  SynthRule.mk (SynthCode.FM 0 15 4 12) "AMD Athlon 64 (unknown type) (Orleans/Manila/Keene/Taylor/Trinidad)",
  SynthRule.mk (SynthCode.FMSQ 0 15 4 15 2 MS) "AMD mobile Sempron (Keene DH-F2)",
  SynthRule.mk (SynthCode.FMSQ 0 15 4 15 2 dS) "AMD Sempron (Manila DH-F2)",
  SynthRule.mk (SynthCode.FMSQ 0 15 4 15 2 dA) "AMD Athlon 64 (Orleans DH-F2)",
  SynthRule.mk (SynthCode.FMS 0 15 4 15 2) "AMD Athlon 64 (unknown type) (Orleans/Manila/Keene DH-F2)",
  SynthRule.mk (SynthCode.FMQ 0 15 4 15 MS) "AMD mobile Sempron (Keene)",
  SynthRule.mk (SynthCode.FMQ 0 15 4 15 dS) "AMD Sempron (Manila)",
  SynthRule.mk (SynthCode.FMQ 0 15 4 15 dA) "AMD Athlon 64 (Orleans)",
  SynthRule.mk (SynthCode.FM 0 15 4 15) "AMD Athlon 64 (unknown type) (Orleans/Manila/Keene)",
  SynthRule.mk (SynthCode.FMS 0 15 5 13 3) "AMD Opteron (Santa Rosa JH-F3)",
  SynthRule.mk (SynthCode.FM 0 15 5 13) "AMD Opteron (Santa Rosa)",
  SynthRule.mk (SynthCode.FMSQ 0 15 5 15 2 MS) "AMD mobile Sempron (Keene DH-F2)",
  SynthRule.mk (SynthCode.FMSQ 0 15 5 15 2 dS) "AMD Sempron (Manila DH-F2)",
  SynthRule.mk (SynthCode.FMSQ 0 15 5 15 2 dA) "AMD Athlon 64 (Orleans DH-F2)",
  SynthRule.mk (SynthCode.FMS 0 15 5 15 2) "AMD Athlon 64 (unknown type) (Orleans/Manila/Keene DH-F2)",
  SynthRule.mk (SynthCode.FMS 0 15 5 15 3) "AMD Athlon 64 (Orleans DH-F3)",
  SynthRule.mk (SynthCode.FMQ 0 15 5 15 MS) "AMD mobile Sempron (Keene)",
  SynthRule.mk (SynthCode.FMQ 0 15 5 15 dS) "AMD Sempron (Manila)",
  SynthRule.mk (SynthCode.FMQ 0 15 5 15 dA) "AMD Athlon 64 (Orleans)",
  SynthRule.mk (SynthCode.FM 0 15 5 15) "AMD Athlon 64 (unknown type) (Orleans/Manila/Keene)",
  SynthRule.mk (SynthCode.FM 0 15 5 15) "AMD Athlon 64 (Orleans)",
  SynthRule.mk (SynthCode.FMS 0 15 6 8 1) "AMD Turion 64 X2 (Tyler BH-G1)",
  SynthRule.mk (SynthCode.FMSQ 0 15 6 8 2 MT) "AMD Turion 64 X2 (Tyler BH-G2)",
  SynthRule.mk (SynthCode.FMSQ 0 15 6 8 2 dS) "AMD Sempron Dual-Core (Tyler BH-G2)",
  SynthRule.mk (SynthCode.FMS 0 15 6 8 2) "AMD Turion 64 (unknown type) (Tyler BH-G2)",
  SynthRule.mk (SynthCode.FMQ 0 15 6 8 MT) "AMD Turion 64 X2 (Tyler)",
  SynthRule.mk (SynthCode.FMQ 0 15 6 8 dS) "AMD Sempron Dual-Core (Tyler)",
  SynthRule.mk (SynthCode.FM 0 15 6 8) "AMD Turion 64 (unknown type) (Tyler)",
  SynthRule.mk (SynthCode.FMSQ 0 15 6 11 1 dS) "AMD Sempron Dual-Core (Sparta BH-G1)",
  SynthRule.mk (SynthCode.FMSQ 0 15 6 11 1 dA) "AMD Athlon 64 X2 Dual-Core (Brisbane BH-G1)",
  SynthRule.mk (SynthCode.FMS 0 15 6 11 1) "AMD Athlon 64 (unknown type) (Brisbane/Sparta BH-G1)",
  SynthRule.mk (SynthCode.FMSQ 0 15 6 11 2 dA) "AMD Athlon 64 X2 Dual-Core (Brisbane BH-G2)",
  SynthRule.mk (SynthCode.FMSQ 0 15 6 11 2 Mn) "AMD Turion Neo X2 Dual-Core (Huron BH-G2)",
  SynthRule.mk (SynthCode.FMSQ 0 15 6 11 2 MN) "AMD Athlon Neo X2 (Huron BH-G2)",
  SynthRule.mk (SynthCode.FMS 0 15 6 11 2) "AMD Athlon 64 (unknown type) (Brisbane/Huron BH-G2)",
  SynthRule.mk (SynthCode.FMQ 0 15 6 11 dS) "AMD Sempron Dual-Core (Sparta)",
  SynthRule.mk (SynthCode.FMQ 0 15 6 11 Mn) "AMD Turion Neo X2 Dual-Core (Huron)",
  SynthRule.mk (SynthCode.FMQ 0 15 6 11 MN) "AMD Athlon Neo X2 (Huron)",
  SynthRule.mk (SynthCode.FMQ 0 15 6 11 dA) "AMD Athlon 64 X2 Dual-Core (Brisbane)",
  SynthRule.mk (SynthCode.FM 0 15 6 11) "AMD Athlon 64 (unknown type) (Brisbane/Sparta/Huron)",
  SynthRule.mk (SynthCode.FMSQ 0 15 6 12 2 MS) "AMD mobile Sempron (Sherman DH-G2)",
  SynthRule.mk (SynthCode.FMSQ 0 15 6 12 2 dS) "AMD Sempron (Sparta DH-G2)",
  SynthRule.mk (SynthCode.FMSQ 0 15 6 12 2 dA) "AMD Athlon 64 (Lima DH-G2)",
  SynthRule.mk (SynthCode.FMS 0 15 6 12 2) "AMD Athlon 64 (unknown type) (Lima/Sparta/Sherman DH-G2)",
  SynthRule.mk (SynthCode.FMQ 0 15 6 12 MS) "AMD mobile Sempron (Sherman)",
  SynthRule.mk (SynthCode.FMQ 0 15 6 12 dS) "AMD Sempron (Sparta)",
  SynthRule.mk (SynthCode.FMQ 0 15 6 12 dA) "AMD Athlon 64 (Lima)",
  SynthRule.mk (SynthCode.FM 0 15 6 12) "AMD Athlon 64 (unknown type) (Lima/Sparta/Sherman)",
  SynthRule.mk (SynthCode.FMSQ 0 15 6 15 2 MS) "AMD mobile Sempron (Sherman DH-G2)",
  SynthRule.mk (SynthCode.FMSQ 0 15 6 15 2 dS) "AMD Sempron (Sparta DH-G2)",
  SynthRule.mk (SynthCode.FMSQ 0 15 6 15 2 MN) "AMD Athlon Neo (Huron DH-G2)",
  SynthRule.mk (SynthCode.FMS 0 15 6 15 2) "AMD Athlon Neo (unknown type) (Huron/Sparta/Sherman DH-G2)",
  SynthRule.mk (SynthCode.FMQ 0 15 6 15 MS) "AMD mobile Sempron (Sherman)",
  SynthRule.mk (SynthCode.FMQ 0 15 6 15 dS) "AMD Sempron (Sparta)",
  SynthRule.mk (SynthCode.FMQ 0 15 6 15 MN) "AMD Athlon Neo (Huron)",
  SynthRule.mk (SynthCode.FM 0 15 6 15) "AMD Athlon Neo (unknown type) (Huron/Sparta/Sherman)",
  SynthRule.mk (SynthCode.FMSQ 0 15 7 12 2 MS) "AMD mobile Sempron (Sherman DH-G2)",
  SynthRule.mk (SynthCode.FMSQ 0 15 7 12 2 dS) "AMD Sempron (Sparta DH-G2)",
  SynthRule.mk (SynthCode.FMSQ 0 15 7 12 2 dA) "AMD Athlon (Lima DH-G2)",
  SynthRule.mk (SynthCode.FMS 0 15 7 12 2) "AMD Athlon (unknown type) (Lima/Sparta/Sherman DH-G2)",
  SynthRule.mk (SynthCode.FMQ 0 15 7 12 MS) "AMD mobile Sempron (Sherman)",
  SynthRule.mk (SynthCode.FMQ 0 15 7 12 dS) "AMD Sempron (Sparta)",
  SynthRule.mk (SynthCode.FMQ 0 15 7 12 dA) "AMD Athlon (Lima)",
  SynthRule.mk (SynthCode.FM 0 15 7 12) "AMD Athlon (unknown type) (Lima/Sparta/Sherman)",
  SynthRule.mk (SynthCode.FMSQ 0 15 7 15 1 MS) "AMD mobile Sempron (Sherman DH-G1)",
  SynthRule.mk (SynthCode.FMSQ 0 15 7 15 1 dS) "AMD Sempron (Sparta DH-G1)",
  SynthRule.mk (SynthCode.FMSQ 0 15 7 15 1 dA) "AMD Athlon 64 (Lima DH-G1)",
  SynthRule.mk (SynthCode.FMS 0 15 7 15 1) "AMD Athlon 64 (unknown type) (Lima/Sparta/Sherman DH-G1)",
  SynthRule.mk (SynthCode.FMSQ 0 15 7 15 2 MS) "AMD mobile Sempron (Sherman DH-G2)",
  SynthRule.mk (SynthCode.FMSQ 0 15 7 15 2 dS) "AMD Sempron (Sparta DH-G2)",
  SynthRule.mk (SynthCode.FMSQ 0 15 7 15 2 MN) "AMD Athlon Neo (Huron DH-G2)",
  SynthRule.mk (SynthCode.FMSQ 0 15 7 15 2 dA) "AMD Athlon 64 (Lima DH-G2)",
  SynthRule.mk (SynthCode.FMS 0 15 7 15 2) "AMD Athlon 64 (unknown type) (Lima/Sparta/Sherman/Huron DH-G2)",
  SynthRule.mk (SynthCode.FMQ 0 15 7 15 MS) "AMD mobile Sempron (Sherman)",
  SynthRule.mk (SynthCode.FMQ 0 15 7 15 dS) "AMD Sempron (Sparta)",
  SynthRule.mk (SynthCode.FMQ 0 15 7 15 MN) "AMD Athlon Neo (Huron)",
  SynthRule.mk (SynthCode.FMQ 0 15 7 15 dA) "AMD Athlon 64 (Lima)",
  SynthRule.mk (SynthCode.FM 0 15 7 15) "AMD Athlon 64 (unknown type) (Lima/Sparta/Sherman/Huron)",
  SynthRule.mk (SynthCode.FMS 0 15 12 1 3) "AMD Athlon 64 FX Dual-Core (Windsor JH-F3)",
  SynthRule.mk (SynthCode.FM 0 15 12 1) "AMD Athlon 64 FX Dual-Core (Windsor)",
  SynthRule.mk (SynthCode.F 0 15) "AMD (unknown model)",
  SynthRule.mk (SynthCode.FMSQ 1 15 0 2 1 sO) "AMD Quad-Core Opteron (Barcelona DR-B1)",
  SynthRule.mk (SynthCode.FMS 1 15 0 2 1) "AMD (unknown type) (Barcelona DR-B1)",
  SynthRule.mk (SynthCode.FMSQ 1 15 0 2 2 EO) "AMD Embedded Opteron (Barcelona DR-B2)",
  SynthRule.mk (SynthCode.FMSQ 1 15 0 2 2 sO) "AMD Quad-Core Opteron (Barcelona DR-B2)",
  SynthRule.mk (SynthCode.FMSQ 1 15 0 2 2 Tp) "AMD Phenom Triple-Core (Toliman DR-B2)",
  SynthRule.mk (SynthCode.FMSQ 1 15 0 2 2 Qp) "AMD Phenom Quad-Core (Agena DR-B2)",
  SynthRule.mk (SynthCode.FMS 1 15 0 2 2) "AMD (unknown type) (Barcelona/Toliman/Agena DR-B2)",
  SynthRule.mk (SynthCode.FMSQ 1 15 0 2 3 EO) "AMD Embedded Opteron (Barcelona DR-B3)",
  SynthRule.mk (SynthCode.FMSQ 1 15 0 2 3 sO) "AMD Quad-Core Opteron (Barcelona DR-B3)",
  SynthRule.mk (SynthCode.FMSQ 1 15 0 2 3 Tp) "AMD Phenom Triple-Core (Toliman DR-B3)",
  SynthRule.mk (SynthCode.FMSQ 1 15 0 2 3 Qp) "AMD Phenom Quad-Core (Agena DR-B3)",
  SynthRule.mk (SynthCode.FMSQ 1 15 0 2 3 dA) "AMD Athlon Dual-Core (Kuma DR-B3)",
  SynthRule.mk (SynthCode.FMS 1 15 0 2 3) "AMD (unknown type) (Barcelona/Toliman/Agena/Kuma DR-B3)",
  SynthRule.mk (SynthCode.FMS 1 15 0 2 10) "AMD Quad-Core Opteron (Barcelona DR-BA)",
  SynthRule.mk (SynthCode.FMQ 1 15 0 2 EO) "AMD Embedded Opteron (Barcelona)",
  SynthRule.mk (SynthCode.FMQ 1 15 0 2 sO) "AMD Quad-Core Opteron (Barcelona)",
  SynthRule.mk (SynthCode.FMQ 1 15 0 2 Tp) "AMD Phenom Triple-Core (Toliman)",
  SynthRule.mk (SynthCode.FMQ 1 15 0 2 Qp) "AMD Phenom Quad-Core (Agena)",
  SynthRule.mk (SynthCode.FMQ 1 15 0 2 dA) "AMD Athlon Dual-Core (Kuma)",
  SynthRule.mk (SynthCode.FM 1 15 0 2) "AMD (unknown type) (Barcelona/Toliman/Agena/Kuma)",
  SynthRule.mk (SynthCode.FMSQ 1 15 0 4 2 EO) "AMD Embedded Opteron (Shanghai RB-C2)",
  SynthRule.mk (SynthCode.FMSQ 1 15 0 4 2 sO) "AMD Quad-Core Opteron (Shanghai RB-C2)",
  SynthRule.mk (SynthCode.FMSQ 1 15 0 4 2 dr) "AMD Athlon Dual-Core (Propus RB-C2)",
  SynthRule.mk (SynthCode.FMSQ 1 15 0 4 2 dA) "AMD Athlon Dual-Core (Regor RB-C2)",
  SynthRule.mk (SynthCode.FMSQ 1 15 0 4 2 Dp) "AMD Phenom II X2 (Callisto RB-C2)",
  SynthRule.mk (SynthCode.FMSQ 1 15 0 4 2 Tp) "AMD Phenom II X3 (Heka RB-C2)",
  SynthRule.mk (SynthCode.FMSQ 1 15 0 4 2 Qp) "AMD Phenom II X4 (Deneb RB-C2)",
  SynthRule.mk (SynthCode.FMS 1 15 0 4 2) "AMD Athlon (unknown type) (Regor/Propus/Shanghai/Callisto/Heka/Deneb RB-C2)",
  SynthRule.mk (SynthCode.FMSQ 1 15 0 4 3 Dp) "AMD Phenom II X2 (Callisto RB-C3)",
  SynthRule.mk (SynthCode.FMSQ 1 15 0 4 3 Tp) "AMD Phenom II X3 (Heka RB-C3)",
  SynthRule.mk (SynthCode.FMSQ 1 15 0 4 3 Qp) "AMD Phenom II X4 (Deneb RB-C3)",
  SynthRule.mk (SynthCode.FMS 1 15 0 4 3) "AMD Phenom II (unknown type) (Callisto/Heka/Deneb RB-C3)",
  SynthRule.mk (SynthCode.FMQ 1 15 0 4 EO) "AMD Embedded Opteron (Shanghai)",
  SynthRule.mk (SynthCode.FMQ 1 15 0 4 sO) "AMD Quad-Core Opteron (Shanghai)",
  SynthRule.mk (SynthCode.FMQ 1 15 0 4 dr) "AMD Athlon Dual-Core (Propus)",
  SynthRule.mk (SynthCode.FMQ 1 15 0 4 dA) "AMD Athlon Dual-Core (Regor)",
  SynthRule.mk (SynthCode.FMQ 1 15 0 4 Dp) "AMD Phenom II X2 (Callisto)",
  SynthRule.mk (SynthCode.FMQ 1 15 0 4 Tp) "AMD Phenom II X3 (Heka)",
  SynthRule.mk (SynthCode.FMQ 1 15 0 4 Qp) "AMD Phenom II X4 (Deneb)",
  SynthRule.mk (SynthCode.FM 1 15 0 4) "AMD Athlon (unknown type) (Regor/Propus/Shanghai/Callisto/Heka/Deneb)",
  SynthRule.mk (SynthCode.FMSQ 1 15 0 5 2 DA) "AMD Athlon II X2 (Regor BL-C2)",
  SynthRule.mk (SynthCode.FMSQ 1 15 0 5 2 TA) "AMD Athlon II X3 (Rana BL-C2)",
  SynthRule.mk (SynthCode.FMSQ 1 15 0 5 2 QA) "AMD Athlon II X4 (Propus BL-C2)",
  SynthRule.mk (SynthCode.FMS 1 15 0 5 2) "AMD Athlon (unknown type) (Regor/Rana/Propus BL-C2)",
  SynthRule.mk (SynthCode.FMSQ 1 15 0 5 3 TA) "AMD Athlon II X3 (Rana BL-C3)",
  SynthRule.mk (SynthCode.FMSQ 1 15 0 5 3 QA) "AMD Athlon II X4 (Propus BL-C3)",
  SynthRule.mk (SynthCode.FMSQ 1 15 0 5 3 Tp) "AMD Phenom II Triple-Core (Heka BL-C3)",
  SynthRule.mk (SynthCode.FMSQ 1 15 0 5 3 Qp) "AMD Phenom II Quad-Core (Deneb BL-C3)",
  SynthRule.mk (SynthCode.FMS 1 15 0 5 3) "AMD Athlon (unknown type) (Regor/Rana/Propus/Callisto/Heka/Deneb BL-C3)",
  SynthRule.mk (SynthCode.FMQ 1 15 0 5 DA) "AMD Athlon II X2 (Regor)",
  SynthRule.mk (SynthCode.FMQ 1 15 0 5 TA) "AMD Athlon II X3 (Rana)",
  SynthRule.mk (SynthCode.FMQ 1 15 0 5 QA) "AMD Athlon II X4 (Propus)",
  SynthRule.mk (SynthCode.FMQ 1 15 0 5 Tp) "AMD Phenom II Triple-Core (Heka)",
  SynthRule.mk (SynthCode.FMQ 1 15 0 5 Qp) "AMD Phenom II Quad-Core (Deneb)",
  SynthRule.mk (SynthCode.FM 1 15 0 5) "AMD Athlon (unknown type) (Regor/Rana/Propus/Callisto/Heka/Deneb)",
  SynthRule.mk (SynthCode.FMSQ 1 15 0 6 2 MS) "AMD Sempron Mobile (Sargas DA-C2)",
  SynthRule.mk (SynthCode.FMSQ 1 15 0 6 2 dS) "AMD Sempron II (Sargas DA-C2)",
  SynthRule.mk (SynthCode.FMSQ 1 15 0 6 2 MT) "AMD Turion II Dual-Core Mobile (Caspian DA-C2)",
  SynthRule.mk (SynthCode.FMSQ 1 15 0 6 2 MA) "AMD Athlon II Dual-Core Mobile (Regor DA-C2)",
  SynthRule.mk (SynthCode.FMSQ 1 15 0 6 2 DA) "AMD Athlon II X2 (Regor DA-C2)",
  SynthRule.mk (SynthCode.FMSQ 1 15 0 6 2 dA) "AMD Athlon II (Sargas DA-C2)",
  SynthRule.mk (SynthCode.FMS 1 15 0 6 2) "AMD Athlon (unknown type) (Regor/Sargas/Caspain DA-C2)",
  SynthRule.mk (SynthCode.FMSQ 1 15 0 6 3 Ms) "AMD V-Series Mobile (Champlain DA-C3)",
  SynthRule.mk (SynthCode.FMSQ 1 15 0 6 3 DS) "AMD Sempron II X2 (Regor DA-C3)",
  SynthRule.mk (SynthCode.FMSQ 1 15 0 6 3 dS) "AMD Sempron II (Sargas DA-C3)",
  SynthRule.mk (SynthCode.FMSQ 1 15 0 6 3 MT) "AMD Turion II Dual-Core Mobile (Champlain DA-C3)",
  SynthRule.mk (SynthCode.FMSQ 1 15 0 6 3 Mp) "AMD Phenom II Dual-Core Mobile (Champlain DA-C3)",
  SynthRule.mk (SynthCode.FMSQ 1 15 0 6 3 MA) "AMD Athlon II Dual-Core Mobile (Champlain DA-C3)",
  SynthRule.mk (SynthCode.FMSQ 1 15 0 6 3 DA) "AMD Athlon II X2 (Regor DA-C3)",
  SynthRule.mk (SynthCode.FMSQ 1 15 0 6 3 dA) "AMD Athlon II (Sargas DA-C3)",
  SynthRule.mk (SynthCode.FMS 1 15 0 6 3) "AMD Athlon (unknown type) (Regor/Sargas/Champlain DA-C3)",
  SynthRule.mk (SynthCode.FMQ 1 15 0 6 Ms) "AMD V-Series Mobile (Champlain)",
  SynthRule.mk (SynthCode.FMQ 1 15 0 6 MS) "AMD Sempron Mobile (Sargas)",
  SynthRule.mk (SynthCode.FMQ 1 15 0 6 DS) "AMD Sempron II X2 (Regor)",
  SynthRule.mk (SynthCode.FMQ 1 15 0 6 dS) "AMD Sempron II (Sargas)",
  SynthRule.mk (SynthCode.FMQ 1 15 0 6 MT) "AMD Turion II Dual-Core Mobile (Caspian / Champlain)",
  SynthRule.mk (SynthCode.FMQ 1 15 0 6 Mp) "AMD Phenom II Dual-Core Mobile (Champlain)",
  SynthRule.mk (SynthCode.FMQ 1 15 0 6 MA) "AMD Athlon II Dual-Core Mobile (Regor / Champlain)",
  SynthRule.mk (SynthCode.FMQ 1 15 0 6 DA) "AMD Athlon II X2 (Regor)",
  SynthRule.mk (SynthCode.FMQ 1 15 0 6 dA) "AMD Athlon II (Sargas)",
  SynthRule.mk (SynthCode.FM 1 15 0 6) "AMD Athlon (unknown type) (Regor/Sargas/Caspian/Champlain)",
  SynthRule.mk (SynthCode.FMSQ 1 15 0 8 0 SO) "AMD Six-Core Opteron (Istanbul HY-D0)",
  SynthRule.mk (SynthCode.FMSQ 1 15 0 8 0 sO) "AMD Opteron 4100 (Lisbon HY-D0)",
  SynthRule.mk (SynthCode.FMS 1 15 0 8 0) "AMD Opteron (unknown type) (Lisbon/Istanbul HY-D0)",
  SynthRule.mk (SynthCode.FMS 1 15 0 8 1) "AMD Opteron 4100 (Lisbon HY-D1)",
  SynthRule.mk (SynthCode.FMQ 1 15 0 8 SO) "AMD Six-Core Opteron (Istanbul)",
  SynthRule.mk (SynthCode.FMQ 1 15 0 8 sO) "AMD Opteron 4100 (Lisbon)",
  SynthRule.mk (SynthCode.FM 1 15 0 8) "AMD Opteron (unknown type) (Lisbon/Istanbul)",
  SynthRule.mk (SynthCode.FMS 1 15 0 9 1) "AMD Opteron 6100 (Magny-Cours HY-D1)",
  SynthRule.mk (SynthCode.FM 1 15 0 9) "AMD Opteron 6100 (Magny-Cours)",
  SynthRule.mk (SynthCode.FMSQ 1 15 0 10 0 Qp) "AMD Phenom II X4 (Zosma PH-E0)",
  SynthRule.mk (SynthCode.FMSQ 1 15 0 10 0 Sp) "AMD Phenom II X6 (Thuban PH-E0)",
  SynthRule.mk (SynthCode.FMS 1 15 0 10 0) "AMD Phenom II (unknown type) (Zosma/Thuban PH-E0)",
  SynthRule.mk (SynthCode.FMQ 1 15 0 10 Qp) "AMD Phenom II X4 (Zosma)",
  SynthRule.mk (SynthCode.FMQ 1 15 0 10 Sp) "AMD Phenom II X6 (Thuban)",
  SynthRule.mk (SynthCode.FM 1 15 0 10) "AMD Phenom II (unknown type) (Zosma/Thuban)",
  SynthRule.mk (SynthCode.F 1 15) "AMD (unknown model)",
  SynthRule.mk (SynthCode.FMSQ 2 15 0 3 1 MU) "AMD Turion X2 Ultra Dual-Core Mobile (Griffin LG-B1)",
  SynthRule.mk (SynthCode.FMSQ 2 15 0 3 1 MT) "AMD Turion X2 Dual-Core Mobile (Lion LG-B1)",
  SynthRule.mk (SynthCode.FMSQ 2 15 0 3 1 DS) "AMD Sempron X2 Dual-Core (Sable LG-B1)",
  SynthRule.mk (SynthCode.FMSQ 2 15 0 3 1 dS) "AMD Sempron (Sable LG-B1)",
  SynthRule.mk (SynthCode.FMSQ 2 15 0 3 1 DA) "AMD Athlon X2 Dual-Core (Lion LG-B1)",
  SynthRule.mk (SynthCode.FMSQ 2 15 0 3 1 dA) "AMD Athlon (Lion LG-B1)",
  SynthRule.mk (SynthCode.FMS 2 15 0 3 1) "AMD Athlon (unknown type) (Lion/Sable LG-B1)",
  SynthRule.mk (SynthCode.FMQ 2 15 0 3 MU) "AMD Turion X2 Ultra (Griffin)",
  SynthRule.mk (SynthCode.FMQ 2 15 0 3 MT) "AMD Turion X2 (Lion)",
  SynthRule.mk (SynthCode.FMQ 2 15 0 3 DS) "AMD Sempron X2 Dual-Core (Sable)",
  SynthRule.mk (SynthCode.FMQ 2 15 0 3 dS) "AMD Sempron (Sable)",
  SynthRule.mk (SynthCode.FMQ 2 15 0 3 DA) "AMD Athlon X2 Dual-Core (Lion)",
  SynthRule.mk (SynthCode.FMQ 2 15 0 3 dA) "AMD Athlon (Lion)",
  SynthRule.mk (SynthCode.FM 2 15 0 3) "AMD Athlon (unknown type) (Lion/Sable)",
  SynthRule.mk (SynthCode.F 2 15) "AMD (unknown model)",
  SynthRule.mk (SynthCode.FMSQ 3 15 0 1 0 dS) "AMD Sempron Dual-Core (Llano LN-B0)",
  SynthRule.mk (SynthCode.FMSQ 3 15 0 1 0 dA) "AMD Athlon II Dual-Core (Llano LN-B0)",
  SynthRule.mk (SynthCode.FMSQ 3 15 0 1 0 Sa) "AMD A-Series (Llano LN-B0)",
  SynthRule.mk (SynthCode.FMSQ 3 15 0 1 0 Se) "AMD E2-Series (Llano LN-B0)",
  SynthRule.mk (SynthCode.FMS 3 15 0 1 0) "AMD Athlon (unknown type) (Llano LN-B0)",
  SynthRule.mk (SynthCode.FMQ 3 15 0 1 dS) "AMD Sempron Dual-Core (Llano)",
  SynthRule.mk (SynthCode.FMQ 3 15 0 1 dA) "AMD Athlon II Dual-Core (Llano)",
  SynthRule.mk (SynthCode.FMQ 3 15 0 1 Sa) "AMD A-Series (Llano)",
  SynthRule.mk (SynthCode.FMQ 3 15 0 1 Se) "AMD E2-Series (Llano)",
  SynthRule.mk (SynthCode.FM 3 15 0 1) "AMD Athlon (unknown type) (Llano)",
  SynthRule.mk (SynthCode.F 3 15) "AMD (unknown model) (Llano)",
  SynthRule.mk (SynthCode.FMSQ 5 15 0 1 0 Sc) "AMD C-Series (Ontario ON-B0)",
  SynthRule.mk (SynthCode.FMSQ 5 15 0 1 0 Se) "AMD E-Series (Zacate ON-B0)",
  SynthRule.mk (SynthCode.FMSQ 5 15 0 1 0 Sg) "AMD G-Series (Ontario/Zacate ON-B0)",
  SynthRule.mk (SynthCode.FMSQ 5 15 0 1 0 Sz) "AMD Z-Series (Desna ON-B0)",
  SynthRule.mk (SynthCode.FMS 5 15 0 1 0) "AMD (unknown type) (Ontario/Zacate/Desna ON-B0)",
  SynthRule.mk (SynthCode.FM 5 15 0 1) "AMD (unknown type) (Ontario/Zacate/Desna)",
  SynthRule.mk (SynthCode.FMSQ 5 15 0 2 0 Sc) "AMD C-Series (Ontario ON-C0)",
  SynthRule.mk (SynthCode.FMSQ 5 15 0 2 0 Se) "AMD E-Series (Zacate ON-C0)",
  SynthRule.mk (SynthCode.FMSQ 5 15 0 2 0 Sg) "AMD G-Series (Ontario/Zacate ON-C0)",
  SynthRule.mk (SynthCode.FMSQ 5 15 0 2 0 Sz) "AMD Z-Series (Desna ON-C0)",
  SynthRule.mk (SynthCode.FMS 5 15 0 2 0) "AMD (unknown type) (Ontario/Zacate/Desna ON-C0)",
  SynthRule.mk (SynthCode.FM 5 15 0 2) "AMD (unknown type) (Ontario/Zacate/Desna)",
  SynthRule.mk (SynthCode.F 5 15) "AMD (unknown model)",
  SynthRule.mk (SynthCode.FMSQ 6 15 0 1 2 sO) "AMD Opteron 6200 (Interlagos OR-B2) / Opteron 4200 (Valencia OR-B2) / Opteron 3200 (Zurich OR-B2)",
  SynthRule.mk (SynthCode.FMSQ 6 15 0 1 2 df) "AMD FX-Series (Zambezi OR-B2)",
  SynthRule.mk (SynthCode.FMS 6 15 0 1 2) "AMD (unknown type) (Interlagos/Valencia/Zurich/Zambezi OR-B2)",
  SynthRule.mk (SynthCode.FMQ 6 15 0 1 sO) "AMD Opteron 6200 (Interlagos) / Opteron 4200 (Valencia) / Opteron 3200 (Zurich)",
  SynthRule.mk (SynthCode.FMQ 6 15 0 1 df) "AMD FX-Series (Zambezi)",
  SynthRule.mk (SynthCode.FM 6 15 0 1) "AMD (unknown type) (Interlagos/Valencia/Zurich/Zambezi)",
  SynthRule.mk (SynthCode.FMSQ 6 15 0 2 0 sO) "AMD Opteron 6300 (Abu Dhabi OR-C0) / Opteron 4300 (Seoul OR-C0) / Opteron 3300 (Delhi OR-C0)",
  SynthRule.mk (SynthCode.FMSQ 6 15 0 2 0 df) "AMD FX-Series (Vishera OR-C0)",
  SynthRule.mk (SynthCode.FMS 6 15 0 2 0) "AMD (unknown type) (Abu Dhabi/Seoul/Delhi/Vishera OR-C0)",
  SynthRule.mk (SynthCode.FMQ 6 15 0 2 sO) "AMD Opteron 6300 (Abu Dhabi) / Opteron 4300 (Seoul) / Opteron 3300 (Delhi)",
  SynthRule.mk (SynthCode.FMQ 6 15 0 2 df) "AMD FX-Series (Vishera)",
  SynthRule.mk (SynthCode.FM 6 15 0 2) "AMD (unknown type) (Abu Dhabi/Seoul/Delhi/Vishera)",
  SynthRule.mk (SynthCode.FMSQ 6 15 1 0 1 Sa) "AMD A-Series (Trinity TN-A1)",
  SynthRule.mk (SynthCode.FMSQ 6 15 1 0 1 Sr) "AMD R-Series (Trinity TN-A1)",
  SynthRule.mk (SynthCode.FMSQ 6 15 1 0 1 dA) "AMD Athlon Dual-Core / Athlon Quad-Core (Trinity TN-A1)",
  SynthRule.mk (SynthCode.FMSQ 6 15 1 0 1 dS) "AMD Sempron Dual-Core (Trinity TN-A1)",
  SynthRule.mk (SynthCode.FMSQ 6 15 1 0 1 dI) "AMD FirePro (Trinity TN-A1)",
  SynthRule.mk (SynthCode.FMS 6 15 1 0 1) "AMD (unknown type) (Trinity TN-A1)",
  SynthRule.mk (SynthCode.FMQ 6 15 1 0 Sa) "AMD A-Series (Trinity)",
  SynthRule.mk (SynthCode.FMQ 6 15 1 0 Sr) "AMD R-Series (Trinity)",
  SynthRule.mk (SynthCode.FMQ 6 15 1 0 dA) "AMD Athlon Dual-Core / Athlon Quad-Core (Trinity)",
  SynthRule.mk (SynthCode.FMQ 6 15 1 0 dS) "AMD Sempron Dual-Core (Trinity)",
  SynthRule.mk (SynthCode.FMQ 6 15 1 0 dI) "AMD FirePro (Trinity)",
  SynthRule.mk (SynthCode.FM 6 15 1 0) "AMD (unknown type) (Trinity TN-A1)",
  SynthRule.mk (SynthCode.FMSQ 6 15 1 3 1 Sa) "AMD A-Series (Richland RL-A1)",
  SynthRule.mk (SynthCode.FMSQ 6 15 1 3 1 Sr) "AMD R-Series (Richland RL-A1)",
  SynthRule.mk (SynthCode.FMSQ 6 15 1 3 1 dA) "AMD Athlon Dual-Core / Athlon Quad-Core (Richland RL-A1)",
  SynthRule.mk (SynthCode.FMSQ 6 15 1 3 1 dS) "AMD Sempron Dual-Core (Richland RL-A1)",
  SynthRule.mk (SynthCode.FMSQ 6 15 1 3 1 dI) "AMD FirePro (Richland RL-A1)",
  SynthRule.mk (SynthCode.FMS 6 15 1 3 1) "AMD (unknown type) (Richland RL-A1)",
  SynthRule.mk (SynthCode.FMQ 6 15 1 3 Sa) "AMD A-Series (Richland)",
  SynthRule.mk (SynthCode.FMQ 6 15 1 3 Sr) "AMD R-Series (Richland)",
  SynthRule.mk (SynthCode.FMQ 6 15 1 3 dA) "AMD Athlon Dual-Core / Athlon Quad-Core (Richland)",
  SynthRule.mk (SynthCode.FMQ 6 15 1 3 dS) "AMD Sempron Dual-Core (Richland)",
  SynthRule.mk (SynthCode.FMQ 6 15 1 3 dI) "AMD FirePro (Richland)",
  SynthRule.mk (SynthCode.FM 6 15 1 3) "AMD (unknown type) (Richland)",
  SynthRule.mk (SynthCode.FMSQ 6 15 3 0 1 Sa) "AMD Elite Performance A-Series (Kaveri KV-A1)",
  SynthRule.mk (SynthCode.FMSQ 6 15 3 0 1 Mr) "AMD Mobile R-Series (Kaveri KV-A1)",
  SynthRule.mk (SynthCode.FMSQ 6 15 3 0 1 sO) "AMD Opteron X1200 / X2200 (Kaveri KV-A1)",
  SynthRule.mk (SynthCode.FMS 6 15 3 0 1) "AMD (unknown type) (Kaveri KV-A1)",
  SynthRule.mk (SynthCode.FMQ 6 15 3 0 Sa) "AMD Elite Performance A-Series (Kaveri)",
  SynthRule.mk (SynthCode.FMQ 6 15 3 0 Mr) "AMD Mobile R-Series (Kaveri)",
  SynthRule.mk (SynthCode.FMQ 6 15 3 0 sO) "AMD Opteron X1200 / X2200 (Kaveri)",
  SynthRule.mk (SynthCode.FM 6 15 3 0) "AMD (unknown type) (Kaveri)",
  SynthRule.mk (SynthCode.FMQ 6 15 3 8 Sa) "AMD A-Series (Godavari)",
  SynthRule.mk (SynthCode.FM 6 15 3 8) "AMD (unknown type) (Godavari)",
  SynthRule.mk (SynthCode.FMQ 6 15 6 5 Sa) "AMD A-Series (Carrizo/Bristol Ridge/Stoney Ridge)",
  SynthRule.mk (SynthCode.FMQ 6 15 6 5 Se) "AMD E-Series (Stoney Ridge)",
  SynthRule.mk (SynthCode.FMQ 6 15 6 5 Sg) "AMD G-Series (Brown Falcon/Prairie Falcon)",
  SynthRule.mk (SynthCode.FM 6 15 6 5) "AMD (unknown type) (Carrizo/Bristol Ridge/Stoney Ridge/Toronto/Brown Falcon/Prairie Falcon)",
  SynthRule.mk (SynthCode.FMSQ 6 15 7 0 0 Sa) "AMD A-Series (Carrizo/Bristol Ridge/Stoney Ridge ST-A0)",
  SynthRule.mk (SynthCode.FMSQ 6 15 7 0 0 Se) "AMD E-Series (Stoney Ridge ST-A0)",
  SynthRule.mk (SynthCode.FMSQ 6 15 7 0 0 Sg) "AMD G-Series (Brown Falcon/Prairie Falcon ST-A0)",
  SynthRule.mk (SynthCode.FMS 6 15 7 0 0) "AMD (unknown type) (Carrizo/Bristol Ridge/Stoney Ridge/Toronto/Brown Falcon/Prairie Falcon ST-A0)",
  SynthRule.mk (SynthCode.FMQ 6 15 7 0 Sa) "AMD A-Series (Carrizo/Bristol Ridge/Stoney Ridge)",
  SynthRule.mk (SynthCode.FMQ 6 15 7 0 Se) "AMD E-Series (Stoney Ridge)",
  SynthRule.mk (SynthCode.FMQ 6 15 7 0 Sg) "AMD G-Series (Brown Falcon/Prairie Falcon)",
  SynthRule.mk (SynthCode.FM 6 15 7 0) "AMD (unknown type) (Carrizo/Bristol Ridge/Stoney Ridge/Toronto/Brown Falcon/Prairie Falcon)",
  SynthRule.mk (SynthCode.F 6 15) "AMD (unknown model)",
  SynthRule.mk (SynthCode.FMSQ 7 15 0 0 1 dA) "AMD Athlon (Kabini KB-A1)",
  SynthRule.mk (SynthCode.FMSQ 7 15 0 0 1 Sa) "AMD A-Series (Kabini/Temash KB-A1)",
  SynthRule.mk (SynthCode.FMSQ 7 15 0 0 1 Se) "AMD E-Series (Kabini KB-A1)",
  SynthRule.mk (SynthCode.FMSQ 7 15 0 0 1 Sg) "AMD G-Series (Kabini KB-A1)",
  SynthRule.mk (SynthCode.FMSQ 7 15 0 0 1 sO) "AMD Opteron X1100/X2100 Series (Kyoto KB-A1)",
  SynthRule.mk (SynthCode.FMS 7 15 0 0 1) "AMD (unknown type) (Kabini/Temash/Kyoto KB-A1)",
  SynthRule.mk (SynthCode.FMQ 7 15 0 0 dA) "AMD Athlon (Kabini)",
  SynthRule.mk (SynthCode.FMQ 7 15 0 0 Sa) "AMD A-Series (Kabini/Temash)",
  SynthRule.mk (SynthCode.FMQ 7 15 0 0 Se) "AMD E-Series (Kabini)",
  SynthRule.mk (SynthCode.FMQ 7 15 0 0 Sg) "AMD G-Series (Kabini)",
  SynthRule.mk (SynthCode.FMQ 7 15 0 0 sO) "AMD Opteron X1100/X2100 Series (Kyoto)",
  SynthRule.mk (SynthCode.FM 7 15 0 0) "AMD (unknown type) (Kabini/Temash/Kyoto)",
  SynthRule.mk (SynthCode.FMSQ 7 15 3 0 1 Sa) "AMD A-Series (Beema ML-A1)",
  SynthRule.mk (SynthCode.FMSQ 7 15 3 0 1 Se) "AMD E-Series (Beema ML-A1)",
  SynthRule.mk (SynthCode.FMSQ 7 15 3 0 1 Ta) "AMD A-Series Micro (Mullins ML-A1)",
  SynthRule.mk (SynthCode.FMSQ 7 15 3 0 1 Te) "AMD E-Series Micro (Mullins ML-A1)",
  SynthRule.mk (SynthCode.FMS 7 15 3 0 1) "AMD (unknown type) (Beema/Mullins ML-A1)",
  SynthRule.mk (SynthCode.FMQ 7 15 3 0 Sa) "AMD A-Series (Beema)",
  SynthRule.mk (SynthCode.FMQ 7 15 3 0 Se) "AMD E-Series (Beema)",
  SynthRule.mk (SynthCode.FMQ 7 15 3 0 Ta) "AMD A-Series Micro (Mullins)",
  SynthRule.mk (SynthCode.FMQ 7 15 3 0 Te) "AMD E-Series Micro (Mullins)",
  SynthRule.mk (SynthCode.FM 7 15 3 0) "AMD (unknown type) (Beema/Mullins)",
  SynthRule.mk (SynthCode.F 7 15) "AMD (unknown model)",
  SynthRule.mk (SynthCode.FMSQ 8 15 0 1 0 dR) "AMD Ryzen (Summit Ridge ZP-B0)",
  SynthRule.mk (SynthCode.FMSQ 8 15 0 1 0 sE) "AMD EPYC (Naples B0)",
  SynthRule.mk (SynthCode.FMS 8 15 0 1 0) "AMD (unknown type) (Summit Ridge/Naples ZP-B0)",
  SynthRule.mk (SynthCode.FMSQ 8 15 0 1 1 sE) "AMD EPYC (Naples B1)",
  SynthRule.mk (SynthCode.FMSQ 8 15 0 1 1 dR) "AMD Ryzen (Summit Ridge ZP-B1)",
  SynthRule.mk (SynthCode.FMS 8 15 0 1 1) "AMD (unknown type) (Summit Ridge/Naples ZP-B1)",
  SynthRule.mk (SynthCode.FMSQ 8 15 0 1 2 dR) "AMD Ryzen (Summit Ridge ZP-B2)",
  SynthRule.mk (SynthCode.FMSQ 8 15 0 1 2 sE) "AMD EPYC (Naples B2)",
  SynthRule.mk (SynthCode.FMS 8 15 0 1 2) "AMD (unknown type) (Summit Ridge/Naples ZP-B2)",
  SynthRule.mk (SynthCode.FMQ 8 15 0 1 dR) "AMD Ryzen (Summit Ridge)",
  SynthRule.mk (SynthCode.FMQ 8 15 0 1 sE) "AMD EPYC (Naples)",
  SynthRule.mk (SynthCode.FM 8 15 0 1) "AMD (unknown type) (Summit Ridge/Naples)",
  SynthRule.mk (SynthCode.FM 8 15 1 1) "AMD Ryzen (Raven Ridge)",
  SynthRule.mk (SynthCode.FMS 8 15 0 8 2) "AMD Ryzen (Pinnacle Ridge PiR-B2)",
  SynthRule.mk (SynthCode.FM 8 15 0 8) "AMD Ryzen (Pinnacle Ridge)",
  SynthRule.mk (SynthCode.FM 8 15 1 8) "AMD Ryzen (Picasso)",
  SynthRule.mk (SynthCode.FMQ 8 15 3 1 dR) "AMD Ryzen (Castle Peak)",
  SynthRule.mk (SynthCode.FMQ 8 15 3 1 sE) "AMD EPYC (Rome)",
  SynthRule.mk (SynthCode.FM 8 15 3 1) "AMD Ryzen (Castle Peak) / EPYC (Rome)",
  SynthRule.mk (SynthCode.FM 8 15 5 0) "AMD DG02SRTBP4MFA (Fenghuang 15FF)",
  SynthRule.mk (SynthCode.FMS 8 15 7 1 0) "AMD Ryzen (Matisse B0)",
  SynthRule.mk (SynthCode.FM 8 15 7 1) "AMD Ryzen (Matisse)",
  SynthRule.mk (SynthCode.DEFAULT) "unknown"
]

/-- The ordered rule table of `decode_synth_intel` of cpuid.c, transcribed in
full in authored order (split into three named chunks around the Ivy Bridge
stepping-9 block purely so that proofs can talk about the chunks; the
concatenation is the authored chain). -/
def intelTable : List SynthRule :=
  intelRulesPreIvy ++ intelRulesIvy9 ++ intelRulesRest

/-- `decode_synth_intel(val, stash)` of cpuid.c: first matching rule of the
Intel chain (its `DEFAULT` makes the result always `some`). -/
def decode_synth_intel (val : Nat) (st : Option CodeStash) : Option String :=
  synthFind intelTable val st

/-! ### `decode_amd_model`: the AMD legacy brand reconstructor

`decode_amd_model(stash, &brand_pre, &brand_post, proc)` of cpuid.c returns
through its out-parameters a brand prefix (`NULL` when nothing matched), an
optional brand suffix and a processor-number string (empty when nothing
matched).  Here it returns the triple `(brand_pre, brand_post, proc)`.
The function's four family-dependent branches become one helper each. -/

/-- C `sprintf` with `"%02d"` applied to an `unsigned int` holding a small
count or (after a wrapped decrement) `0xFFFFFFFF`: `%d` reads the 32-bit
value as signed, so values below 2^31 print zero-padded to width two and
`0xFFFFFFFF` prints as `-1`. -/
def sprintf02d (n : Nat) : String :=
  if n < 2147483648 then
    (if n < 10 then "0" ++ toString n else toString n)
  else
    "-" ++ toString (4294967296 - n)

/-- A C `unsigned int` decrement (`v--`), wrapping at 2^32. -/
def dec32 (n : Nat) : Nat := (n + 4294967295) % 4294967296

/-- `PKGTYPE(v)` of the NPT name-string switch of `decode_amd_model`. -/
def PKGTYPE (v : Nat) : Nat := v <<< 11
/-- `CMPCAP(v)` of the NPT name-string switch of `decode_amd_model`. -/
def CMPCAP (v : Nat) : Nat := v <<< 9
/-- `BTI(v)` of the NPT name-string switch of `decode_amd_model`. -/
def BTI (v : Nat) : Nat := v <<< 4
/-- `PWRLMT(v)` of the NPT name-string switch of `decode_amd_model`. -/
def PWRLMT (v : Nat) : Nat := v

/-- `NC(v)` of the family-10h+ name-string switches of `decode_amd_model`. -/
def NC (v : Nat) : Nat := v <<< 9
/-- `PG(v)` of the family-10h+ name-string switches of `decode_amd_model`. -/
def PG (v : Nat) : Nat := v <<< 8
/-- `STR1(v)` of the family-10h+ name-string switches of `decode_amd_model`. -/
def STR1 (v : Nat) : Nat := v <<< 4
/-- `STR2(v)` of the family-10h+ name-string switches of `decode_amd_model`. -/
def STR2 (v : Nat) : Nat := v

/-- The pre-NPT Family 0Fh (`bti`-indexed) branch of `decode_amd_model`
(Revision Guide 25759: constructing the processor name string). -/
def decode_amd_model_legacy (stash : CodeStash) :
    Option String × Option String × String :=
  let btiNN : Option (Nat × Nat) :=
    if stash.val_1_ebx &&& 0x000000ff != 0 then
      some (bitExtractLE (stash.val_1_ebx &&& 0x000000ff) 5 8 <<< 2,
            bitExtractLE (stash.val_1_ebx &&& 0x000000ff) 0 5)
    else if bitExtractLE stash.val_80000001_ebx 0 12 != 0 then
      some (bitExtractLE stash.val_80000001_ebx 6 12,
            bitExtractLE stash.val_80000001_ebx 0 6)
    else
      none
  match btiNN with
  | none => (none, none, "")
  | some (bti, NN) =>
    if bti == 0x04 then
      (some "AMD Athlon(tm) 64", none, "Processor " ++ sprintf02d (22 + NN) ++ "00+")
    else if bti == 0x05 then
      (some "AMD Athlon(tm) 64 X2 Dual Core", none, "Processor " ++ sprintf02d (22 + NN) ++ "00+")
    else if bti == 0x06 then
      (some "AMD Athlon(tm) 64", some "Dual Core", "FX-" ++ sprintf02d (24 + NN))
    else if bti == 0x08 then
      (some "AMD Athlon(tm) 64", none, "Processor " ++ sprintf02d (22 + NN) ++ "00+")
    else if bti == 0x09 then
      (some "AMD Athlon(tm) 64", none, "Processor " ++ sprintf02d (22 + NN) ++ "00+")
    else if bti == 0x0a then
      (some "AMD Turion(tm) Mobile Technology", none, "ML-" ++ sprintf02d (22 + NN))
    else if bti == 0x0b then
      (some "AMD Turion(tm) Mobile Technology", none, "MT-" ++ sprintf02d (22 + NN))
    else if bti == 0x0c || bti == 0x0d then
      (some "AMD Opteron(tm)", none, "Processor 1" ++ sprintf02d (38 + 2 * NN))
    else if bti == 0x0e then
      (some "AMD Opteron(tm)", none, "Processor 1" ++ sprintf02d (38 + 2 * NN) ++ " HE")
    else if bti == 0x0f then
      (some "AMD Opteron(tm)", none, "Processor 1" ++ sprintf02d (38 + 2 * NN) ++ " EE")
    else if bti == 0x10 || bti == 0x11 then
      (some "AMD Opteron(tm)", none, "Processor 2" ++ sprintf02d (38 + 2 * NN))
    else if bti == 0x12 then
      (some "AMD Opteron(tm)", none, "Processor 2" ++ sprintf02d (38 + 2 * NN) ++ " HE")
    else if bti == 0x13 then
      (some "AMD Opteron(tm)", none, "Processor 2" ++ sprintf02d (38 + 2 * NN) ++ " EE")
    else if bti == 0x14 || bti == 0x15 then
      (some "AMD Opteron(tm)", none, "Processor 8" ++ sprintf02d (38 + 2 * NN))
    else if bti == 0x16 then
      (some "AMD Opteron(tm)", none, "Processor 8" ++ sprintf02d (38 + 2 * NN) ++ " HE")
    else if bti == 0x17 then
      (some "AMD Opteron(tm)", none, "Processor 8" ++ sprintf02d (38 + 2 * NN) ++ " EE")
    else if bti == 0x18 then
      (some "AMD Athlon(tm) 64", none, "Processor " ++ sprintf02d (9 + NN) ++ "00+")
    else if bti == 0x1d then
      (some "Mobile AMD Athlon(tm) XP-M", none, "Processor " ++ sprintf02d (22 + NN) ++ "00+")
    else if bti == 0x1e then
      (some "Mobile AMD Athlon(tm) XP-M", none, "Processor " ++ sprintf02d (22 + NN) ++ "00+")
    else if bti == 0x20 then
      (some "AMD Athlon(tm) XP", none, "Processor " ++ sprintf02d (22 + NN) ++ "00+")
    else if bti == 0x21 || bti == 0x23 then
      (some "Mobile AMD Sempron(tm)", none, "Processor " ++ sprintf02d (24 + NN) ++ "00+")
    else if bti == 0x22 || bti == 0x26 then
      (some "AMD Sempron(tm)", none, "Processor " ++ sprintf02d (24 + NN) ++ "00+")
    else if bti == 0x24 then
      (some "AMD Athlon(tm) 64", none, "FX-" ++ sprintf02d (24 + NN))
    else if bti == 0x29 || bti == 0x2c || bti == 0x2d || bti == 0x38 || bti == 0x3b then
      (some "Dual Core AMD Opteron(tm)", none, "Processor 1" ++ sprintf02d (45 + 5 * NN))
    else if bti == 0x2a || bti == 0x30 || bti == 0x31 || bti == 0x39 || bti == 0x3c then
      (some "Dual Core AMD Opteron(tm)", none, "Processor 2" ++ sprintf02d (45 + 5 * NN))
    else if bti == 0x2b || bti == 0x34 || bti == 0x35 || bti == 0x3a || bti == 0x3d then
      (some "Dual Core AMD Opteron(tm)", none, "Processor 8" ++ sprintf02d (45 + 5 * NN))
    else if bti == 0x2e then
      (some "Dual Core AMD Opteron(tm)", none, "Processor 1" ++ sprintf02d (45 + 5 * NN) ++ " HE")
    else if bti == 0x2f then
      (some "Dual Core AMD Opteron(tm)", none, "Processor 1" ++ sprintf02d (45 + 5 * NN) ++ " EE")
    else if bti == 0x32 then
      (some "Dual Core AMD Opteron(tm)", none, "Processor 2" ++ sprintf02d (45 + 5 * NN) ++ " HE")
    else if bti == 0x33 then
      (some "Dual Core AMD Opteron(tm)", none, "Processor 2" ++ sprintf02d (45 + 5 * NN) ++ " EE")
    else if bti == 0x36 then
      (some "Dual Core AMD Opteron(tm)", none, "Processor 8" ++ sprintf02d (45 + 5 * NN) ++ " HE")
    else if bti == 0x37 then
      (some "Dual Core AMD Opteron(tm)", none, "Processor 8" ++ sprintf02d (45 + 5 * NN) ++ " EE")
    else (none, none, "")

/-- The NPT Family 0Fh branch of `decode_amd_model` (Revision Guide 33610,
name string tables 7, 8 and 9 keyed on package type, compute-capability,
brand table index and power limit). -/
def decode_amd_model_npt (stash : CodeStash) :
    Option String × Option String × String :=
  let pwrlmt := (bitExtractLE stash.val_80000001_ebx 6 9 <<< 1) +
    bitExtractLE stash.val_80000001_ebx 14 15
  let bti := bitExtractLE stash.val_80000001_ebx 9 14
  let NN := (bitExtractLE stash.val_80000001_ebx 15 16 <<< 5) +
    bitExtractLE stash.val_80000001_ebx 0 5
  let pkgtype := bitExtractLE stash.val_80000001_eax 4 6
  let cmpcap : Nat := if bitExtractLE stash.val_80000008_ecx 0 8 > 0 then 1 else 0
  let key := PKGTYPE pkgtype + CMPCAP cmpcap + BTI bti + PWRLMT pwrlmt
    if key == PKGTYPE 1 + CMPCAP 0 + BTI 1 + PWRLMT 2 then
      (some "AMD Opteron(tm)", none, "Processor 22" ++ sprintf02d (dec32 NN) ++ " EE")
    else if key == PKGTYPE 1 + CMPCAP 1 + BTI 1 + PWRLMT 2 then
      (some "Dual-Core AMD Opteron(tm)", none, "Processor 22" ++ sprintf02d (dec32 NN) ++ " EE")
    else if key == PKGTYPE 1 + CMPCAP 1 + BTI 0 + PWRLMT 2 then
      (some "Dual-Core AMD Opteron(tm)", none, "Processor 12" ++ sprintf02d (dec32 NN) ++ " EE")
    else if key == PKGTYPE 1 + CMPCAP 1 + BTI 0 + PWRLMT 6 then
      (some "Dual-Core AMD Opteron(tm)", none, "Processor 12" ++ sprintf02d (dec32 NN) ++ " HE")
    else if key == PKGTYPE 1 + CMPCAP 1 + BTI 1 + PWRLMT 6 then
      (some "Dual-Core AMD Opteron(tm)", none, "Processor 22" ++ sprintf02d (dec32 NN) ++ " HE")
    else if key == PKGTYPE 1 + CMPCAP 1 + BTI 1 + PWRLMT 10 then
      (some "Dual-Core AMD Opteron(tm)", none, "Processor 22" ++ sprintf02d (dec32 NN))
    else if key == PKGTYPE 1 + CMPCAP 1 + BTI 1 + PWRLMT 12 then
      (some "Dual-Core AMD Opteron(tm)", none, "Processor 22" ++ sprintf02d (dec32 NN) ++ " SE")
    else if key == PKGTYPE 1 + CMPCAP 1 + BTI 4 + PWRLMT 2 then
      (some "Dual-Core AMD Opteron(tm)", none, "Processor 82" ++ sprintf02d (dec32 NN) ++ " EE")
    else if key == PKGTYPE 1 + CMPCAP 1 + BTI 4 + PWRLMT 6 then
      (some "Dual-Core AMD Opteron(tm)", none, "Processor 82" ++ sprintf02d (dec32 NN) ++ " HE")
    else if key == PKGTYPE 1 + CMPCAP 1 + BTI 4 + PWRLMT 10 then
      (some "Dual-Core AMD Opteron(tm)", none, "Processor 82" ++ sprintf02d (dec32 NN))
    else if key == PKGTYPE 1 + CMPCAP 1 + BTI 4 + PWRLMT 12 then
      (some "Dual-Core AMD Opteron(tm)", none, "Processor 82" ++ sprintf02d (dec32 NN) ++ " SE")
    else if key == PKGTYPE 1 + CMPCAP 1 + BTI 6 + PWRLMT 14 then
      (some "AMD Athlon(tm) 64", none, "FX-" ++ sprintf02d (57 + NN))
    else if key == PKGTYPE 3 + CMPCAP 0 + BTI 1 + PWRLMT 5 then
      (some "AMD Sempron(tm)", none, "Processor LE-1" ++ sprintf02d (dec32 NN) ++ "0")
    else if key == PKGTYPE 3 + CMPCAP 0 + BTI 2 + PWRLMT 6 then
      (some "AMD Athlon(tm)", none, "Processor LE-1" ++ sprintf02d (57 + NN) ++ "0")
    else if key == PKGTYPE 3 + CMPCAP 0 + BTI 3 + PWRLMT 6 then
      (some "AMD Athlon(tm)", none, "Processor 1" ++ sprintf02d (57 + NN) ++ "0B")
    else if key == PKGTYPE 3 + CMPCAP 0 + BTI 4 + PWRLMT 1 || key == PKGTYPE 3 + CMPCAP 0 + BTI 4 + PWRLMT 2 || key == PKGTYPE 3 + CMPCAP 0 + BTI 4 + PWRLMT 3 || key == PKGTYPE 3 + CMPCAP 0 + BTI 4 + PWRLMT 4 || key == PKGTYPE 3 + CMPCAP 0 + BTI 4 + PWRLMT 5 || key == PKGTYPE 3 + CMPCAP 0 + BTI 4 + PWRLMT 8 then
      (some "AMD Athlon(tm) 64", none, "Processor " ++ sprintf02d (15 + cmpcap * 10 + NN) ++ "00+")
    else if key == PKGTYPE 3 + CMPCAP 0 + BTI 5 + PWRLMT 2 then
      (some "AMD Sempron(tm)", none, "Processor " ++ sprintf02d (dec32 NN) ++ "50p")
    else if key == PKGTYPE 3 + CMPCAP 0 + BTI 6 + PWRLMT 4 || key == PKGTYPE 3 + CMPCAP 0 + BTI 6 + PWRLMT 8 then
      (some "AMD Sempron(tm)", none, "Processor " ++ sprintf02d (15 + cmpcap * 10 + NN) ++ "00+")
    else if key == PKGTYPE 3 + CMPCAP 0 + BTI 7 + PWRLMT 1 || key == PKGTYPE 3 + CMPCAP 0 + BTI 7 + PWRLMT 2 then
      (some "AMD Sempron(tm)", none, "Processor " ++ sprintf02d (15 + cmpcap * 10 + NN) ++ "0U")
    else if key == PKGTYPE 3 + CMPCAP 0 + BTI 8 + PWRLMT 2 || key == PKGTYPE 3 + CMPCAP 0 + BTI 8 + PWRLMT 3 then
      (some "AMD Athlon(tm)", none, "Processor " ++ sprintf02d (15 + cmpcap * 10 + NN) ++ "50e")
    else if key == PKGTYPE 3 + CMPCAP 0 + BTI 9 + PWRLMT 2 then
      (some "AMD Athlon(tm) Neo", none, "Processor MV-" ++ sprintf02d (15 + cmpcap * 10 + NN))
    else if key == PKGTYPE 3 + CMPCAP 0 + BTI 12 + PWRLMT 2 then
      (some "AMD Sempron(tm)", none, "Processor 2" ++ sprintf02d (dec32 NN) ++ "U")
    else if key == PKGTYPE 3 + CMPCAP 1 + BTI 1 + PWRLMT 6 then
      (some "Dual-Core AMD Opteron(tm)", none, "Processor 12" ++ sprintf02d (dec32 NN) ++ " HE")
    else if key == PKGTYPE 3 + CMPCAP 1 + BTI 1 + PWRLMT 10 then
      (some "Dual-Core AMD Opteron(tm)", none, "Processor 12" ++ sprintf02d (dec32 NN))
    else if key == PKGTYPE 3 + CMPCAP 1 + BTI 1 + PWRLMT 12 then
      (some "Dual-Core AMD Opteron(tm)", none, "Processor 12" ++ sprintf02d (dec32 NN) ++ " SE")
    else if key == PKGTYPE 3 + CMPCAP 1 + BTI 3 + PWRLMT 3 then
      (some "AMD Athlon(tm) X2 Dual Core", none, "Processor BE-2" ++ sprintf02d (15 + cmpcap * 10 + NN) ++ "0")
    else if key == PKGTYPE 3 + CMPCAP 1 + BTI 4 + PWRLMT 1 || key == PKGTYPE 3 + CMPCAP 1 + BTI 4 + PWRLMT 2 || key == PKGTYPE 3 + CMPCAP 1 + BTI 4 + PWRLMT 6 || key == PKGTYPE 3 + CMPCAP 1 + BTI 4 + PWRLMT 8 || key == PKGTYPE 3 + CMPCAP 1 + BTI 4 + PWRLMT 12 then
      (some "AMD Athlon(tm) 64 X2 Dual Core", none, "Processor " ++ sprintf02d (15 + cmpcap * 10 + NN) ++ "00+")
    else if key == PKGTYPE 3 + CMPCAP 1 + BTI 5 + PWRLMT 12 then
      (some "AMD Athlon(tm) 64", some "Dual Core", "FX-" ++ sprintf02d (57 + NN))
    else if key == PKGTYPE 3 + CMPCAP 1 + BTI 6 + PWRLMT 6 then
      (some "AMD Sempron(tm) Dual Core", none, "Processor " ++ sprintf02d (dec32 NN) ++ "00")
    else if key == PKGTYPE 3 + CMPCAP 1 + BTI 7 + PWRLMT 3 then
      (some "AMD Athlon(tm) Dual Core", none, "Processor " ++ sprintf02d (15 + cmpcap * 10 + NN) ++ "50e")
    else if key == PKGTYPE 3 + CMPCAP 1 + BTI 7 + PWRLMT 6 || key == PKGTYPE 3 + CMPCAP 1 + BTI 7 + PWRLMT 7 then
      (some "AMD Athlon(tm) Dual Core", none, "Processor " ++ sprintf02d (15 + cmpcap * 10 + NN) ++ "00B")
    else if key == PKGTYPE 3 + CMPCAP 1 + BTI 8 + PWRLMT 3 then
      (some "AMD Athlon(tm) Dual Core", none, "Processor " ++ sprintf02d (15 + cmpcap * 10 + NN) ++ "50B")
    else if key == PKGTYPE 3 + CMPCAP 1 + BTI 9 + PWRLMT 1 then
      (some "AMD Athlon(tm) X2 Dual Core", none, "Processor " ++ sprintf02d (15 + cmpcap * 10 + NN) ++ "50e")
    else if key == PKGTYPE 3 + CMPCAP 1 + BTI 10 + PWRLMT 1 || key == PKGTYPE 3 + CMPCAP 1 + BTI 10 + PWRLMT 2 then
      (some "AMD Athlon(tm) Neo X2 Dual Core", none, "Processor " ++ sprintf02d (15 + cmpcap * 10 + NN) ++ "50e")
    else if key == PKGTYPE 3 + CMPCAP 1 + BTI 11 + PWRLMT 0 then
      (some "AMD Turion(tm) Neo X2 Dual Core", none, "Processor L6" ++ sprintf02d (dec32 NN))
    else if key == PKGTYPE 3 + CMPCAP 1 + BTI 12 + PWRLMT 0 then
      (some "AMD Turion(tm) Neo X2 Dual Core", none, "Processor L3" ++ sprintf02d (dec32 NN))
    else if key == PKGTYPE 0 + CMPCAP 0 + BTI 1 + PWRLMT 2 then
      (some "AMD Athlon(tm) 64", none, "Processor " ++ sprintf02d (15 + cmpcap * 10 + NN) ++ "00+")
    else if key == PKGTYPE 0 + CMPCAP 0 + BTI 2 + PWRLMT 12 then
      (some "AMD Turion(tm) 64 Mobile Technology", none, "MK-" ++ sprintf02d (29 + NN))
    else if key == PKGTYPE 0 + CMPCAP 0 + BTI 3 + PWRLMT 1 then
      (some "Mobile AMD Sempron(tm)", none, "Processor " ++ sprintf02d (15 + cmpcap * 10 + NN) ++ "00+")
    else if key == PKGTYPE 0 + CMPCAP 0 + BTI 3 + PWRLMT 6 || key == PKGTYPE 0 + CMPCAP 0 + BTI 3 + PWRLMT 12 then
      (some "Mobile AMD Sempron(tm)", none, "Processor " ++ sprintf02d (26 + NN) ++ "00+")
    else if key == PKGTYPE 0 + CMPCAP 0 + BTI 4 + PWRLMT 2 then
      (some "AMD Sempron(tm)", none, "Processor " ++ sprintf02d (15 + cmpcap * 10 + NN) ++ "00+")
    else if key == PKGTYPE 0 + CMPCAP 0 + BTI 6 + PWRLMT 4 || key == PKGTYPE 0 + CMPCAP 0 + BTI 6 + PWRLMT 6 || key == PKGTYPE 0 + CMPCAP 0 + BTI 6 + PWRLMT 12 then
      (some "AMD Athlon(tm)", none, "Processor TF-" ++ sprintf02d (15 + cmpcap * 10 + NN))
    else if key == PKGTYPE 0 + CMPCAP 0 + BTI 7 + PWRLMT 3 then
      (some "AMD Athlon(tm)", none, "Processor L1" ++ sprintf02d (dec32 NN))
    else if key == PKGTYPE 0 + CMPCAP 1 + BTI 1 + PWRLMT 12 then
      (some "AMD Sempron(tm)", none, "Processor TJ-" ++ sprintf02d (29 + NN))
    else if key == PKGTYPE 0 + CMPCAP 1 + BTI 2 + PWRLMT 12 then
      (some "AMD Turion(tm) 64 X2 Mobile Technology", none, "Processor TL-" ++ sprintf02d (29 + NN))
    else if key == PKGTYPE 0 + CMPCAP 1 + BTI 3 + PWRLMT 4 || key == PKGTYPE 0 + CMPCAP 1 + BTI 3 + PWRLMT 12 then
      (some "AMD Turion(tm) 64 X2 Dual-Core", none, "Processor TK-" ++ sprintf02d (29 + NN))
    else if key == PKGTYPE 0 + CMPCAP 1 + BTI 5 + PWRLMT 4 then
      (some "AMD Turion(tm) 64 X2 Dual Core", none, "Processor " ++ sprintf02d (15 + cmpcap * 10 + NN) ++ "00+")
    else if key == PKGTYPE 0 + CMPCAP 1 + BTI 6 + PWRLMT 2 then
      (some "AMD Turion(tm) X2 Dual Core", none, "Processor L3" ++ sprintf02d (dec32 NN))
    else if key == PKGTYPE 0 + CMPCAP 1 + BTI 7 + PWRLMT 4 then
      (some "AMD Turion(tm) X2 Dual Core", none, "Processor L5" ++ sprintf02d (dec32 NN))
    else (none, none, "")

/-- Assembling the result of the family-10h+ branch of `decode_amd_model`:
`if (s1 != NULL) { p += sprintf(p, "%s%02d", s1, partialmodel); if (s2)
sprintf(p, "%s", s2); }` (with `brand_pre` as set by the String1 table). -/
def amdModelFam10Assemble (partialmodel : Nat)
    (pre_s1 : Option (String × String)) (s2 : Option String) :
    Option String × Option String × String :=
  match pre_s1 with
  | some (pre, s1) =>
    (some pre, none,
      s1 ++ sprintf02d partialmodel ++ (match s2 with | some t => t | none => ""))
  | none => (none, none, "")

/-- The family 10h / 11h / 12h / 14h branch of `decode_amd_model`
(Revision Guides 41322, 41788, 44739, 47534: String1/String2 values keyed
on page, core count and string index, per package type). -/
def decode_amd_model_fam10h (stash : CodeStash) :
    Option String × Option String × String :=
  let str2 := bitExtractLE stash.val_80000001_ebx 0 4
  let partialmodel := bitExtractLE stash.val_80000001_ebx 4 11
  let str1 := bitExtractLE stash.val_80000001_ebx 11 15
  let pg := bitExtractLE stash.val_80000001_ebx 15 16
  let pkgtype := bitExtractLE stash.val_80000001_ebx 28 32
  let nc := bitExtractLE stash.val_80000008_ecx 0 8
  let key1 := PG pg + NC nc + STR1 str1
  let key2 := PG pg + NC nc + STR2 str2
  if stash.val_1_eax &&& 0x0ff00f00 == 0x00100f00 then
    -- Family 10h tables
    let partialmodel := if pkgtype ≥ 2 then dec32 partialmodel else partialmodel
    if pkgtype == 0 then
      let pre_s1 : Option (String × String) :=
        if key1 == PG 0 + NC 3 + STR1 0 then some ("Quad-Core AMD Opteron(tm)", "Processor 83")
        else if key1 == PG 0 + NC 3 + STR1 1 then some ("Quad-Core AMD Opteron(tm)", "Processor 23")
        else if key1 == PG 0 + NC 5 + STR1 0 then some ("Six-Core AMD Opteron(tm)", "Processor 84")
        else if key1 == PG 0 + NC 5 + STR1 1 then some ("Six-Core AMD Opteron(tm)", "Processor 24")
        else if key1 == PG 1 + NC 3 + STR1 1 then some ("Embedded AMD Opteron(tm)", "Processor ")
        else if key1 == PG 1 + NC 5 + STR1 1 then some ("Embedded AMD Opteron(tm)", "Processor ")
        else none
      let s2 : Option String :=
        if key2 == PG 0 + NC 3 + STR2 10 then some " SE"
        else if key2 == PG 0 + NC 3 + STR2 11 then some " HE"
        else if key2 == PG 0 + NC 3 + STR2 12 then some " EE"
        else if key2 == PG 0 + NC 5 + STR2 0 then some " SE"
        else if key2 == PG 0 + NC 5 + STR2 1 then some " HE"
        else if key2 == PG 0 + NC 5 + STR2 2 then some " EE"
        else if key2 == PG 1 + NC 3 + STR2 1 then some "GF HE"
        else if key2 == PG 1 + NC 3 + STR2 2 then some "HF HE"
        else if key2 == PG 1 + NC 3 + STR2 3 then some "VS"
        else if key2 == PG 1 + NC 3 + STR2 4 then some "QS HE"
        else if key2 == PG 1 + NC 3 + STR2 5 then some "NP HE"
        else if key2 == PG 1 + NC 3 + STR2 6 then some "KH HE"
        else if key2 == PG 1 + NC 3 + STR2 7 then some "KS HE"
        else if key2 == PG 1 + NC 5 + STR2 1 then some "QS"
        else if key2 == PG 1 + NC 5 + STR2 2 then some "KS HE"
        else none
      amdModelFam10Assemble partialmodel pre_s1 s2
    else if pkgtype == 1 then
      let pre_s1 : Option (String × String) :=
        if key1 == PG 0 + NC 0 + STR1 2 then some ("AMD Sempron(tm)", "1")
        else if key1 == PG 0 + NC 0 + STR1 1 then some ("AMD Athlon(tm)", "")
        else if key1 == PG 0 + NC 0 + STR1 3 then some ("AMD Athlon(tm) II X2", "2")
        else if key1 == PG 0 + NC 0 + STR1 4 then some ("AMD Athlon(tm) II X2", "B")
        else if key1 == PG 0 + NC 0 + STR1 5 then some ("AMD Athlon(tm) II X2", "")
        else if key1 == PG 0 + NC 0 + STR1 7 then some ("AMD Phenom(tm) II X2", "5")
        else if key1 == PG 0 + NC 0 + STR1 10 then some ("AMD Phenom(tm) II X2", "")
        else if key1 == PG 0 + NC 0 + STR1 11 then some ("AMD Phenom(tm) II X2", "B")
        else if key1 == PG 0 + NC 0 + STR1 12 then some ("AMD Sempron(tm) X2", "1")
        else if key1 == PG 0 + NC 2 + STR1 0 then some ("AMD Phenom(tm)", "")
        else if key1 == PG 0 + NC 2 + STR1 3 then some ("AMD Phenom(tm) II X3", "B")
        else if key1 == PG 0 + NC 2 + STR1 4 then some ("AMD Phenom(tm) II X3", "")
        else if key1 == PG 0 + NC 2 + STR1 7 then some ("AMD Phenom(tm) II X3", "4")
        else if key1 == PG 0 + NC 2 + STR1 8 then some ("AMD Phenom(tm) II X3", "7")
        else if key1 == PG 0 + NC 2 + STR1 10 then some ("AMD Phenom(tm) II X3", "")
        else if key1 == PG 0 + NC 3 + STR1 0 then some ("Quad-Core AMD Opteron(tm)", "Processor 13")
        else if key1 == PG 0 + NC 3 + STR1 2 then some ("AMD Phenom(tm)", "")
        else if key1 == PG 0 + NC 3 + STR1 3 then some ("AMD Phenom(tm) II X4", "9")
        else if key1 == PG 0 + NC 3 + STR1 4 then some ("AMD Phenom(tm) II X4", "8")
        else if key1 == PG 0 + NC 3 + STR1 7 then some ("AMD Phenom(tm) II X4", "B")
        else if key1 == PG 0 + NC 3 + STR1 8 then some ("AMD Phenom(tm) II X4", "")
        else if key1 == PG 0 + NC 3 + STR1 10 then some ("AMD Athlon(tm) II X4", "6")
        else if key1 == PG 0 + NC 3 + STR1 15 then some ("AMD Athlon(tm) II X4", "")
        else if key1 == PG 0 + NC 5 + STR1 0 then some ("AMD Phenom(tm) II X6", "1")
        else if key1 == PG 1 + NC 1 + STR1 1 then some ("AMD Athlon(tm) II XLT V", "")
        else if key1 == PG 1 + NC 1 + STR1 2 then some ("AMD Athlon(tm) II XL V", "")
        else if key1 == PG 1 + NC 3 + STR1 1 then some ("AMD Phenom(tm) II XLT Q", "")
        else if key1 == PG 1 + NC 3 + STR1 2 then some ("AMD Phenom(tm) II X4", "9")
        else if key1 == PG 1 + NC 3 + STR1 3 then some ("AMD Phenom(tm) II X4", "8")
        else if key1 == PG 1 + NC 3 + STR1 4 then some ("AMD Phenom(tm) II X4", "6")
        else none
      let s2 : Option String :=
        if key2 == PG 0 + NC 0 + STR2 10 then some " Processor"
        else if key2 == PG 0 + NC 0 + STR2 11 then some "u Processor"
        else if key2 == PG 0 + NC 1 + STR2 3 then some "50 Dual-Core Processor"
        else if key2 == PG 0 + NC 1 + STR2 6 then some " Processor"
        else if key2 == PG 0 + NC 1 + STR2 7 then some "e Processor"
        else if key2 == PG 0 + NC 1 + STR2 9 then some "0 Processor"
        else if key2 == PG 0 + NC 1 + STR2 10 then some "0e Processor"
        else if key2 == PG 0 + NC 1 + STR2 11 then some "u Processor"
        else if key2 == PG 0 + NC 2 + STR2 0 then some "00 Triple-Core Processor"
        else if key2 == PG 0 + NC 2 + STR2 1 then some "00e Triple-Core Processor"
        else if key2 == PG 0 + NC 2 + STR2 2 then some "00B Triple-Core Processor"
        else if key2 == PG 0 + NC 2 + STR2 3 then some "50 Triple-Core Processor"
        else if key2 == PG 0 + NC 2 + STR2 4 then some "50e Triple-Core Processor"
        else if key2 == PG 0 + NC 2 + STR2 5 then some "50B Triple-Core Processor"
        else if key2 == PG 0 + NC 2 + STR2 6 then some " Processor"
        else if key2 == PG 0 + NC 2 + STR2 7 then some "e Processor"
        else if key2 == PG 0 + NC 2 + STR2 9 then some "0e Processor"
        else if key2 == PG 0 + NC 2 + STR2 10 then some "0 Processor"
        else if key2 == PG 0 + NC 3 + STR2 0 then some "00 Quad-Core Processor"
        else if key2 == PG 0 + NC 3 + STR2 1 then some "00e Quad-Core Processor"
        else if key2 == PG 0 + NC 3 + STR2 2 then some "00B Quad-Core Processor"
        else if key2 == PG 0 + NC 3 + STR2 3 then some "50 Quad-Core Processor"
        else if key2 == PG 0 + NC 3 + STR2 4 then some "50e Quad-Core Processor"
        else if key2 == PG 0 + NC 3 + STR2 5 then some "50B Quad-Core Processor"
        else if key2 == PG 0 + NC 3 + STR2 6 then some " Processor"
        else if key2 == PG 0 + NC 3 + STR2 7 then some "e Processor"
        else if key2 == PG 0 + NC 3 + STR2 9 then some "0e Processor"
        else if key2 == PG 0 + NC 3 + STR2 14 then some "0 Processor"
        else if key2 == PG 0 + NC 5 + STR2 0 then some "5T Processor"
        else if key2 == PG 0 + NC 5 + STR2 1 then some "0T Processor"
        else if key2 == PG 1 + NC 1 + STR2 1 then some "L Processor"
        else if key2 == PG 1 + NC 1 + STR2 2 then some "C Processor"
        else if key2 == PG 1 + NC 3 + STR2 1 then some "L Processor"
        else if key2 == PG 1 + NC 3 + STR2 4 then some "T Processor"
        else none
      amdModelFam10Assemble partialmodel pre_s1 s2
    else if pkgtype == 2 then
      let pre_s1 : Option (String × String) :=
        if key1 == PG 0 + NC 0 + STR1 0 then some ("AMD Sempron(tm)", "M1")
        else if key1 == PG 0 + NC 0 + STR1 1 then some ("AMD", "V")
        else if key1 == PG 0 + NC 1 + STR1 0 then some ("AMD Turion(tm) II Ultra Dual-Core Mobile", "M6")
        else if key1 == PG 0 + NC 1 + STR1 1 then some ("AMD Turion(tm) II Dual-Core Mobile", "M5")
        else if key1 == PG 0 + NC 1 + STR1 2 then some ("AMD Athlon(tm) II Dual-Core", "M3")
        else if key1 == PG 0 + NC 1 + STR1 3 then some ("AMD Turion(tm) II", "P")
        else if key1 == PG 0 + NC 1 + STR1 4 then some ("AMD Athlon(tm) II", "P")
        else if key1 == PG 0 + NC 1 + STR1 5 then some ("AMD Phenom(tm) II", "X")
        else if key1 == PG 0 + NC 1 + STR1 6 then some ("AMD Phenom(tm) II", "N")
        else if key1 == PG 0 + NC 1 + STR1 7 then some ("AMD Turion(tm) II", "N")
        else if key1 == PG 0 + NC 1 + STR1 8 then some ("AMD Athlon(tm) II", "N")
        else if key1 == PG 0 + NC 2 + STR1 2 then some ("AMD Phenom(tm) II", "P")
        else if key1 == PG 0 + NC 2 + STR1 3 then some ("AMD Phenom(tm) II", "N")
        else if key1 == PG 0 + NC 3 + STR1 1 then some ("AMD Phenom(tm) II", "P")
        else if key1 == PG 0 + NC 3 + STR1 2 then some ("AMD Phenom(tm) II", "X")
        else if key1 == PG 0 + NC 3 + STR1 3 then some ("AMD Phenom(tm) II", "N")
        else none
      let s2 : Option String :=
        if key2 == PG 0 + NC 0 + STR2 1 then some "0 Processor"
        else if key2 == PG 0 + NC 1 + STR2 2 then some "0 Dual-Core Processor"
        else if key2 == PG 0 + NC 2 + STR2 2 then some "0 Triple-Core Processor"
        else if key2 == PG 0 + NC 3 + STR2 1 then some "0 Quad-Core Processor"
        else none
      amdModelFam10Assemble partialmodel pre_s1 s2
    else if pkgtype == 3 then
      let pre_s1 : Option (String × String) :=
        if key1 == PG 0 + NC 7 + STR1 0 then some ("AMD Opteron(tm)", "Processor 61")
        else if key1 == PG 0 + NC 11 + STR1 0 then some ("AMD Opteron(tm)", "Processor 61")
        else if key1 == PG 1 + NC 7 + STR1 1 then some ("Embedded AMD Opteron(tm)", "Processor ")
        else none
      let s2 : Option String :=
        if key2 == PG 0 + NC 7 + STR1 0 then some " HE"
        else if key2 == PG 0 + NC 7 + STR1 1 then some " SE"
        else if key2 == PG 0 + NC 11 + STR1 0 then some " HE"
        else if key2 == PG 0 + NC 11 + STR1 1 then some " SE"
        else if key2 == PG 1 + NC 7 + STR1 1 then some "QS"
        else if key2 == PG 1 + NC 7 + STR1 2 then some "KS"
        else none
      amdModelFam10Assemble partialmodel pre_s1 s2
    else if pkgtype == 4 then
      let pre_s1 : Option (String × String) :=
        if key1 == PG 0 + NC 0 + STR1 1 then some ("AMD Athlon(tm) II Neo", "K")
        else if key1 == PG 0 + NC 0 + STR1 2 then some ("AMD", "V")
        else if key1 == PG 0 + NC 0 + STR1 3 then some ("AMD Athlon(tm) II Neo", "R")
        else if key1 == PG 0 + NC 1 + STR1 1 then some ("AMD Turion(tm) II Neo", "K")
        else if key1 == PG 0 + NC 1 + STR1 2 then some ("AMD Athlon(tm) II Neo", "K")
        else if key1 == PG 0 + NC 1 + STR1 3 then some ("AMD", "V")
        else if key1 == PG 0 + NC 1 + STR1 4 then some ("AMD Turion(tm) II Neo", "N")
        else if key1 == PG 0 + NC 1 + STR1 5 then some ("AMD Athlon(tm) II Neo", "N")
        else none
      let s2 : Option String :=
        if key2 == PG 0 + NC 0 + STR1 1 then some "5 Processor"
        else if key2 == PG 0 + NC 0 + STR1 2 then some "L Processor"
        else if key2 == PG 0 + NC 1 + STR1 1 then some "5 Dual-Core Processor"
        else if key2 == PG 0 + NC 1 + STR1 2 then some "L Dual-Core Processor"
        else none
      amdModelFam10Assemble partialmodel pre_s1 s2
    else if pkgtype == 5 then
      let pre_s1 : Option (String × String) :=
        if key1 == PG 0 + NC 3 + STR1 0 then some ("AMD Opteron(tm)", "41")
        else if key1 == PG 0 + NC 5 + STR1 0 then some ("AMD Opteron(tm)", "41")
        else if key1 == PG 1 + NC 3 + STR1 1 then some ("Embedded AMD Opteron(tm)", " ")
        else if key1 == PG 1 + NC 5 + STR1 1 then some ("Embedded AMD Opteron(tm)", " ")
        else none
      let s2 : Option String :=
        if key2 == PG 0 + NC 3 + STR1 0 then some " HE"
        else if key2 == PG 0 + NC 3 + STR1 1 then some " EE"
        else if key2 == PG 0 + NC 5 + STR1 0 then some " HE"
        else if key2 == PG 0 + NC 5 + STR1 1 then some " EE"
        else if key2 == PG 1 + NC 3 + STR1 1 then some "QS HE"
        else if key2 == PG 1 + NC 3 + STR1 2 then some "LE HE"
        else if key2 == PG 1 + NC 3 + STR1 3 then some "CL EE"
        else if key2 == PG 1 + NC 5 + STR1 1 then some "KX HE"
        else if key2 == PG 1 + NC 5 + STR1 2 then some "GL EE"
        else none
      amdModelFam10Assemble partialmodel pre_s1 s2
    else (none, none, "")
  else if stash.val_1_eax &&& 0x0ff00f00 == 0x00200f00 then
    -- Family 11h tables
    if pkgtype == 2 then
      let pre_s1 : Option (String × String) :=
        if key1 == PG 0 + NC 0 + STR1 0 then some ("AMD Sempron(tm)", "SI-")
        else if key1 == PG 0 + NC 0 + STR1 1 then some ("AMD Athlon(tm)", "QI-")
        else if key1 == PG 0 + NC 1 + STR1 0 then some ("AMD Turion(tm) X2 Ultra Dual-Core Mobile", "ZM-")
        else if key1 == PG 0 + NC 1 + STR1 1 then some ("AMD Turion(tm) X2 Dual-Core Mobile", "RM-")
        else if key1 == PG 0 + NC 1 + STR1 2 then some ("AMD Athlon(tm) X2 Dual-Core", "QL-")
        else if key1 == PG 0 + NC 1 + STR1 3 then some ("AMD Sempron(tm) X2 Dual-Core", "NI-")
        else none
      let s2 : Option String :=
        if key2 == PG 0 + NC 0 + STR2 0 then some ""
        else if key2 == PG 0 + NC 1 + STR2 0 then some ""
        else none
      amdModelFam10Assemble partialmodel pre_s1 s2
    else (none, none, "")
  else if stash.val_1_eax &&& 0x0ff00f00 == 0x00300f00 then
    -- Family 12h tables
    let partialmodel := dec32 partialmodel
    if pkgtype == 1 then
      let pre_s1 : Option (String × String) :=
        if key1 == PG 0 + NC 1 + STR1 3 then some ("AMD", "A4-33")
        else if key1 == PG 0 + NC 1 + STR1 5 then some ("AMD", "E2-30")
        else if key1 == PG 0 + NC 3 + STR1 1 then some ("AMD", "A8-35")
        else if key1 == PG 0 + NC 3 + STR1 3 then some ("AMD", "A6-34")
        else none
      let s2 : Option String :=
        if key2 == PG 0 + NC 1 + STR2 1 then some "M"
        else if key2 == PG 0 + NC 1 + STR2 2 then some "MX"
        else if key2 == PG 0 + NC 3 + STR2 1 then some "M"
        else if key2 == PG 0 + NC 3 + STR2 2 then some "MX"
        else none
      amdModelFam10Assemble partialmodel pre_s1 s2
    else if pkgtype == 2 then
      let pre_s1 : Option (String × String) :=
        if key1 == PG 0 + NC 1 + STR1 1 then some ("AMD", "A4-33")
        else if key1 == PG 0 + NC 1 + STR1 2 then some ("AMD", "E2-32")
        else if key1 == PG 0 + NC 1 + STR1 4 then some ("AMD Athlon(tm) II X2", "2")
        else if key1 == PG 0 + NC 1 + STR1 5 then some ("AMD", "A4-34")
        else if key1 == PG 0 + NC 1 + STR1 12 then some ("AMD Sempron(tm) X2", "1")
        else if key1 == PG 0 + NC 2 + STR1 5 then some ("AMD", "A6-35")
        else if key1 == PG 0 + NC 3 + STR1 5 then some ("AMD", "A8-38")
        else if key1 == PG 0 + NC 3 + STR1 6 then some ("AMD", "A6-36")
        else if key1 == PG 0 + NC 3 + STR1 13 then some ("AMD Athlon(tm) II X4", "6")
        else none
      let s2 : Option String :=
        if key2 == PG 0 + NC 1 + STR2 1 then some " APU with Radeon(tm) HD Graphics"
        else if key2 == PG 0 + NC 1 + STR2 2 then some " Dual-Core Processor"
        else if key2 == PG 0 + NC 2 + STR2 1 then some " APU with Radeon(tm) HD Graphics"
        else if key2 == PG 0 + NC 3 + STR2 1 then some " APU with Radeon(tm) HD Graphics"
        else if key2 == PG 0 + NC 3 + STR2 3 then some " Quad-Core Processor"
        else none
      amdModelFam10Assemble partialmodel pre_s1 s2
    else (none, none, "")
  else if stash.val_1_eax &&& 0x0ff00f00 == 0x00500f00 then
    -- Family 14h Models 00h-0Fh tables
    let partialmodel := dec32 partialmodel
    if pkgtype == 0 then
      let pre_s1 : Option (String × String) :=
        if key1 == PG 0 + NC 0 + STR1 1 then some ("AMD", "C-")
        else if key1 == PG 0 + NC 0 + STR1 2 then some ("AMD", "E-")
        else if key1 == PG 0 + NC 0 + STR1 4 then some ("AMD", "G-T")
        else if key1 == PG 0 + NC 1 + STR1 1 then some ("AMD", "C-")
        else if key1 == PG 0 + NC 1 + STR1 2 then some ("AMD", "E-")
        else if key1 == PG 0 + NC 1 + STR1 3 then some ("AMD", "Z-")
        else if key1 == PG 0 + NC 1 + STR1 4 then some ("AMD", "G-T")
        else if key1 == PG 0 + NC 1 + STR1 5 then some ("AMD", "E1-1")
        else if key1 == PG 0 + NC 1 + STR1 6 then some ("AMD", "E2-1")
        else if key1 == PG 0 + NC 1 + STR1 7 then some ("AMD", "E2-2")
        else none
      let s2 : Option String :=
        if key2 == PG 0 + NC 0 + STR2 1 then some ""
        else if key2 == PG 0 + NC 0 + STR2 2 then some "0"
        else if key2 == PG 0 + NC 0 + STR2 3 then some "5"
        else if key2 == PG 0 + NC 0 + STR2 4 then some "0x"
        else if key2 == PG 0 + NC 0 + STR2 5 then some "5x"
        else if key2 == PG 0 + NC 0 + STR2 6 then some "x"
        else if key2 == PG 0 + NC 0 + STR2 7 then some "L"
        else if key2 == PG 0 + NC 0 + STR2 8 then some "N"
        else if key2 == PG 0 + NC 0 + STR2 9 then some "R"
        else if key2 == PG 0 + NC 0 + STR2 10 then some "0"
        else if key2 == PG 0 + NC 0 + STR2 11 then some "5"
        else if key2 == PG 0 + NC 0 + STR2 12 then some ""
        else if key2 == PG 0 + NC 0 + STR2 13 then some "0D"
        else if key2 == PG 0 + NC 1 + STR2 1 then some ""
        else if key2 == PG 0 + NC 1 + STR2 2 then some "0"
        else if key2 == PG 0 + NC 1 + STR2 3 then some "5"
        else if key2 == PG 0 + NC 1 + STR2 4 then some "0x"
        else if key2 == PG 0 + NC 1 + STR2 5 then some "5x"
        else if key2 == PG 0 + NC 1 + STR2 6 then some "x"
        else if key2 == PG 0 + NC 1 + STR2 7 then some "L"
        else if key2 == PG 0 + NC 1 + STR2 8 then some "N"
        else if key2 == PG 0 + NC 1 + STR2 9 then some "0"
        else if key2 == PG 0 + NC 1 + STR2 10 then some "5"
        else if key2 == PG 0 + NC 1 + STR2 11 then some ""
        else if key2 == PG 0 + NC 1 + STR2 12 then some "E"
        else if key2 == PG 0 + NC 1 + STR2 13 then some "0D"
        else none
      amdModelFam10Assemble partialmodel pre_s1 s2
    else (none, none, "")
  else (none, none, "")

/-- `decode_amd_model(stash, ...)` of cpuid.c: dispatch on the family range
(`stash == NULL` yields nothing). -/
def decode_amd_model (st : Option CodeStash) :
    Option String × Option String × String :=
  match st with
  | none => (none, none, "")
  | some stash =>
    if stash.val_1_eax &&& 0x0ff00f00 == 0x00000f00 &&
       stash.val_1_eax &&& 0x000f00f0 < 0x00040000 then
      decode_amd_model_legacy stash
    else if stash.val_1_eax &&& 0x0ff00f00 == 0x00000f00 &&
       stash.val_1_eax &&& 0x000f00f0 ≥ 0x00040000 then
      decode_amd_model_npt stash
    else if stash.val_1_eax &&& 0x0ff00f00 == 0x00100f00 ||
        stash.val_1_eax &&& 0x0ff00f00 == 0x00200f00 ||
        stash.val_1_eax &&& 0x0ff00f00 == 0x00300f00 ||
        stash.val_1_eax &&& 0x0ff00f00 == 0x00500f00 then
      decode_amd_model_fam10h stash
    else (none, none, "")

/-- The ordered rule table of `decode_synth_amd` of cpuid.c. -/
def amdTable : List SynthRule := amdRules

/-- `decode_synth_amd(val, stash)` of cpuid.c: the first matching rule of the
AMD chain, with the legacy reconstructor's processor number appended after a
space whenever that number is non-empty. -/
def decode_synth_amd (val : Nat) (st : Option CodeStash) : Option String :=
  (synthFind amdTable val st).map fun base =>
    let proc := (decode_amd_model st).2.2
    if proc != "" then base ++ " " ++ proc else base

/-- `decode_override_brand(stash)` of cpuid.c: for an AMD/Hygon brand string
containing "model unknown", synthesize the override brand
`"{brand_pre} {proc}[ {brand_post}]"` from the reconstructor's tables. -/
def decode_override_brand (stash : CodeStash) : CodeStash :=
  if (stash.vendor == .amd || stash.vendor == .hygon) &&
      strstrC stash.brand "model unknown" then
    match decode_amd_model (some stash) with
    | (some brand_pre, brand_post, proc) =>
      { stash with override_brand :=
          brand_pre ++ " " ++ proc ++
            (match brand_post with | some p => " " ++ p | none => "") }
    | (none, _, _) => stash
  else stash


/-! ### `decode_mp_synth`: the topology synthesizer -/

/-- One iteration of the leaf-0x1f scan of `decode_mp_synth`:
`GET_V2_TOPO_LEVEL(ecx)` selects whether `GET_V2_TOPO_PROCESSORS(ebx)` is
the SMT-level (hyperthread) or the core-level count. -/
def intel1fStep (mp : MpData) (ecx ebx : Nat) : MpData :=
  if bitExtractLE ecx 8 16 == 1 then
    { mp with hyperthreads := bitExtractLE ebx 0 16 }
  else if bitExtractLE ecx 8 16 == 2 then
    { mp with cores := bitExtractLE ebx 0 16 }
  else mp

/-- `decode_mp_synth(stash)` of cpuid.c: derive `stash->mp` (method tag,
core count, hyperthread count) from whichever topology leaves were seen.
The leaf-0x1f loop over `LENGTH(stash->val_1f_ecx) = 6` sub-levels is
unrolled. -/
def decode_mp_synth (stash : CodeStash) : CodeStash :=
  match stash.vendor with
  | .intel =>
    if stash.saw_1f then
      let mp := { stash.mp with method := some "Intel leaf 0x1f" }
      let mp := intel1fStep mp stash.val_1f_ecx_0 stash.val_1f_ebx_0
      let mp := intel1fStep mp stash.val_1f_ecx_1 stash.val_1f_ebx_1
      let mp := intel1fStep mp stash.val_1f_ecx_2 stash.val_1f_ebx_2
      let mp := intel1fStep mp stash.val_1f_ecx_3 stash.val_1f_ebx_3
      let mp := intel1fStep mp stash.val_1f_ecx_4 stash.val_1f_ebx_4
      let mp := intel1fStep mp stash.val_1f_ecx_5 stash.val_1f_ebx_5
      { stash with mp := mp }
    else if stash.saw_b then
      let ht := bitExtractLE stash.val_b_ebx_0 0 16
      let tc := bitExtractLE stash.val_b_ebx_1 0 16
      let ht := if ht == 0 then 1 else ht
      { stash with mp :=
          { method := some "Intel leaf 0xb", cores := tc / ht,
            hyperthreads := ht } }
    else if stash.saw_4 then
      let tc := bitExtractLE stash.val_1_ebx 16 24
      if stash.val_4_eax &&& 0x1f != 0 then
        let c := bitExtractLE stash.val_4_eax 26 32 + 1
        { stash with mp :=
            { method := some "Intel leaf 1/4", cores := c,
              hyperthreads := tc / c } }
      else
        -- Workaround for older dumps with incomplete leaf 4 data
        let c := tc / 2
        { stash with mp :=
            { method := some "Intel leaf 1/4 (zero fallback)", cores := c,
              hyperthreads := tc / c } }
    else
      { stash with mp :=
          { method := some "Intel leaf 1", cores := 1,
            hyperthreads :=
              if bitExtractLE stash.val_1_edx 28 29 != 0 then
                let tc := bitExtractLE stash.val_1_ebx 16 24
                if tc ≥ 2 then tc else 2
              else 1 } }
  | .amd | .hygon =>
    if bitExtractLE stash.val_1_edx 28 29 != 0 then
      let tc := bitExtractLE stash.val_1_ebx 16 24
      let size := bitExtractLE stash.val_80000008_ecx 0 4
      let c :=
        if size != 0 then
          (bitExtractLE stash.val_80000008_ecx 0 8 &&& ((1 <<< size) - 1)) + 1
        else
          bitExtractLE stash.val_80000008_ecx 0 8 + 1
      if (if tc == c then 1 else 0) == bitExtractLE stash.val_80000001_ecx 1 2 then
        { stash with mp :=
            { method := some (if stash.vendor == .amd then "AMD" else "Hygon"),
              cores := if c > 1 then c else 1,
              hyperthreads :=
                if c > 1 then tc / c else if tc ≥ 2 then tc else 2 } }
      else
        -- the CmpLegacy cross-check failed: no topology facts
        stash
    else
      { stash with mp :=
          { method := some (if stash.vendor == .amd then "AMD" else "Hygon"),
            cores := 1, hyperthreads := 1 } }
  | _ =>
    if bitExtractLE stash.val_1_edx 28 29 == 0 then
      { stash with mp :=
          { method := some "Generic leaf 1 no multi-threading",
            cores := 1, hyperthreads := 1 } }
    else
      stash

/-! ### `bits_needed`: the APIC field-width computation -/

/-- The `bsr %ax,%cx` of `bits_needed`: the index of the highest set bit of
the 16-bit operand (only consulted when the operand is non-zero). -/
def bsr16 (w : Nat) : Nat :=
  (List.range 16).foldl (fun acc i => if (w >>> i) &&& 1 == 1 then i else acc) 0

/-- `bits_needed(v)` of cpuid.c.  The inline assembly decrements the 64-bit
register holding `v` (wrapping), takes `bsr` of the **16-bit** low word of
the result, and returns 0 when that word is zero, else the bit index plus
one.  (The 32-bit build decrements a 32-bit register instead; the low
16 bits, and hence the result, agree.) -/
def bits_needed (v : Nat) : Nat :=
  let w := ((v + 18446744073709551615) % 18446744073709551616) % 65536
  if w == 0 then 0 else bsr16 w + 1

/-- `ceil(log2(n))` as the specification states it (Mathlib's ceiling
logarithm), for comparison with `bits_needed`. -/
def ceilLog2 (n : Nat) : Nat := Nat.clog 2 n

/-! ### The cache-classification flag setters -/

/-- The first `switch` of `stash_intel_cache` of cpuid.c (the
associativity/size class descriptors). -/
def sicSwitch1 (stash : CodeStash) (value : Nat) : CodeStash :=
  if value == 0x42 then { stash with L2_4w_256K := true }
  else if value == 0x43 then { stash with L2_4w_512K := true }
  else if value == 0x44 then { stash with L2_4w_1Mor2M := true }
  else if value == 0x45 then { stash with L2_4w_1Mor2M := true }
  else if value == 0x80 then { stash with L2_8w_512K := true }
  else if value == 0x82 then { stash with L2_8w_256K := true }
  else if value == 0x83 then { stash with L2_8w_512K := true }
  else if value == 0x84 then { stash with L2_8w_1Mor2M := true }
  else if value == 0x85 then { stash with L2_8w_1Mor2M := true }
  else stash

/-- The second `switch` of `stash_intel_cache` of cpuid.c (L2 2M). -/
def sicSwitch2 (stash : CodeStash) (value : Nat) : CodeStash :=
  if value == 0x45 || value == 0x7d || value == 0x85 then
    { stash with L2_2M := true }
  else stash

/-- The third `switch` of `stash_intel_cache` of cpuid.c (L2 6M). -/
def sicSwitch3 (stash : CodeStash) (value : Nat) : CodeStash :=
  if value == 0x4e then { stash with L2_6M := true } else stash

/-- The fourth `switch` of `stash_intel_cache` of cpuid.c (L3). -/
def sicSwitch4 (stash : CodeStash) (value : Nat) : CodeStash :=
  if value == 0x22 || value == 0x23 || value == 0x25 || value == 0x29 ||
     value == 0x46 || value == 0x47 || value == 0x49 || value == 0x4a ||
     value == 0x4b || value == 0x4c || value == 0x4d || value == 0x88 ||
     value == 0x89 || value == 0x8a || value == 0x8d || value == 0xd0 ||
     value == 0xd1 || value == 0xd2 || value == 0xd6 || value == 0xd7 ||
     value == 0xd8 || value == 0xdc || value == 0xdd || value == 0xde ||
     value == 0xe2 || value == 0xe3 || value == 0xe4 || value == 0xea ||
     value == 0xeb || value == 0xec then
    { stash with L3 := true }
  else stash

/-- The fifth `switch` of `stash_intel_cache` of cpuid.c (L2 256K). -/
def sicSwitch5 (stash : CodeStash) (value : Nat) : CodeStash :=
  if value == 0x21 || value == 0x3c || value == 0x42 || value == 0x7a ||
     value == 0x7e || value == 0x82 then
    { stash with L2_256K := true }
  else stash

/-- The sixth `switch` of `stash_intel_cache` of cpuid.c (L2 512K). -/
def sicSwitch6 (stash : CodeStash) (value : Nat) : CodeStash :=
  if value == 0x3e || value == 0x43 || value == 0x7b || value == 0x7f ||
     value == 0x83 || value == 0x86 then
    { stash with L2_512K := true }
  else stash

/-- `stash_intel_cache(stash, value)` of cpuid.c: fold one leaf-2 cache
descriptor byte into the stash's cache-classification flags: the six
sequential `switch` statements of the source, applied in order (a `switch`
that hits only ever sets its flag to TRUE). -/
def stash_intel_cache (stash : CodeStash) (value : Nat) : CodeStash :=
  sicSwitch6 (sicSwitch5 (sicSwitch4 (sicSwitch3 (sicSwitch2
    (sicSwitch1 stash value) value) value) value) value) value

/-- The stash update of `print_80000006_ecx(value, stash)` of cpuid.c: the
flat L2 size/associativity fields of leaf 0x80000006 ECX set the
4-way 256K / 4-way 512K flags. -/
def stash_80000006_ecx (stash : CodeStash) (value : Nat) : CodeStash :=
  if (value >>> 12) &&& 0xf == 4 && value >>> 16 == 256 then
    { stash with L2_4w_256K := true }
  else if (value >>> 12) &&& 0xf == 4 && value >>> 16 == 512 then
    { stash with L2_4w_512K := true }
  else stash

/-- One cache observation folded into the stash during a decode pass: a
leaf-2 descriptor byte (as fed byte-by-byte to `stash_intel_cache` by
`print_2`), or a leaf 0x80000006 ECX word.  These are the only places in
cpuid.c that write the cache-classification flags. -/
inductive CacheObs where
  | leaf2Byte (value : Nat)
  | leaf80000006Ecx (value : Nat)

/-- Fold one cache observation into the stash. -/
def applyCacheObs (s : CodeStash) (o : CacheObs) : CodeStash :=
  match o with
  | .leaf2Byte v => stash_intel_cache s v
  | .leaf80000006Ecx v => stash_80000006_ecx s v

/-- The eleven boolean cache-classification flags of the stash, as
projections. -/
def cacheFlagList : List (CodeStash → Bool) :=
  [(·.L2_4w_256K), (·.L2_4w_512K), (·.L2_4w_1Mor2M),
   (·.L2_8w_256K), (·.L2_8w_512K), (·.L2_8w_1Mor2M),
   (·.L2_2M), (·.L2_6M), (·.L3), (·.L2_256K), (·.L2_512K)]


/-! ### Concrete stashes used by witnesses and counterexamples -/

/-- An Intel stash with leaf 0x1f data (SMT level: 2 threads; core level:
8 processors) and deliberately conflicting leaf 0xb data (4 and 44). -/
def mpLeaf1fStash : CodeStash :=
  { nilStash with
      vendor := .intel, saw_1f := true, saw_b := true,
      val_1f_ecx_0 := 0x100, val_1f_ebx_0 := 2,
      val_1f_ecx_1 := 0x200, val_1f_ebx_1 := 8,
      val_b_ebx_0 := 4, val_b_ebx_1 := 44 }

/-- The same leaf 0x1f records as `mpLeaf1fStash` with no leaf 0xb data and
different leaf-1 data. -/
def mpLeaf1fOnlyStash : CodeStash :=
  { nilStash with
      vendor := .intel, saw_1f := true,
      val_1f_ecx_0 := 0x100, val_1f_ebx_0 := 2,
      val_1f_ecx_1 := 0x200, val_1f_ebx_1 := 8,
      val_1_ebx := 0x123456 }

/-- An Intel stash whose leaf 0xb subleaf-0 processor count is 0 and whose
subleaf-1 total is 7. -/
def mpLeafBStash : CodeStash :=
  { nilStash with vendor := .intel, saw_b := true, val_b_ebx_1 := 7 }

/-- An Intel stash with leaf 4 captured but entirely zero, and a leaf-1
logical processor count of 8. -/
def mpLeaf14Stash : CodeStash :=
  { nilStash with vendor := .intel, saw_4 := true, val_1_ebx := 0x80000 }



/-- An Intel stash carrying no brand facts at all: no disambiguation
predicate holds on it. -/
def ivyPlainStash : CodeStash := { nilStash with vendor := .intel }

/-- An Intel stash branded as a mobile Core part: the `Mc` predicate holds. -/
def ivyMobileCoreStash : CodeStash :=
  { nilStash with
      vendor := .intel
      br := { nilStash.br with mobile := true, core := true } }

/-- A synthetic two-rule table with deliberately overlapping keys: a
stepping-specific rule above the family-model catch-all for the same
family/model, as the specification's first-match-wins test suggests. -/
def fmwTable : List SynthRule :=
  [SynthRule.mk (SynthCode.FMS 0 6 3 10 9) "stepping-specific",
   SynthRule.mk (SynthCode.FM 0 6 3 10) "family-model catch-all"]



/-- An AMD stash with the legacy Family 0Fh signature, a brand-table byte
selecting bti 4 / NN 4, and a "model unknown" brand string. -/
def amdLegacyStash : CodeStash :=
  { nilStash with
      vendor := .amd, val_1_eax := 0xF00, val_1_ebx := 0x24,
      brand := "AMD model unknown" }

/-- An AMD stash with the legacy Family 0Fh signature whose extended brand
field selects the Athlon 64 FX dual-core entry (bti 6, NN 1). -/
def amdFxStash : CodeStash :=
  { nilStash with
      vendor := .amd, val_1_eax := 0xF00, val_80000001_ebx := 0x181,
      brand := "AMD model unknown" }

/-- An AMD stash whose brand says "model unknown" but whose family-6
signature matches none of the reconstructor's table branches. -/
def amdNoTableStash : CodeStash :=
  { nilStash with
      vendor := .amd, val_1_eax := 0x600, brand := "model unknown" }


/-! Per-switch projection facts for `stash_intel_cache`: each switch only
sets its own flag (to TRUE) and leaves every other flag alone. -/

theorem sicSwitch1_L2_4w_256K (s : CodeStash) (v : Nat) :
    (sicSwitch1 s v).L2_4w_256K = (s.L2_4w_256K || (v == 0x42)) := by
  unfold sicSwitch1; split_ifs <;> simp_all

theorem sicSwitch1_L2_4w_512K (s : CodeStash) (v : Nat) :
    (sicSwitch1 s v).L2_4w_512K = (s.L2_4w_512K || (v == 0x43)) := by
  unfold sicSwitch1; split_ifs <;> simp_all

theorem sicSwitch1_L2_4w_1Mor2M (s : CodeStash) (v : Nat) :
    (sicSwitch1 s v).L2_4w_1Mor2M = (s.L2_4w_1Mor2M || (v == 0x44 || v == 0x45)) := by
  unfold sicSwitch1; split_ifs <;> simp_all

theorem sicSwitch1_L2_8w_256K (s : CodeStash) (v : Nat) :
    (sicSwitch1 s v).L2_8w_256K = (s.L2_8w_256K || (v == 0x82)) := by
  unfold sicSwitch1; split_ifs <;> simp_all

theorem sicSwitch1_L2_8w_512K (s : CodeStash) (v : Nat) :
    (sicSwitch1 s v).L2_8w_512K = (s.L2_8w_512K || (v == 0x80 || v == 0x83)) := by
  unfold sicSwitch1; split_ifs <;> simp_all

theorem sicSwitch1_L2_8w_1Mor2M (s : CodeStash) (v : Nat) :
    (sicSwitch1 s v).L2_8w_1Mor2M = (s.L2_8w_1Mor2M || (v == 0x84 || v == 0x85)) := by
  unfold sicSwitch1; split_ifs <;> simp_all

theorem sicSwitch1_L2_2M (s : CodeStash) (v : Nat) :
    (sicSwitch1 s v).L2_2M = s.L2_2M := by
  unfold sicSwitch1; split_ifs <;> rfl

theorem sicSwitch1_L2_6M (s : CodeStash) (v : Nat) :
    (sicSwitch1 s v).L2_6M = s.L2_6M := by
  unfold sicSwitch1; split_ifs <;> rfl

theorem sicSwitch1_L3 (s : CodeStash) (v : Nat) :
    (sicSwitch1 s v).L3 = s.L3 := by
  unfold sicSwitch1; split_ifs <;> rfl

theorem sicSwitch1_L2_256K (s : CodeStash) (v : Nat) :
    (sicSwitch1 s v).L2_256K = s.L2_256K := by
  unfold sicSwitch1; split_ifs <;> rfl

theorem sicSwitch1_L2_512K (s : CodeStash) (v : Nat) :
    (sicSwitch1 s v).L2_512K = s.L2_512K := by
  unfold sicSwitch1; split_ifs <;> rfl

theorem sicSwitch2_L2_4w_256K (s : CodeStash) (v : Nat) :
    (sicSwitch2 s v).L2_4w_256K = s.L2_4w_256K := by
  unfold sicSwitch2; split_ifs <;> rfl

theorem sicSwitch2_L2_4w_512K (s : CodeStash) (v : Nat) :
    (sicSwitch2 s v).L2_4w_512K = s.L2_4w_512K := by
  unfold sicSwitch2; split_ifs <;> rfl

theorem sicSwitch2_L2_4w_1Mor2M (s : CodeStash) (v : Nat) :
    (sicSwitch2 s v).L2_4w_1Mor2M = s.L2_4w_1Mor2M := by
  unfold sicSwitch2; split_ifs <;> rfl

theorem sicSwitch2_L2_8w_256K (s : CodeStash) (v : Nat) :
    (sicSwitch2 s v).L2_8w_256K = s.L2_8w_256K := by
  unfold sicSwitch2; split_ifs <;> rfl

theorem sicSwitch2_L2_8w_512K (s : CodeStash) (v : Nat) :
    (sicSwitch2 s v).L2_8w_512K = s.L2_8w_512K := by
  unfold sicSwitch2; split_ifs <;> rfl

theorem sicSwitch2_L2_8w_1Mor2M (s : CodeStash) (v : Nat) :
    (sicSwitch2 s v).L2_8w_1Mor2M = s.L2_8w_1Mor2M := by
  unfold sicSwitch2; split_ifs <;> rfl

theorem sicSwitch2_L2_2M (s : CodeStash) (v : Nat) :
    (sicSwitch2 s v).L2_2M = (s.L2_2M || (v == 0x45 || v == 0x7d || v == 0x85)) := by
  unfold sicSwitch2; split_ifs <;> simp_all

theorem sicSwitch2_L2_6M (s : CodeStash) (v : Nat) :
    (sicSwitch2 s v).L2_6M = s.L2_6M := by
  unfold sicSwitch2; split_ifs <;> rfl

theorem sicSwitch2_L3 (s : CodeStash) (v : Nat) :
    (sicSwitch2 s v).L3 = s.L3 := by
  unfold sicSwitch2; split_ifs <;> rfl

theorem sicSwitch2_L2_256K (s : CodeStash) (v : Nat) :
    (sicSwitch2 s v).L2_256K = s.L2_256K := by
  unfold sicSwitch2; split_ifs <;> rfl

theorem sicSwitch2_L2_512K (s : CodeStash) (v : Nat) :
    (sicSwitch2 s v).L2_512K = s.L2_512K := by
  unfold sicSwitch2; split_ifs <;> rfl

theorem sicSwitch3_L2_4w_256K (s : CodeStash) (v : Nat) :
    (sicSwitch3 s v).L2_4w_256K = s.L2_4w_256K := by
  unfold sicSwitch3; split_ifs <;> rfl

theorem sicSwitch3_L2_4w_512K (s : CodeStash) (v : Nat) :
    (sicSwitch3 s v).L2_4w_512K = s.L2_4w_512K := by
  unfold sicSwitch3; split_ifs <;> rfl

theorem sicSwitch3_L2_4w_1Mor2M (s : CodeStash) (v : Nat) :
    (sicSwitch3 s v).L2_4w_1Mor2M = s.L2_4w_1Mor2M := by
  unfold sicSwitch3; split_ifs <;> rfl

theorem sicSwitch3_L2_8w_256K (s : CodeStash) (v : Nat) :
    (sicSwitch3 s v).L2_8w_256K = s.L2_8w_256K := by
  unfold sicSwitch3; split_ifs <;> rfl

theorem sicSwitch3_L2_8w_512K (s : CodeStash) (v : Nat) :
    (sicSwitch3 s v).L2_8w_512K = s.L2_8w_512K := by
  unfold sicSwitch3; split_ifs <;> rfl

theorem sicSwitch3_L2_8w_1Mor2M (s : CodeStash) (v : Nat) :
    (sicSwitch3 s v).L2_8w_1Mor2M = s.L2_8w_1Mor2M := by
  unfold sicSwitch3; split_ifs <;> rfl

theorem sicSwitch3_L2_2M (s : CodeStash) (v : Nat) :
    (sicSwitch3 s v).L2_2M = s.L2_2M := by
  unfold sicSwitch3; split_ifs <;> rfl

theorem sicSwitch3_L2_6M (s : CodeStash) (v : Nat) :
    (sicSwitch3 s v).L2_6M = (s.L2_6M || (v == 0x4e)) := by
  unfold sicSwitch3; split_ifs <;> simp_all

theorem sicSwitch3_L3 (s : CodeStash) (v : Nat) :
    (sicSwitch3 s v).L3 = s.L3 := by
  unfold sicSwitch3; split_ifs <;> rfl

theorem sicSwitch3_L2_256K (s : CodeStash) (v : Nat) :
    (sicSwitch3 s v).L2_256K = s.L2_256K := by
  unfold sicSwitch3; split_ifs <;> rfl

theorem sicSwitch3_L2_512K (s : CodeStash) (v : Nat) :
    (sicSwitch3 s v).L2_512K = s.L2_512K := by
  unfold sicSwitch3; split_ifs <;> rfl

theorem sicSwitch4_L2_4w_256K (s : CodeStash) (v : Nat) :
    (sicSwitch4 s v).L2_4w_256K = s.L2_4w_256K := by
  unfold sicSwitch4; split_ifs <;> rfl

theorem sicSwitch4_L2_4w_512K (s : CodeStash) (v : Nat) :
    (sicSwitch4 s v).L2_4w_512K = s.L2_4w_512K := by
  unfold sicSwitch4; split_ifs <;> rfl

theorem sicSwitch4_L2_4w_1Mor2M (s : CodeStash) (v : Nat) :
    (sicSwitch4 s v).L2_4w_1Mor2M = s.L2_4w_1Mor2M := by
  unfold sicSwitch4; split_ifs <;> rfl

theorem sicSwitch4_L2_8w_256K (s : CodeStash) (v : Nat) :
    (sicSwitch4 s v).L2_8w_256K = s.L2_8w_256K := by
  unfold sicSwitch4; split_ifs <;> rfl

theorem sicSwitch4_L2_8w_512K (s : CodeStash) (v : Nat) :
    (sicSwitch4 s v).L2_8w_512K = s.L2_8w_512K := by
  unfold sicSwitch4; split_ifs <;> rfl

theorem sicSwitch4_L2_8w_1Mor2M (s : CodeStash) (v : Nat) :
    (sicSwitch4 s v).L2_8w_1Mor2M = s.L2_8w_1Mor2M := by
  unfold sicSwitch4; split_ifs <;> rfl

theorem sicSwitch4_L2_2M (s : CodeStash) (v : Nat) :
    (sicSwitch4 s v).L2_2M = s.L2_2M := by
  unfold sicSwitch4; split_ifs <;> rfl

theorem sicSwitch4_L2_6M (s : CodeStash) (v : Nat) :
    (sicSwitch4 s v).L2_6M = s.L2_6M := by
  unfold sicSwitch4; split_ifs <;> rfl

theorem sicSwitch4_L3 (s : CodeStash) (v : Nat) :
    (sicSwitch4 s v).L3 = (s.L3 || (v == 0x22 || v == 0x23 || v == 0x25 || v == 0x29 || v == 0x46 || v == 0x47 ||
        v == 0x49 || v == 0x4a || v == 0x4b || v == 0x4c || v == 0x4d || v == 0x88 ||
        v == 0x89 || v == 0x8a || v == 0x8d || v == 0xd0 || v == 0xd1 || v == 0xd2 ||
        v == 0xd6 || v == 0xd7 || v == 0xd8 || v == 0xdc || v == 0xdd || v == 0xde ||
        v == 0xe2 || v == 0xe3 || v == 0xe4 || v == 0xea || v == 0xeb || v == 0xec)) := by
  unfold sicSwitch4; split_ifs <;> simp_all

theorem sicSwitch4_L2_256K (s : CodeStash) (v : Nat) :
    (sicSwitch4 s v).L2_256K = s.L2_256K := by
  unfold sicSwitch4; split_ifs <;> rfl

theorem sicSwitch4_L2_512K (s : CodeStash) (v : Nat) :
    (sicSwitch4 s v).L2_512K = s.L2_512K := by
  unfold sicSwitch4; split_ifs <;> rfl

theorem sicSwitch5_L2_4w_256K (s : CodeStash) (v : Nat) :
    (sicSwitch5 s v).L2_4w_256K = s.L2_4w_256K := by
  unfold sicSwitch5; split_ifs <;> rfl

theorem sicSwitch5_L2_4w_512K (s : CodeStash) (v : Nat) :
    (sicSwitch5 s v).L2_4w_512K = s.L2_4w_512K := by
  unfold sicSwitch5; split_ifs <;> rfl

theorem sicSwitch5_L2_4w_1Mor2M (s : CodeStash) (v : Nat) :
    (sicSwitch5 s v).L2_4w_1Mor2M = s.L2_4w_1Mor2M := by
  unfold sicSwitch5; split_ifs <;> rfl

theorem sicSwitch5_L2_8w_256K (s : CodeStash) (v : Nat) :
    (sicSwitch5 s v).L2_8w_256K = s.L2_8w_256K := by
  unfold sicSwitch5; split_ifs <;> rfl

theorem sicSwitch5_L2_8w_512K (s : CodeStash) (v : Nat) :
    (sicSwitch5 s v).L2_8w_512K = s.L2_8w_512K := by
  unfold sicSwitch5; split_ifs <;> rfl

theorem sicSwitch5_L2_8w_1Mor2M (s : CodeStash) (v : Nat) :
    (sicSwitch5 s v).L2_8w_1Mor2M = s.L2_8w_1Mor2M := by
  unfold sicSwitch5; split_ifs <;> rfl

theorem sicSwitch5_L2_2M (s : CodeStash) (v : Nat) :
    (sicSwitch5 s v).L2_2M = s.L2_2M := by
  unfold sicSwitch5; split_ifs <;> rfl

theorem sicSwitch5_L2_6M (s : CodeStash) (v : Nat) :
    (sicSwitch5 s v).L2_6M = s.L2_6M := by
  unfold sicSwitch5; split_ifs <;> rfl

theorem sicSwitch5_L3 (s : CodeStash) (v : Nat) :
    (sicSwitch5 s v).L3 = s.L3 := by
  unfold sicSwitch5; split_ifs <;> rfl

theorem sicSwitch5_L2_256K (s : CodeStash) (v : Nat) :
    (sicSwitch5 s v).L2_256K = (s.L2_256K || (v == 0x21 || v == 0x3c || v == 0x42 || v == 0x7a || v == 0x7e || v == 0x82)) := by
  unfold sicSwitch5; split_ifs <;> simp_all

theorem sicSwitch5_L2_512K (s : CodeStash) (v : Nat) :
    (sicSwitch5 s v).L2_512K = s.L2_512K := by
  unfold sicSwitch5; split_ifs <;> rfl

theorem sicSwitch6_L2_4w_256K (s : CodeStash) (v : Nat) :
    (sicSwitch6 s v).L2_4w_256K = s.L2_4w_256K := by
  unfold sicSwitch6; split_ifs <;> rfl

theorem sicSwitch6_L2_4w_512K (s : CodeStash) (v : Nat) :
    (sicSwitch6 s v).L2_4w_512K = s.L2_4w_512K := by
  unfold sicSwitch6; split_ifs <;> rfl

theorem sicSwitch6_L2_4w_1Mor2M (s : CodeStash) (v : Nat) :
    (sicSwitch6 s v).L2_4w_1Mor2M = s.L2_4w_1Mor2M := by
  unfold sicSwitch6; split_ifs <;> rfl

theorem sicSwitch6_L2_8w_256K (s : CodeStash) (v : Nat) :
    (sicSwitch6 s v).L2_8w_256K = s.L2_8w_256K := by
  unfold sicSwitch6; split_ifs <;> rfl

theorem sicSwitch6_L2_8w_512K (s : CodeStash) (v : Nat) :
    (sicSwitch6 s v).L2_8w_512K = s.L2_8w_512K := by
  unfold sicSwitch6; split_ifs <;> rfl

theorem sicSwitch6_L2_8w_1Mor2M (s : CodeStash) (v : Nat) :
    (sicSwitch6 s v).L2_8w_1Mor2M = s.L2_8w_1Mor2M := by
  unfold sicSwitch6; split_ifs <;> rfl

theorem sicSwitch6_L2_2M (s : CodeStash) (v : Nat) :
    (sicSwitch6 s v).L2_2M = s.L2_2M := by
  unfold sicSwitch6; split_ifs <;> rfl

theorem sicSwitch6_L2_6M (s : CodeStash) (v : Nat) :
    (sicSwitch6 s v).L2_6M = s.L2_6M := by
  unfold sicSwitch6; split_ifs <;> rfl

theorem sicSwitch6_L3 (s : CodeStash) (v : Nat) :
    (sicSwitch6 s v).L3 = s.L3 := by
  unfold sicSwitch6; split_ifs <;> rfl

theorem sicSwitch6_L2_256K (s : CodeStash) (v : Nat) :
    (sicSwitch6 s v).L2_256K = s.L2_256K := by
  unfold sicSwitch6; split_ifs <;> rfl

theorem sicSwitch6_L2_512K (s : CodeStash) (v : Nat) :
    (sicSwitch6 s v).L2_512K = (s.L2_512K || (v == 0x3e || v == 0x43 || v == 0x7b || v == 0x7f || v == 0x83 || v == 0x86)) := by
  unfold sicSwitch6; split_ifs <;> simp_all

/-! Whole-function projection facts for `stash_intel_cache`: each flag ends
up as its old value OR-ed with exactly its descriptor set. -/

theorem stash_intel_cache_L2_4w_256K (s : CodeStash) (v : Nat) :
    (stash_intel_cache s v).L2_4w_256K = (s.L2_4w_256K || (v == 0x42)) := by
  unfold stash_intel_cache
  rw [sicSwitch6_L2_4w_256K, sicSwitch5_L2_4w_256K, sicSwitch4_L2_4w_256K, sicSwitch3_L2_4w_256K, sicSwitch2_L2_4w_256K, sicSwitch1_L2_4w_256K]

theorem stash_intel_cache_L2_4w_512K (s : CodeStash) (v : Nat) :
    (stash_intel_cache s v).L2_4w_512K = (s.L2_4w_512K || (v == 0x43)) := by
  unfold stash_intel_cache
  rw [sicSwitch6_L2_4w_512K, sicSwitch5_L2_4w_512K, sicSwitch4_L2_4w_512K, sicSwitch3_L2_4w_512K, sicSwitch2_L2_4w_512K, sicSwitch1_L2_4w_512K]

theorem stash_intel_cache_L2_4w_1Mor2M (s : CodeStash) (v : Nat) :
    (stash_intel_cache s v).L2_4w_1Mor2M = (s.L2_4w_1Mor2M || (v == 0x44 || v == 0x45)) := by
  unfold stash_intel_cache
  rw [sicSwitch6_L2_4w_1Mor2M, sicSwitch5_L2_4w_1Mor2M, sicSwitch4_L2_4w_1Mor2M, sicSwitch3_L2_4w_1Mor2M, sicSwitch2_L2_4w_1Mor2M, sicSwitch1_L2_4w_1Mor2M]

theorem stash_intel_cache_L2_8w_256K (s : CodeStash) (v : Nat) :
    (stash_intel_cache s v).L2_8w_256K = (s.L2_8w_256K || (v == 0x82)) := by
  unfold stash_intel_cache
  rw [sicSwitch6_L2_8w_256K, sicSwitch5_L2_8w_256K, sicSwitch4_L2_8w_256K, sicSwitch3_L2_8w_256K, sicSwitch2_L2_8w_256K, sicSwitch1_L2_8w_256K]

theorem stash_intel_cache_L2_8w_512K (s : CodeStash) (v : Nat) :
    (stash_intel_cache s v).L2_8w_512K = (s.L2_8w_512K || (v == 0x80 || v == 0x83)) := by
  unfold stash_intel_cache
  rw [sicSwitch6_L2_8w_512K, sicSwitch5_L2_8w_512K, sicSwitch4_L2_8w_512K, sicSwitch3_L2_8w_512K, sicSwitch2_L2_8w_512K, sicSwitch1_L2_8w_512K]

theorem stash_intel_cache_L2_8w_1Mor2M (s : CodeStash) (v : Nat) :
    (stash_intel_cache s v).L2_8w_1Mor2M = (s.L2_8w_1Mor2M || (v == 0x84 || v == 0x85)) := by
  unfold stash_intel_cache
  rw [sicSwitch6_L2_8w_1Mor2M, sicSwitch5_L2_8w_1Mor2M, sicSwitch4_L2_8w_1Mor2M, sicSwitch3_L2_8w_1Mor2M, sicSwitch2_L2_8w_1Mor2M, sicSwitch1_L2_8w_1Mor2M]

theorem stash_intel_cache_L2_2M (s : CodeStash) (v : Nat) :
    (stash_intel_cache s v).L2_2M = (s.L2_2M || (v == 0x45 || v == 0x7d || v == 0x85)) := by
  unfold stash_intel_cache
  rw [sicSwitch6_L2_2M, sicSwitch5_L2_2M, sicSwitch4_L2_2M, sicSwitch3_L2_2M, sicSwitch2_L2_2M, sicSwitch1_L2_2M]

theorem stash_intel_cache_L2_6M (s : CodeStash) (v : Nat) :
    (stash_intel_cache s v).L2_6M = (s.L2_6M || (v == 0x4e)) := by
  unfold stash_intel_cache
  rw [sicSwitch6_L2_6M, sicSwitch5_L2_6M, sicSwitch4_L2_6M, sicSwitch3_L2_6M, sicSwitch2_L2_6M, sicSwitch1_L2_6M]

theorem stash_intel_cache_L3 (s : CodeStash) (v : Nat) :
    (stash_intel_cache s v).L3 = (s.L3 || (v == 0x22 || v == 0x23 || v == 0x25 || v == 0x29 || v == 0x46 || v == 0x47 ||
        v == 0x49 || v == 0x4a || v == 0x4b || v == 0x4c || v == 0x4d || v == 0x88 ||
        v == 0x89 || v == 0x8a || v == 0x8d || v == 0xd0 || v == 0xd1 || v == 0xd2 ||
        v == 0xd6 || v == 0xd7 || v == 0xd8 || v == 0xdc || v == 0xdd || v == 0xde ||
        v == 0xe2 || v == 0xe3 || v == 0xe4 || v == 0xea || v == 0xeb || v == 0xec)) := by
  unfold stash_intel_cache
  rw [sicSwitch6_L3, sicSwitch5_L3, sicSwitch4_L3, sicSwitch3_L3, sicSwitch2_L3, sicSwitch1_L3]

theorem stash_intel_cache_L2_256K (s : CodeStash) (v : Nat) :
    (stash_intel_cache s v).L2_256K = (s.L2_256K || (v == 0x21 || v == 0x3c || v == 0x42 || v == 0x7a || v == 0x7e || v == 0x82)) := by
  unfold stash_intel_cache
  rw [sicSwitch6_L2_256K, sicSwitch5_L2_256K, sicSwitch4_L2_256K, sicSwitch3_L2_256K, sicSwitch2_L2_256K, sicSwitch1_L2_256K]

theorem stash_intel_cache_L2_512K (s : CodeStash) (v : Nat) :
    (stash_intel_cache s v).L2_512K = (s.L2_512K || (v == 0x3e || v == 0x43 || v == 0x7b || v == 0x7f || v == 0x83 || v == 0x86)) := by
  unfold stash_intel_cache
  rw [sicSwitch6_L2_512K, sicSwitch5_L2_512K, sicSwitch4_L2_512K, sicSwitch3_L2_512K, sicSwitch2_L2_512K, sicSwitch1_L2_512K]

/-! Projection facts for the leaf 0x80000006 ECX stash update. -/

theorem stash_80000006_ecx_L2_4w_256K (s : CodeStash) (v : Nat) :
    (stash_80000006_ecx s v).L2_4w_256K = (s.L2_4w_256K || ((v >>> 12) &&& 0xf == 4 && v >>> 16 == 256)) := by
  unfold stash_80000006_ecx; split_ifs <;> simp_all

theorem stash_80000006_ecx_L2_4w_512K (s : CodeStash) (v : Nat) :
    (stash_80000006_ecx s v).L2_4w_512K = (s.L2_4w_512K || (!((v >>> 12) &&& 0xf == 4 && v >>> 16 == 256) && ((v >>> 12) &&& 0xf == 4 && v >>> 16 == 512))) := by
  unfold stash_80000006_ecx; split_ifs <;> simp_all

theorem stash_80000006_ecx_L2_4w_1Mor2M (s : CodeStash) (v : Nat) :
    (stash_80000006_ecx s v).L2_4w_1Mor2M = s.L2_4w_1Mor2M := by
  unfold stash_80000006_ecx; split_ifs <;> rfl

theorem stash_80000006_ecx_L2_8w_256K (s : CodeStash) (v : Nat) :
    (stash_80000006_ecx s v).L2_8w_256K = s.L2_8w_256K := by
  unfold stash_80000006_ecx; split_ifs <;> rfl

theorem stash_80000006_ecx_L2_8w_512K (s : CodeStash) (v : Nat) :
    (stash_80000006_ecx s v).L2_8w_512K = s.L2_8w_512K := by
  unfold stash_80000006_ecx; split_ifs <;> rfl

theorem stash_80000006_ecx_L2_8w_1Mor2M (s : CodeStash) (v : Nat) :
    (stash_80000006_ecx s v).L2_8w_1Mor2M = s.L2_8w_1Mor2M := by
  unfold stash_80000006_ecx; split_ifs <;> rfl

theorem stash_80000006_ecx_L2_2M (s : CodeStash) (v : Nat) :
    (stash_80000006_ecx s v).L2_2M = s.L2_2M := by
  unfold stash_80000006_ecx; split_ifs <;> rfl

theorem stash_80000006_ecx_L2_6M (s : CodeStash) (v : Nat) :
    (stash_80000006_ecx s v).L2_6M = s.L2_6M := by
  unfold stash_80000006_ecx; split_ifs <;> rfl

theorem stash_80000006_ecx_L3 (s : CodeStash) (v : Nat) :
    (stash_80000006_ecx s v).L3 = s.L3 := by
  unfold stash_80000006_ecx; split_ifs <;> rfl

theorem stash_80000006_ecx_L2_256K (s : CodeStash) (v : Nat) :
    (stash_80000006_ecx s v).L2_256K = s.L2_256K := by
  unfold stash_80000006_ecx; split_ifs <;> rfl

theorem stash_80000006_ecx_L2_512K (s : CodeStash) (v : Nat) :
    (stash_80000006_ecx s v).L2_512K = s.L2_512K := by
  unfold stash_80000006_ecx; split_ifs <;> rfl


/-- **C7.** The leaf-2 descriptor-byte-to-flag mapping is the fixed table of
`stash_intel_cache`: exactly the descriptor bytes 0x21, 0x3c, 0x42, 0x7a,
0x7e, 0x82 set the `L2_256K` flag and exactly 0x4e sets the `L2_6M` flag:
after folding any byte `v`, each of the two flags equals its old value OR-ed
with precisely that byte-set membership test. -/
theorem leaf2_descriptor_byte_table (s : CodeStash) (v : Nat) :
    ((stash_intel_cache s v).L2_256K =
      (s.L2_256K || (v == 0x21 || v == 0x3c || v == 0x42 || v == 0x7a ||
        v == 0x7e || v == 0x82))) ∧
    ((stash_intel_cache s v).L2_6M = (s.L2_6M || (v == 0x4e))) :=
  ⟨stash_intel_cache_L2_256K s v, stash_intel_cache_L2_6M s v⟩

/-- One cache observation contributes to each classification flag
independently of the stash it is folded into: the new flag value is the old
one OR-ed with what the observation sets on a fresh stash. -/
theorem cache_step_union (f : CodeStash → Bool) (hf : f ∈ cacheFlagList)
    (s : CodeStash) (o : CacheObs) :
    f (applyCacheObs s o) = (f s || f (applyCacheObs nilStash o)) := by
  fin_cases hf <;> cases o <;>
    simp [applyCacheObs,
    stash_intel_cache_L2_4w_256K,
    stash_intel_cache_L2_4w_512K,
    stash_intel_cache_L2_4w_1Mor2M,
    stash_intel_cache_L2_8w_256K,
    stash_intel_cache_L2_8w_512K,
    stash_intel_cache_L2_8w_1Mor2M,
    stash_intel_cache_L2_2M,
    stash_intel_cache_L2_6M,
    stash_intel_cache_L3,
    stash_intel_cache_L2_256K,
    stash_intel_cache_L2_512K,
    stash_80000006_ecx_L2_4w_256K,
    stash_80000006_ecx_L2_4w_512K,
    stash_80000006_ecx_L2_4w_1Mor2M,
    stash_80000006_ecx_L2_8w_256K,
    stash_80000006_ecx_L2_8w_512K,
    stash_80000006_ecx_L2_8w_1Mor2M,
    stash_80000006_ecx_L2_2M,
    stash_80000006_ecx_L2_6M,
    stash_80000006_ecx_L3,
    stash_80000006_ecx_L2_256K,
    stash_80000006_ecx_L2_512K,
    nilStash]

/-- Folding a list of cache observations ORs up the per-observation
contributions (helper: induction along the list). -/
theorem foldl_cache_union (f : CodeStash → Bool)
    (hstep : ∀ s o, f (applyCacheObs s o) = (f s || f (applyCacheObs nilStash o))) :
    ∀ (l : List CacheObs) (s : CodeStash),
      f (l.foldl applyCacheObs s) =
        (f s || l.any fun o => f (applyCacheObs nilStash o))
  | [], s => by simp
  | o :: t, s => by
    rw [List.foldl_cons, foldl_cache_union f hstep t, hstep, List.any_cons]
    cases f s <;> cases f (applyCacheObs nilStash o) <;> simp

/-- **C3.** Cache-classification flags are write-once-set: over any sequence
of cache observations folded into one stash, each of the eleven boolean
flags ends as its initial value unioned with the per-observation
contributions, and a flag once set is never cleared by later observations. -/
theorem cache_flags_write_once_union (f : CodeStash → Bool)
    (hf : f ∈ cacheFlagList) (s : CodeStash) (l : List CacheObs) :
    f (l.foldl applyCacheObs s) =
      (f s || l.any fun o => f (applyCacheObs nilStash o)) ∧
    (f s = true → f (l.foldl applyCacheObs s) = true) := by
  have h := foldl_cache_union f (cache_step_union f hf) l s
  exact ⟨h, fun hs => by rw [h, hs, Bool.true_or]⟩

/-- Witness for the flag-union theorem: the `L2_6M` flag and a single leaf-2
descriptor byte 0x4e. -/
theorem cache_flags_write_once_union_witness :
    (fun s : CodeStash => s.L2_6M) ∈ cacheFlagList ∧
    ((fun s : CodeStash => s.L2_6M)
        ([CacheObs.leaf2Byte 0x4e].foldl applyCacheObs nilStash) =
      ((fun s : CodeStash => s.L2_6M) nilStash ||
        [CacheObs.leaf2Byte 0x4e].any fun o =>
          (fun s : CodeStash => s.L2_6M) (applyCacheObs nilStash o)) ∧
    ((fun s : CodeStash => s.L2_6M) nilStash = true →
      (fun s : CodeStash => s.L2_6M)
        ([CacheObs.leaf2Byte 0x4e].foldl applyCacheObs nilStash) = true)) := by
  have hmem : (fun s : CodeStash => s.L2_6M) ∈ cacheFlagList := by
    repeat first | exact List.Mem.head _ | apply List.Mem.tail
  exact ⟨hmem, cache_flags_write_once_union _ hmem nilStash [CacheObs.leaf2Byte 0x4e]⟩

/-! ### Topology synthesizer theorems -/

/-- The leaf-0x1f scan step never changes the method tag. -/
theorem intel1fStep_method (mp : MpData) (ecx ebx : Nat) :
    (intel1fStep mp ecx ebx).method = mp.method := by
  unfold intel1fStep; split_ifs <;> rfl

/-- **C2.** Intel topology method priority: with vendor Intel, leaf 0x1f data
(when seen) is the method and the core/hyperthread counts are derived from
the leaf-0x1f records only (two stashes agreeing on the 0x1f records and the
initial counts decode identically, whatever their leaf 0xb/4/1 data); the
method selection order is leaf 0x1f, else leaf 0xb, else leaf 4 with leaf 1,
else leaf 1 alone. -/
theorem intel_topology_method_priority (s t : CodeStash)
    (hs : s.vendor = .intel) (ht : t.vendor = .intel) :
    (s.saw_1f = true →
      (decode_mp_synth s).mp.method = some "Intel leaf 0x1f") ∧
    (s.saw_1f = true → t.saw_1f = true → s.mp = t.mp →
      s.val_1f_ecx_0 = t.val_1f_ecx_0 → s.val_1f_ebx_0 = t.val_1f_ebx_0 →
      s.val_1f_ecx_1 = t.val_1f_ecx_1 → s.val_1f_ebx_1 = t.val_1f_ebx_1 →
      s.val_1f_ecx_2 = t.val_1f_ecx_2 → s.val_1f_ebx_2 = t.val_1f_ebx_2 →
      s.val_1f_ecx_3 = t.val_1f_ecx_3 → s.val_1f_ebx_3 = t.val_1f_ebx_3 →
      s.val_1f_ecx_4 = t.val_1f_ecx_4 → s.val_1f_ebx_4 = t.val_1f_ebx_4 →
      s.val_1f_ecx_5 = t.val_1f_ecx_5 → s.val_1f_ebx_5 = t.val_1f_ebx_5 →
      (decode_mp_synth s).mp = (decode_mp_synth t).mp) ∧
    (s.saw_1f = false → s.saw_b = true →
      (decode_mp_synth s).mp.method = some "Intel leaf 0xb") ∧
    (s.saw_1f = false → s.saw_b = false → s.saw_4 = true →
      ((decode_mp_synth s).mp.method = some "Intel leaf 1/4" ∨
       (decode_mp_synth s).mp.method = some "Intel leaf 1/4 (zero fallback)")) ∧
    (s.saw_1f = false → s.saw_b = false → s.saw_4 = false →
      (decode_mp_synth s).mp.method = some "Intel leaf 1") := by
  refine ⟨?_, ?_, ?_, ?_, ?_⟩
  · intro h1f
    simp [decode_mp_synth, hs, h1f, intel1fStep_method]
  · intro h1fs h1ft hmp e1 e2 e3 e4 e5 e6 e7 e8 e9 e10 e11 e12
    simp only [decode_mp_synth, hs, ht, h1fs, h1ft, if_true,
      e1, e2, e3, e4, e5, e6, e7, e8, e9, e10, e11, e12, hmp]
  · intro h1f hb
    simp [decode_mp_synth, hs, h1f, hb]
  · intro h1f hb h4
    by_cases hz : s.val_4_eax &&& 0x1f = 0
    · right; simp [decode_mp_synth, hs, h1f, hb, h4, hz]
    · left; simp [decode_mp_synth, hs, h1f, hb, h4, hz]
  · intro h1f hb h4
    simp [decode_mp_synth, hs, h1f, hb, h4]

/-- Witness for the method-priority theorem: a stash with both leaf 0x1f
(SMT level 2-way, core level 8) and conflicting leaf 0xb data, against a
second stash with identical 0x1f records and no 0xb data at all. -/
theorem intel_topology_method_priority_witness :
    mpLeaf1fStash.vendor = .intel ∧ mpLeaf1fOnlyStash.vendor = .intel ∧
    mpLeaf1fStash.saw_1f = true ∧ mpLeaf1fStash.saw_b = true ∧
    mpLeaf1fOnlyStash.saw_b = false ∧
    (decode_mp_synth mpLeaf1fStash).mp.method = some "Intel leaf 0x1f" ∧
    (decode_mp_synth mpLeaf1fStash).mp = (decode_mp_synth mpLeaf1fOnlyStash).mp ∧
    (decode_mp_synth mpLeaf1fStash).mp.cores = 8 ∧
    (decode_mp_synth mpLeaf1fStash).mp.hyperthreads = 2 := by
  have h := intel_topology_method_priority mpLeaf1fStash mpLeaf1fOnlyStash rfl rfl
  refine ⟨rfl, rfl, rfl, rfl, rfl, h.1 rfl, ?_, by decide, by decide⟩
  exact h.2.1 rfl rfl rfl rfl rfl rfl rfl rfl rfl rfl rfl rfl rfl rfl rfl

/-- **C9.** In the Intel leaf-0xb path, an SMT-level logical-processor count
of 0 read from subleaf 0 is replaced by 1 before it is used as the divisor:
the reported hyperthread count is then 1 and the reported core count is the
subleaf-1 total processor count (divided by the substituted 1, so the
division cannot be by zero). -/
theorem intel_leaf_b_zero_smt_guard (s : CodeStash) (hv : s.vendor = .intel)
    (h1f : s.saw_1f = false) (hb : s.saw_b = true)
    (hz : bitExtractLE s.val_b_ebx_0 0 16 = 0) :
    (decode_mp_synth s).mp =
      { method := some "Intel leaf 0xb",
        cores := bitExtractLE s.val_b_ebx_1 0 16,
        hyperthreads := 1 } := by
  simp [decode_mp_synth, hv, h1f, hb, hz]

/-- Witness for the leaf-0xb zero-SMT guard: subleaf-0 count 0, subleaf-1
total 7. -/
theorem intel_leaf_b_zero_smt_guard_witness :
    bitExtractLE mpLeafBStash.val_b_ebx_0 0 16 = 0 ∧
    (decode_mp_synth mpLeafBStash).mp =
      { method := some "Intel leaf 0xb", cores := 7, hyperthreads := 1 } :=
  ⟨by decide, intel_leaf_b_zero_smt_guard mpLeafBStash rfl rfl rfl (by decide)⟩

/-- **C10.** In the Intel leaf-1/4 path, when leaf 4 was captured but bits
0-4 of its subleaf-0 EAX are zero, the cores-per-package field is not used:
cores = (leaf-1 EBX logical-processor count) / 2, hyperthreads = count /
cores, and the method reads "Intel leaf 1/4 (zero fallback)". -/
theorem intel_leaf14_zero_fallback (s : CodeStash) (hv : s.vendor = .intel)
    (h1f : s.saw_1f = false) (hb : s.saw_b = false) (h4 : s.saw_4 = true)
    (hz : s.val_4_eax &&& 0x1f = 0) :
    (decode_mp_synth s).mp =
      { method := some "Intel leaf 1/4 (zero fallback)",
        cores := bitExtractLE s.val_1_ebx 16 24 / 2,
        hyperthreads :=
          bitExtractLE s.val_1_ebx 16 24 /
            (bitExtractLE s.val_1_ebx 16 24 / 2) } := by
  simp [decode_mp_synth, hv, h1f, hb, h4, hz]

/-- Witness for the zero fallback: leaf-4 EAX entirely 0, leaf-1 EBX
logical-processor count 8, giving 4 cores and 2 hyperthreads. -/
theorem intel_leaf14_zero_fallback_witness :
    mpLeaf14Stash.val_4_eax &&& 0x1f = 0 ∧
    (decode_mp_synth mpLeaf14Stash).mp =
      { method := some "Intel leaf 1/4 (zero fallback)", cores := 4,
        hyperthreads := 2 } :=
  ⟨by decide,
    by rw [intel_leaf14_zero_fallback mpLeaf14Stash rfl rfl rfl rfl (by decide)]; decide⟩

/-! ### `bits_needed` theorems -/

/-- A set bit witnesses a lower bound: if bit `i` of `w` is set then
`2 ^ i ≤ w`. -/
theorem two_pow_le_of_bit (w i : Nat) (h : (w >>> i) &&& 1 = 1) :
    2 ^ i ≤ w := by
  rw [Nat.shiftRight_eq_div_pow, Nat.and_one_is_mod] at h
  have h1 : 1 ≤ w / 2 ^ i := by
    rcases Nat.eq_zero_or_pos (w / 2 ^ i) with hq | hq
    · rw [hq] at h; simp at h
    · exact hq
  exact (Nat.one_le_div_iff (Nat.two_pow_pos i)).mp h1

/-- The top bit is set: if `2 ^ i ≤ w < 2 ^ (i + 1)` then bit `i` of `w`
is set. -/
theorem bit_of_between (w i : Nat) (h1 : 2 ^ i ≤ w) (h2 : w < 2 ^ (i + 1)) :
    (w >>> i) &&& 1 = 1 := by
  rw [Nat.shiftRight_eq_div_pow, Nat.and_one_is_mod]
  have hd : w / 2 ^ i = 1 := by
    refine Nat.div_eq_of_lt_le (by simpa using h1) ?_
    calc w < 2 ^ (i + 1) := h2
    _ = (1 + 1) * 2 ^ i := by ring
  rw [hd]

/-- The `bsr` fold only returns 0 or the index of a set bit. -/
theorem bsr_foldl_result (w : Nat) :
    ∀ (l : List Nat) (acc : Nat), (acc = 0 ∨ (w >>> acc) &&& 1 = 1) →
      (l.foldl (fun acc i => if (w >>> i) &&& 1 == 1 then i else acc) acc = 0 ∨
        (w >>> l.foldl (fun acc i => if (w >>> i) &&& 1 == 1 then i else acc) acc)
          &&& 1 = 1)
  | [], _, hacc => hacc
  | i :: t, acc, hacc => by
    rw [List.foldl_cons]
    refine bsr_foldl_result w t _ ?_
    by_cases hbit : ((w >>> i) &&& 1 == 1) = true
    · simp only [if_pos hbit]
      exact Or.inr (by simpa using hbit)
    · simpa only [if_neg hbit] using hacc

/-- The `bsr` fold over `range n` dominates every set-bit index below `n`. -/
theorem bsr_foldl_ge (w : Nat) :
    ∀ (n : Nat) (acc j : Nat), j < n → (w >>> j) &&& 1 = 1 →
      j ≤ (List.range n).foldl
        (fun acc i => if (w >>> i) &&& 1 == 1 then i else acc) acc
  | 0, _, j, hj, _ => absurd hj (Nat.not_lt_zero j)
  | n + 1, acc, j, hj, hbit => by
    rw [List.range_succ, List.foldl_append, List.foldl_cons, List.foldl_nil]
    rcases Nat.lt_or_ge j n with hlt | hge
    · have ih := bsr_foldl_ge w n acc j hlt hbit
      by_cases hbn : ((w >>> n) &&& 1 == 1) = true
      · simpa only [if_pos hbn] using Nat.lt_succ_iff.mp hj
      · simpa only [if_neg hbn] using ih
    · have hjn : j = n := Nat.le_antisymm (Nat.lt_succ_iff.mp hj) hge
      subst hjn
      have hcond : ((w >>> j) &&& 1 == 1) = true := by simpa using hbit
      rw [if_pos hcond]

/-- Bounds on `bsr16`: for `1 ≤ w < 2 ^ 16` the fold returns the index of
the highest set bit of `w`. -/
theorem bsr16_bounds (w : Nat) (h1 : 1 ≤ w) (h2 : w < 65536) :
    2 ^ bsr16 w ≤ w ∧ w < 2 ^ (bsr16 w + 1) := by
  have hbsr : bsr16 w = (List.range 16).foldl
      (fun acc i => if (w >>> i) &&& 1 == 1 then i else acc) 0 := rfl
  have hres := bsr_foldl_result w (List.range 16) 0 (Or.inl rfl)
  rw [← hbsr] at hres
  have hlow : 2 ^ bsr16 w ≤ w := by
    rcases hres with h0 | hbit
    · rw [h0]; omega
    · exact two_pow_le_of_bit w _ hbit
  refine ⟨hlow, ?_⟩
  by_contra hcon
  push_neg at hcon
  set k := Nat.log 2 w with hk
  have hklow : 2 ^ k ≤ w := Nat.pow_log_le_self 2 (by omega)
  have hkhigh : w < 2 ^ (k + 1) := Nat.lt_pow_succ_log_self (by norm_num) w
  have hk16 : k < 16 := Nat.log_lt_of_lt_pow (by omega) (by omega)
  have hbitk : (w >>> k) &&& 1 = 1 := bit_of_between w k hklow hkhigh
  have hge := bsr_foldl_ge w 16 0 k hk16 hbitk
  rw [← hbsr] at hge
  have hmono : 2 ^ (k + 1) ≤ 2 ^ (bsr16 w + 1) :=
    Nat.pow_le_pow_right (by norm_num) (by omega)
  omega

/-- **C6 (amended).** `bits_needed` implements `ceil(log2 n)` for every
count `n` with `1 ≤ n ≤ 2^16` (the boundary case `n = 1` yielding 0, not
1); the 16-bit `bsr` operand of the assembly forces the upper bound. -/
theorem bits_needed_eq_ceilLog2 (n : Nat) (h1 : 1 ≤ n) (h2 : n ≤ 65536) :
    bits_needed n = ceilLog2 n := by
  have hw : ((n + 18446744073709551615) % 18446744073709551616) % 65536 =
      n - 1 := by omega
  simp only [bits_needed, ceilLog2, hw]
  by_cases hn1 : n = 1
  · subst hn1
    simp [Nat.clog_one_right]
  · have hne : ¬ (((n - 1 : Nat) == 0) = true) := by simp; omega
    rw [if_neg hne]
    obtain ⟨hlo, hhi⟩ := bsr16_bounds (n - 1) (by omega) (by omega)
    refine Nat.le_antisymm ?_ ?_
    · have h3 : bsr16 (n - 1) < Nat.clog 2 n :=
        (Nat.pow_lt_iff_lt_clog (by norm_num)).mp
          (show 2 ^ bsr16 (n - 1) < n by omega)
      omega
    · exact (Nat.le_pow_iff_clog_le (by norm_num)).mp
        (show n ≤ 2 ^ (bsr16 (n - 1) + 1) by omega)

/-- Counterexample to C6 as stated for *every* `n ≥ 1`: at `n = 65537` the
16-bit `bsr` operand has wrapped to 0, so `bits_needed` returns 0 while
`ceil(log2 n)` is positive. -/
theorem bits_needed_16bit_truncation :
    bits_needed 65537 = 0 ∧ 0 < ceilLog2 65537 ∧
    bits_needed 65537 ≠ ceilLog2 65537 := by
  have h1 : bits_needed 65537 = 0 := by decide
  have h2 : 0 < ceilLog2 65537 := Nat.clog_pos (by norm_num) (by norm_num)
  exact ⟨h1, h2, by omega⟩

/-- Witness for the amended width-computation theorem, including the
specification's sample values. -/
theorem bits_needed_eq_ceilLog2_witness :
    (1 ≤ 5 ∧ 5 ≤ 65536) ∧ bits_needed 5 = ceilLog2 5 ∧
    bits_needed 1 = 0 ∧ bits_needed 2 = 1 ∧ bits_needed 5 = 3 ∧
    bits_needed 8 = 3 ∧ bits_needed 9 = 4 :=
  ⟨⟨by decide, by decide⟩, bits_needed_eq_ceilLog2 5 (by decide) (by decide),
    by decide, by decide, by decide, by decide, by decide⟩

/-! ### First-match-wins theorems -/

/-- `find?` returns the entry at the least matching index (helper). -/
theorem find?_get_of_min {α : Type} (p : α → Bool) :
    ∀ (l : List α) (k : Nat) (hk : k < l.length),
      p (l.get ⟨k, hk⟩) = true →
      (∀ m (hm : m < l.length), m < k → p (l.get ⟨m, hm⟩) = false) →
      l.find? p = some (l.get ⟨k, hk⟩)
  | [], k, hk, _, _ => absurd hk (by simp)
  | a :: t, 0, _, hp, _ => List.find?_cons_of_pos t hp
  | a :: t, k + 1, hk, hp, hmin => by
    have ha : p a = false := hmin 0 (by simp) (Nat.succ_pos k)
    rw [List.find?_cons_of_neg _ (by simp [ha])]
    exact find?_get_of_min p t k (by simpa using hk) hp
      (fun m hm hmk => hmin (m + 1) (by simpa using hm) (by omega))

/-- **C1.** First-match-wins: for every rule table and every input, whenever
two rules at positions `i < j` both match, the engine's answer is the string
of the earliest matching rule overall (at some position `k ≤ i`, so never
the later rule `j`), and no rule before position `k` matches: evaluation
stopped at `k`. -/
theorem synth_first_match_wins (table : List SynthRule) (val : Nat)
    (st : Option CodeStash) (i j : Nat) (hi : i < table.length)
    (hj : j < table.length) (hij : i < j)
    (hmi : keyMatches val st (table.get ⟨i, hi⟩).code = true)
    (hmj : keyMatches val st (table.get ⟨j, hj⟩).code = true) :
    ∃ k, ∃ hk : k < table.length, k ≤ i ∧
      keyMatches val st (table.get ⟨k, hk⟩).code = true ∧
      (∀ m (hm : m < table.length), m < k →
        keyMatches val st (table.get ⟨m, hm⟩).code = false) ∧
      synthFind table val st = some (table.get ⟨k, hk⟩).str := by
  classical
  have hEx : ∃ m, ∃ hm : m < table.length,
      keyMatches val st (table.get ⟨m, hm⟩).code = true := ⟨i, hi, hmi⟩
  obtain ⟨hk, hmk⟩ := Nat.find_spec hEx
  have hki : Nat.find hEx ≤ i := Nat.find_min' hEx ⟨hi, hmi⟩
  have hminm : ∀ m (hm : m < table.length), m < Nat.find hEx →
      keyMatches val st (table.get ⟨m, hm⟩).code = false := by
    intro m hm hmk2
    cases hb : keyMatches val st (table.get ⟨m, hm⟩).code with
    | false => rfl
    | true => exact absurd ⟨hm, hb⟩ (Nat.find_min hEx hmk2)
  refine ⟨Nat.find hEx, hk, hki, hmk, hminm, ?_⟩
  unfold synthFind
  rw [find?_get_of_min _ table (Nat.find hEx) hk hmk hminm, Option.map_some']

/-- Witness for first-match-wins: a two-rule table whose stepping-specific
rule overlaps its family-model catch-all at `val = 0x000306A9`. -/
theorem synth_first_match_wins_witness :
    ∃ k, ∃ hk : k < fmwTable.length, k ≤ 0 ∧
      keyMatches 0x000306A9 none (fmwTable.get ⟨k, hk⟩).code = true ∧
      (∀ m (hm : m < fmwTable.length), m < k →
        keyMatches 0x000306A9 none (fmwTable.get ⟨m, hm⟩).code = false) ∧
      synthFind fmwTable 0x000306A9 none = some (fmwTable.get ⟨k, hk⟩).str :=
  synth_first_match_wins fmwTable 0x000306A9 none 0 1 (by decide) (by decide)
    (by decide) (by rfl) (by rfl)

/-! ### The Ivy Bridge scenario -/

/-- Counterexample to C5 as stated: at family 6, model 0x3A, stepping 9 with
*no* disambiguating predicate holding, `decode_synth_intel` returns the
stepping-9 catch-all rule's string, not the Mobile Core i*-3000 rule's. -/
theorem ivy_bridge_no_predicate_counterexample :
    (Mc ivyPlainStash = false ∧ dc ivyPlainStash = false ∧
      sX ivyPlainStash = false ∧ dP ivyPlainStash = false) ∧
    decode_synth_intel 0x000306A9 (some ivyPlainStash) =
      some "Intel Core (unknown type) (Ivy Bridge E1/N0/L1/P0)" ∧
    decode_synth_intel 0x000306A9 (some ivyPlainStash) ≠
      some "Intel Mobile Core i*-3000 (Ivy Bridge E1/L1) / Pentium 900/1000/2000/2100 (P0)" := by
  have h1 : decode_synth_intel 0x000306A9 (some ivyPlainStash) =
      some "Intel Core (unknown type) (Ivy Bridge E1/N0/L1/P0)" := by rfl
  refine ⟨by decide, h1, ?_⟩
  rw [h1]
  decide

/-- **C5 (amended).** For a GenuineIntel signature 0x000306A9 (family 6,
model 0x3A, stepping 9), whenever the mobile-core disambiguation predicate
`Mc` holds the Pattern Match Decoder returns the Ivy Bridge Mobile Core
i*-3000 rule's string exactly as authored (that rule is the first match in
the Intel table); with no predicate holding it returns the stepping-9
catch-all instead. -/
theorem ivy_bridge_mobile_core_rule (stash : CodeStash)
    (hMc : Mc stash = true) :
    decode_synth_intel 0x000306A9 (some stash) =
      some "Intel Mobile Core i*-3000 (Ivy Bridge E1/L1) / Pentium 900/1000/2000/2100 (P0)" := by
  have hpre : intelRulesPreIvy.find?
      (fun r => keyMatches 0x000306A9 (some stash) r.code) = none := rfl
  have hhead : keyMatches 0x000306A9 (some stash)
      (SynthCode.FMSQ 0 6 3 10 9 Mc) = true := hMc
  have hivy : intelRulesIvy9.find?
      (fun r => keyMatches 0x000306A9 (some stash) r.code) =
      some (SynthRule.mk (SynthCode.FMSQ 0 6 3 10 9 Mc)
        "Intel Mobile Core i*-3000 (Ivy Bridge E1/L1) / Pentium 900/1000/2000/2100 (P0)") := by
    unfold intelRulesIvy9
    exact List.find?_cons_of_pos _ hhead
  unfold decode_synth_intel synthFind intelTable
  rw [List.find?_append, List.find?_append, hpre, hivy, Option.none_or,
    Option.or_some, Option.map_some']

/-- Witness for the amended Ivy Bridge rule: a mobile Core-branded Intel
stash. -/
theorem ivy_bridge_mobile_core_rule_witness :
    Mc ivyMobileCoreStash = true ∧
    decode_synth_intel 0x000306A9 (some ivyMobileCoreStash) =
      some "Intel Mobile Core i*-3000 (Ivy Bridge E1/L1) / Pentium 900/1000/2000/2100 (P0)" :=
  ⟨by rfl, ivy_bridge_mobile_core_rule ivyMobileCoreStash (by rfl)⟩

/-! ### Override brand theorems -/

/-- Counterexample to C4 as stated: an AMD CPU whose brand string contains
"model unknown" but whose signature matches none of the reconstructor's
family tables ends the pass with an *empty* override brand. -/
theorem override_brand_counterexample :
    amdNoTableStash.vendor = .amd ∧
    strstrC amdNoTableStash.brand "model unknown" = true ∧
    (decode_override_brand amdNoTableStash).override_brand = "" := by
  refine ⟨rfl, by decide, by rfl⟩

/-- **C4 (amended).** For an AMD or Hygon CPU whose brand string contains
"model unknown" *and for which the reconstructor resolves a brand prefix*,
the decode pass stores a non-empty override brand formatted as the prefix,
a space, the processor-number string and, when a suffix was resolved, a
space and the suffix; `decode_brand_stash` then computes every
brand-string-derived predicate from the override brand instead of the
original brand string. -/
theorem override_brand_formats (stash : CodeStash)
    (hv : stash.vendor = .amd ∨ stash.vendor = .hygon)
    (hbrand : strstrC stash.brand "model unknown" = true)
    (pre : String) (post : Option String) (proc : String)
    (hm : decode_amd_model (some stash) = (some pre, post, proc)) :
    (decode_override_brand stash).override_brand =
      pre ++ " " ++ proc ++
        (match post with | some p => " " ++ p | none => "") ∧
    (decode_override_brand stash).override_brand ≠ "" ∧
    decode_brand_stash (decode_override_brand stash) =
      decode_brand_string (decode_override_brand stash).override_brand
        (decode_override_brand stash) := by
  have hcond : ((stash.vendor == Vendor.amd || stash.vendor == Vendor.hygon) &&
      strstrC stash.brand "model unknown") = true := by
    rcases hv with h | h <;> simp [h, hbrand] <;> decide
  have hov : (decode_override_brand stash).override_brand =
      pre ++ " " ++ proc ++
        (match post with | some p => " " ++ p | none => "") := by
    unfold decode_override_brand
    rw [if_pos hcond]
    split
    next brand_pre brand_post proc1 heq =>
      rw [hm] at heq
      simp only [Prod.mk.injEq, Option.some.injEq] at heq
      obtain ⟨e1, e2, e3⟩ := heq
      subst e1; subst e2; subst e3
      cases post <;> rfl
    next a b heq =>
      rw [hm] at heq
      simp at heq
  have hne : (decode_override_brand stash).override_brand ≠ "" := by
    rw [hov]
    intro h
    have hlen := congrArg String.length h
    simp only [String.length_append, String.length_empty,
      Nat.add_eq_zero] at hlen
    exact absurd hlen.1.1.2 (by decide)
  refine ⟨hov, hne, ?_⟩
  unfold decode_brand_stash
  rw [if_pos hne]

/-- Witness for the amended override-brand theorem: a legacy Family 0Fh
FX part whose reconstruction carries a brand suffix. -/
theorem override_brand_formats_witness :
    (amdFxStash.vendor = .amd ∨ amdFxStash.vendor = .hygon) ∧
    strstrC amdFxStash.brand "model unknown" = true ∧
    decode_amd_model (some amdFxStash) =
      (some "AMD Athlon(tm) 64", some "Dual Core", "FX-25") ∧
    (decode_override_brand amdFxStash).override_brand =
      "AMD Athlon(tm) 64" ++ " " ++ "FX-25" ++
        (match (some "Dual Core" : Option String) with
         | some p => " " ++ p | none => "") ∧
    (decode_override_brand amdFxStash).override_brand ≠ "" ∧
    decode_brand_stash (decode_override_brand amdFxStash) =
      decode_brand_string (decode_override_brand amdFxStash).override_brand
        (decode_override_brand amdFxStash) := by
  have h := override_brand_formats amdFxStash (Or.inl rfl) (by decide)
    "AMD Athlon(tm) 64" (some "Dual Core") "FX-25" (by rfl)
  exact ⟨Or.inl rfl, by decide, by rfl, h.1, h.2.1, h.2.2⟩

/-! ### AMD processor-number suffix theorems -/

/-- **C8.** When the AMD legacy brand reconstructor produces a non-empty
processor-number string, `decode_synth_amd`'s final result is the base
table-lookup string (which always exists, thanks to the chain's DEFAULT)
with a space and that processor number appended; the base lookup result is
kept as the prefix, never replaced. -/
theorem amd_proc_suffix_appended (val : Nat) (st : Option CodeStash)
    (hproc : (decode_amd_model st).2.2 ≠ "") :
    ∃ base, synthFind amdTable val st = some base ∧
      decode_synth_amd val st = some (base ++ " " ++ (decode_amd_model st).2.2) := by
  have hlen : 647 < amdTable.length := by decide
  have hmatch : keyMatches val st (amdTable.get ⟨647, hlen⟩).code = true := by rfl
  have hsome : (List.find? (fun r => keyMatches val st r.code) amdTable).isSome := by
    rw [List.find?_isSome]
    exact ⟨amdTable.get ⟨647, hlen⟩, List.get_mem amdTable 647 hlen, hmatch⟩
  obtain ⟨r, hr⟩ := Option.isSome_iff_exists.mp hsome
  have hsf : synthFind amdTable val st = some r.str := by
    unfold synthFind; rw [hr, Option.map_some']
  refine ⟨r.str, hsf, ?_⟩
  unfold decode_synth_amd
  rw [hsf, Option.map_some']
  have hbne : ((decode_amd_model st).2.2 != "") = true := by simpa using hproc
  simp [hbne]

/-- Witness for the appended processor number: a legacy Family 0Fh Athlon 64
whose reconstructed number is "Processor 2600+". -/
theorem amd_proc_suffix_appended_witness :
    (decode_amd_model (some amdLegacyStash)).2.2 ≠ "" ∧
    (∃ base, synthFind amdTable 0xF00 (some amdLegacyStash) = some base ∧
      decode_synth_amd 0xF00 (some amdLegacyStash) =
        some (base ++ " " ++ (decode_amd_model (some amdLegacyStash)).2.2)) :=
  ⟨by decide, amd_proc_suffix_appended 0xF00 (some amdLegacyStash) (by decide)⟩

end Cpuid
